import Mathlib

/-!
Sylo ticketing: the `SyloTicketing` contract behind the Go binding.

`go-eth/contracts/syloTicketing.go` carries the contract twice: as the ABI the
binding marshals against (`SyloTicketingABI`) and as the deployed code
(`SyloTicketingBin`).  The definitions below are the runtime code of
`SyloTicketingBin`, entry point by entry point, with

* storage slot 0 `owner`, slot 1 the token address, slot 2 `unlockDuration`,
  slot 3 the mapping `deposits`, slot 4 the mapping `usedTickets`;
* 256-bit words as `Nat`, with an explicit `% 2 ^ 256` wherever the code does
  unchecked arithmetic;
* a revert as `Except.error` carrying the revert string (the empty string when
  the code reverts without one), so a reverted call has no successor state;
* `keccak256` and the `ecrecover` precompile as parameters (`Crypto`);
* the ERC-20 token, which is another contract, as a balance ledger.

Gas and the `extcodesize` check on the token address are not modelled.

The second half of the definitions is the Go side: the methods of the three
generated bindings (`SyloTicketing`, `StakingManager`, `PriceManager`) with
their sessions, event iterators, filters and parsers, over the methods of
go-ethereum's `BoundContract` as parameters, and the commitment the clients in
`go-eth/client_test.go` and `go-eth/payments_test.go` compute.
-/

namespace Sylo

/-- One byte. -/
abbrev Byte := Fin 256

/-- Big-endian encoding of the low `w` bytes of `n`, as `abi.encodePacked`
writes an unsigned integer of `w` bytes. -/
def toBytesBE : Nat → Nat → List Byte
  | 0, _ => []
  | w + 1, n => toBytesBE w (n / 256) ++ [⟨n % 256, Nat.mod_lt n (by decide)⟩]

/-- Big-endian reading of a byte string, as `mload` reads a word. -/
def fromBytesBE (bs : List Byte) : Nat :=
  bs.foldl (fun acc b => acc * 256 + b.val) 0

/-- The two primitives the contract takes from the EVM: the `keccak256`
instruction, read as an unsigned integer, and the `ecrecover` precompile
`(hash, v, r, s) ↦ address`, which yields 0 when no signer is recovered. -/
structure Crypto where
  keccak256 : List Byte → Nat
  ecrecover : Nat → Nat → Nat → Nat → Nat

/-- The struct `SyloTicketingTicket` of the binding (`SyloTicketing.Ticket`). -/
structure Ticket where
  sender : Nat
  receiver : Nat
  faceValue : Nat
  winProb : Nat
  expirationBlock : Nat
  receiverRandHash : Nat
  senderNonce : Nat
deriving DecidableEq, Repr

/-- One entry of the mapping `deposits` (storage slot 3). -/
structure Deposit where
  escrow : Nat
  penalty : Nat
  unlockAt : Nat
deriving DecidableEq, Repr

/-- Storage of the ticketing contract. -/
structure Storage where
  owner : Nat
  token : Nat
  unlockDuration : Nat
  deposits : Nat → Deposit
  usedTickets : Nat → Bool

/-- The ledger state a transaction runs against: the storage of the ticketing
contract and the balances held in the token contract. -/
structure World where
  storage : Storage
  balanceOf : Nat → Nat

/-- Transaction context: the address of the ticketing contract, `msg.sender`
and `block.number`. -/
structure Env where
  contract : Nat
  caller : Nat
  blockNumber : Nat
deriving DecidableEq, Repr

/-- Point update of a mapping. -/
def update {α : Type} (f : Nat → α) (k : Nat) (v : α) : Nat → α :=
  fun a => if a = k then v else f a

/-- Revert string the modelled token gives when the payer holds too little. -/
def tokenInsufficientBalance : String := "ERC20: transfer amount exceeds balance"

/-- Modelled from the spec: the ERC-20 token contract (`contracts.SyloToken`,
called through the address in slot 1) is not part of the sources.  It is a
ledger of balances; a transfer of `amount` from `src` to `dst` reverts when
`src` holds less than `amount`, and otherwise debits `src` and credits `dst`.
Allowances are not modelled. -/
def tokenTransfer (bal : Nat → Nat) (src dst amount : Nat) : Except String (Nat → Nat) :=
  if bal src < amount then .error tokenInsufficientBalance
  else
    let debited := update bal src (bal src - amount)
    .ok (update debited dst (debited dst + amount))

/-- The ABI decoder of a `Ticket` argument: the two `address` fields and the
`uint32` field must be clean, otherwise the call reverts without a reason. -/
def abiValid (t : Ticket) : Bool :=
  decide (t.sender < 2 ^ 160) && decide (t.receiver < 2 ^ 160) && decide (t.senderNonce < 2 ^ 32)

/-- The packed encoding `getTicketHash` hashes: 20 + 20 + 32 + 32 + 32 + 32 + 4
bytes. -/
def encodeTicket (t : Ticket) : List Byte :=
  toBytesBE 20 t.sender ++ toBytesBE 20 t.receiver ++ toBytesBE 32 t.faceValue ++
    toBytesBE 32 t.winProb ++ toBytesBE 32 t.expirationBlock ++
    toBytesBE 32 t.receiverRandHash ++ toBytesBE 4 t.senderNonce

/-- The function `getTicketHash(ticket)` (selector 0x71e6af6e). -/
def getTicketHash (c : Crypto) (t : Ticket) : Nat :=
  c.keccak256 (encodeTicket t) % 2 ^ 256

/-- Upper bound the ECDSA library puts on the `s` half of a signature. -/
def maxS : Nat := 0x7FFFFFFFFFFFFFFFFFFFFFFFFFFFFFFF5D576E7357A4501DDFE92F46681B20A0

/-- The `r` word of a 65-byte signature. -/
def sigR (sig : List Byte) : Nat := fromBytesBE (sig.take 32)

/-- The `s` word of a 65-byte signature. -/
def sigS (sig : List Byte) : Nat := fromBytesBE ((sig.drop 32).take 32)

/-- The `v` byte of a 65-byte signature. -/
def sigV (sig : List Byte) : Nat := (sig.getD 64 0).val

/-- The recovery id handed to `ecrecover`: a `v` below 27 is raised by 27. -/
def normV (v : Nat) : Nat := if v < 27 then (v + 27) % 256 else v

/-- The ECDSA library routine `recover(hash, signature)` as compiled into the
contract. -/
def recover (c : Crypto) (hash : Nat) (sig : List Byte) : Except String Nat :=
  if sig.length ≠ 65 then .error "ECDSA: invalid signature length"
  else if sigS sig > maxS then .error "ECDSA: invalid signature 's' value"
  else if normV (sigV sig) ≠ 27 ∧ normV (sigV sig) ≠ 28 then
    .error "ECDSA: invalid signature 'v' value"
  else
    let signer := c.ecrecover hash (normV (sigV sig)) (sigR sig) (sigS sig) % 2 ^ 160
    if signer = 0 then .error "ECDSA: invalid signature" else .ok signer

/-- The digest the contract compares with `receiverRandHash`: `keccak256` of
the revealed value as one 32-byte word. -/
def randHash (c : Crypto) (receiverRand : Nat) : Nat :=
  c.keccak256 (toBytesBE 32 receiverRand) % 2 ^ 256

/-- The outcome value of a ticket: `keccak256(sig ++ receiverRand)` read as an
unsigned 256-bit integer. -/
def outcome (c : Crypto) (sig : List Byte) (receiverRand : Nat) : Nat :=
  c.keccak256 (sig ++ toBytesBE 32 receiverRand) % 2 ^ 256

/-- The checks `redeem` runs before it touches the deposit, in the order of
the code. -/
def requireValidWinningTicket (c : Crypto) (env : Env) (st : Storage) (ticket : Ticket)
    (ticketHash receiverRand : Nat) (sig : List Byte) : Except String Unit :=
  if ticket.sender = 0 then .error "Ticket sender is null"
  else if ticket.receiver = 0 then .error "Ticket receiver is null"
  else if ¬ (ticket.expirationBlock = 0 ∨ env.blockNumber ≤ ticket.expirationBlock) then
    .error "Ticket has expired"
  else if st.usedTickets ticketHash = true then .error "Ticket already redeemed"
  else if randHash c receiverRand ≠ ticket.receiverRandHash then
    .error "Hash of receiverRand doesn't match receiverRandHash"
  else
    match recover c ticketHash sig with
    | .error e => .error e
    | .ok signer =>
      if signer ≠ ticket.sender then .error "Ticket doesn't have a valid signature"
      else if ¬ (outcome c sig receiverRand < ticket.winProb) then
        .error "Ticket is not a winner"
      else .ok ()

/-- The deposit of the sender after a winning ticket of `faceValue` is paid:
out of the escrow when it suffices, otherwise the escrow is emptied and the
rest is taken from the penalty (both subtractions are checked). -/
def payOut (d : Deposit) (faceValue : Nat) : Except String Deposit :=
  if faceValue > d.escrow then
    if faceValue - d.escrow > d.penalty then .error "SafeMath: subtraction overflow"
    else .ok { d with escrow := 0, penalty := d.penalty - (faceValue - d.escrow) }
  else .ok { d with escrow := d.escrow - faceValue }

/-- The body of `redeem` after the checks: the funds check, the replay mark,
the debit of the deposit and the token transfer to the receiver. -/
def pay (env : Env) (w : World) (ticket : Ticket) (ticketHash : Nat) : Except String World :=
  let deposit := w.storage.deposits ticket.sender
  if (deposit.escrow + deposit.penalty) % 2 ^ 256 < ticket.faceValue then
    .error "Sender doesn't have enough funds to pay"
  else
    match payOut deposit ticket.faceValue with
    | .error e => .error e
    | .ok deposit1 =>
      match tokenTransfer w.balanceOf env.contract ticket.receiver ticket.faceValue with
      | .error e => .error e
      | .ok balances =>
        .ok { storage := { w.storage with
                usedTickets := update w.storage.usedTickets ticketHash true
                deposits := update w.storage.deposits ticket.sender deposit1 }
              balanceOf := balances }

/-- The function `redeem(ticket, receiverRand, sig)` (selector 0x4e055fe2). -/
def redeem (c : Crypto) (env : Env) (w : World) (ticket : Ticket) (receiverRand : Nat)
    (sig : List Byte) : Except String World :=
  if abiValid ticket = false then .error ""
  else
    match requireValidWinningTicket c env w.storage ticket (getTicketHash c ticket)
        receiverRand sig with
    | .error e => .error e
    | .ok _ => pay env w ticket (getTicketHash c ticket)

/-- The ledger after a transaction: the successor state when the call
returned, the state before when it reverted. -/
def settle (w : World) (r : Except String World) : World :=
  match r with
  | .ok w1 => w1
  | .error _ => w

/-- The getter `usedTickets(hash)` (selector 0x59a515ba). -/
def usedTickets (w : World) (hash : Nat) : Bool := w.storage.usedTickets hash

/-- The getter `deposits(account)` (selector 0xfc7e286d). -/
def deposits (w : World) (account : Nat) : Deposit := w.storage.deposits account

/-- Modelled from the spec: `transferFrom(src, dst, amount)` of the token, called
by the ticketing contract to pull a deposit; it moves balances as
`tokenTransfer` does. -/
def tokenTransferFrom (bal : Nat → Nat) (src dst amount : Nat) : Except String (Nat → Nat) :=
  tokenTransfer bal src dst amount

/-- The code behind `depositEscrow` and `depositEscrowFor`, entered after the
arguments are decoded. -/
def depositEscrowBody (env : Env) (w : World) (amount account : Nat) : Except String World :=
  let d := w.storage.deposits account
  if d.unlockAt ≠ 0 then .error "Cannot deposit while unlocking"
  else
    match tokenTransferFrom w.balanceOf env.caller env.contract amount with
    | .error e => .error e
    | .ok balances =>
      .ok { storage := { w.storage with
              deposits := update w.storage.deposits account
                { d with escrow := (amount + d.escrow) % 2 ^ 256 } }
            balanceOf := balances }

/-- The function `depositEscrowFor(amount, account)` (selector 0x6fd459dc). -/
def depositEscrowFor (env : Env) (w : World) (amount account : Nat) : Except String World :=
  if decide (account < 2 ^ 160) = false then .error ""
  else depositEscrowBody env w amount account

/-- The code behind `depositPenalty` and `depositPenaltyFor`, entered after the
arguments are decoded. -/
def depositPenaltyBody (env : Env) (w : World) (amount account : Nat) : Except String World :=
  let d := w.storage.deposits account
  if d.unlockAt ≠ 0 then .error "Cannot deposit while unlocking"
  else
    match tokenTransferFrom w.balanceOf env.caller env.contract amount with
    | .error e => .error e
    | .ok balances =>
      .ok { storage := { w.storage with
              deposits := update w.storage.deposits account
                { d with penalty := (amount + d.penalty) % 2 ^ 256 } }
            balanceOf := balances }

/-- The function `depositPenaltyFor(amount, account)` (selector 0x8594b093). -/
def depositPenaltyFor (env : Env) (w : World) (amount account : Nat) : Except String World :=
  if decide (account < 2 ^ 160) = false then .error ""
  else depositPenaltyBody env w amount account

/-- The function `depositEscrow(amount)` (selector 0xcb991efe): a deposit for
`msg.sender`. -/
def depositEscrow (env : Env) (w : World) (amount : Nat) : Except String World :=
  depositEscrowBody env w amount env.caller

/-- The function `depositPenalty(amount)` (selector 0x74d3fe72): a deposit for
`msg.sender`. -/
def depositPenalty (env : Env) (w : World) (amount : Nat) : Except String World :=
  depositPenaltyBody env w amount env.caller

/-- The function `unlockDeposits()` (selector 0x7d6babb4); it returns the new
`unlockAt` next to the successor state. -/
def unlockDeposits (env : Env) (w : World) : Except String (World × Nat) :=
  let d := w.storage.deposits env.caller
  if ¬ (d.escrow > 0 ∨ d.penalty > 0) then .error "Nothing to withdraw"
  else if d.unlockAt ≠ 0 then .error "Unlock already in progress"
  else
    let unlockAt := (env.blockNumber + w.storage.unlockDuration) % 2 ^ 256
    .ok ({ w with storage := { w.storage with
            deposits := update w.storage.deposits env.caller { d with unlockAt := unlockAt } } },
         unlockAt)

/-- The function `lockDeposits()` (selector 0xd088a231). -/
def lockDeposits (env : Env) (w : World) : Except String World :=
  let d := w.storage.deposits env.caller
  if d.unlockAt = 0 then .error "Not unlocking, cannot lock"
  else
    .ok { w with storage := { w.storage with
            deposits := update w.storage.deposits env.caller { d with unlockAt := 0 } } }

/-- The code behind `withdraw` and `withdrawTo`, entered after the argument is
decoded: the deposit of `msg.sender` is paid out to `account`. -/
def withdrawBody (env : Env) (w : World) (account : Nat) : Except String World :=
  let d := w.storage.deposits env.caller
  if ¬ (d.unlockAt > 0) then .error "Deposits not unlocked"
  else if ¬ (d.unlockAt < env.blockNumber) then .error "Unlock period not complete"
  else
    let amount := (d.penalty + d.escrow) % 2 ^ 256
    match tokenTransfer w.balanceOf env.contract account amount with
    | .error e => .error e
    | .ok balances =>
      .ok { storage := { w.storage with
              deposits := update w.storage.deposits env.caller
                { escrow := 0, penalty := 0, unlockAt := 0 } }
            balanceOf := balances }

/-- The function `withdrawTo(account)` (selector 0x72b0d90c). -/
def withdrawTo (env : Env) (w : World) (account : Nat) : Except String World :=
  if decide (account < 2 ^ 160) = false then .error ""
  else withdrawBody env w account

/-- The function `withdraw()` (selector 0x3ccfd60b): a withdrawal to
`msg.sender`. -/
def withdraw (env : Env) (w : World) : Except String World :=
  withdrawBody env w env.caller

/-- The function `setUnlockDuration(newUnlockDuration)` (selector 0xdd900769). -/
def setUnlockDuration (env : Env) (w : World) (newUnlockDuration : Nat) : Except String World :=
  if env.caller % 2 ^ 160 ≠ w.storage.owner % 2 ^ 160 then
    .error "Ownable: caller is not the owner"
  else .ok { w with storage := { w.storage with unlockDuration := newUnlockDuration } }

/-- The function `transferOwnership(newOwner)` (selector 0xf2fde38b). -/
def transferOwnership (env : Env) (w : World) (newOwner : Nat) : Except String World :=
  if decide (newOwner < 2 ^ 160) = false then .error ""
  else if env.caller % 2 ^ 160 ≠ w.storage.owner % 2 ^ 160 then
    .error "Ownable: caller is not the owner"
  else if newOwner = 0 then .error "Ownable: new owner is the zero address"
  else .ok { w with storage := { w.storage with owner := newOwner } }

/-- The function `renounceOwnership()` (selector 0x715018a6). -/
def renounceOwnership (env : Env) (w : World) : Except String World :=
  if env.caller % 2 ^ 160 ≠ w.storage.owner % 2 ^ 160 then
    .error "Ownable: caller is not the owner"
  else .ok { w with storage := { w.storage with owner := 0 } }

/-- A state-changing call of the ticketing contract. -/
inductive Call where
  | depositEscrow (amount : Nat)
  | depositEscrowFor (amount account : Nat)
  | depositPenalty (amount : Nat)
  | depositPenaltyFor (amount account : Nat)
  | unlockDeposits
  | lockDeposits
  | withdraw
  | withdrawTo (account : Nat)
  | redeem (ticket : Ticket) (receiverRand : Nat) (sig : List Byte)
  | setUnlockDuration (newUnlockDuration : Nat)
  | transferOwnership (newOwner : Nat)
  | renounceOwnership

/-- The dispatcher: what one call does to the ledger. -/
def Call.run (c : Crypto) (env : Env) (w : World) : Call → Except String World
  | .depositEscrow amount => Sylo.depositEscrow env w amount
  | .depositEscrowFor amount account => Sylo.depositEscrowFor env w amount account
  | .depositPenalty amount => Sylo.depositPenalty env w amount
  | .depositPenaltyFor amount account => Sylo.depositPenaltyFor env w amount account
  | .unlockDeposits => (Sylo.unlockDeposits env w).map Prod.fst
  | .lockDeposits => Sylo.lockDeposits env w
  | .withdraw => Sylo.withdraw env w
  | .withdrawTo account => Sylo.withdrawTo env w account
  | .redeem ticket receiverRand sig => Sylo.redeem c env w ticket receiverRand sig
  | .setUnlockDuration d => Sylo.setUnlockDuration env w d
  | .transferOwnership newOwner => Sylo.transferOwnership env w newOwner
  | .renounceOwnership => Sylo.renounceOwnership env w

/-- The ledger after a sequence of transactions, each with its own context;
a transaction that reverts leaves the ledger as it was. -/
def runCalls (c : Crypto) (w : World) : List (Env × Call) → World
  | [] => w
  | (env, call) :: rest => runCalls c (settle w (call.run c env w)) rest

/-- Whether a ticket is past its expiration at a block height: an
`expirationBlock` of 0 never expires. -/
def expired (ticket : Ticket) (blockNumber : Nat) : Bool :=
  decide (ticket.expirationBlock ≠ 0) && decide (ticket.expirationBlock < blockNumber)

/-- The checks of `redeem` that come before signature verification: the
ticket decodes, sender and receiver are not null, the ticket is not expired,
its hash is not yet in `usedTickets`, and the revealed value hashes to
`receiverRandHash`. -/
def passesCommitment (c : Crypto) (env : Env) (w : World) (ticket : Ticket)
    (receiverRand : Nat) : Bool :=
  abiValid ticket && decide (ticket.sender ≠ 0) && decide (ticket.receiver ≠ 0) &&
    !expired ticket env.blockNumber && !w.storage.usedTickets (getTicketHash c ticket) &&
    decide (randHash c receiverRand = ticket.receiverRandHash)

/-- The signature is well formed and the account recovered from it over
`getTicketHash(ticket)` is `ticket.sender`. -/
def validSignature (c : Crypto) (ticket : Ticket) (sig : List Byte) : Bool :=
  match recover c (getTicketHash c ticket) sig with
  | .ok signer => decide (signer = ticket.sender)
  | .error _ => false

/-- A ticket that passes every validity check of `redeem` short of the win
evaluation. -/
def validTicket (c : Crypto) (env : Env) (w : World) (ticket : Ticket) (receiverRand : Nat)
    (sig : List Byte) : Bool :=
  passesCommitment c env w ticket receiverRand && validSignature c ticket sig

/-- The deposit of the sender after a payment that passed the funds check. -/
def paidDeposit (d : Deposit) (fv : Nat) : Deposit :=
  if fv > d.escrow then { d with escrow := 0, penalty := d.penalty - (fv - d.escrow) }
  else { d with escrow := d.escrow - fv }

/-- The successor ledger of a payment that goes through. -/
def paidWorld (env : Env) (w : World) (t : Ticket) (hash : Nat) : World :=
  { storage := { w.storage with
      usedTickets := update w.storage.usedTickets hash true
      deposits := update w.storage.deposits t.sender
        (paidDeposit (w.storage.deposits t.sender) t.faceValue) }
    balanceOf :=
      update (update w.balanceOf env.contract (w.balanceOf env.contract - t.faceValue))
        t.receiver
        (update w.balanceOf env.contract (w.balanceOf env.contract - t.faceValue) t.receiver
          + t.faceValue) }

/-- The revert strings of the signature check: those of the ECDSA routine and
the one `redeem` gives when the recovered account is not the sender. -/
def signatureErrors : List String :=
  ["ECDSA: invalid signature length", "ECDSA: invalid signature 's' value",
    "ECDSA: invalid signature 'v' value", "ECDSA: invalid signature",
    "Ticket doesn't have a valid signature"]

/-- The ticket of the examples with the largest `winProb`, committed under
`maxCrypto`. -/
def maxTicket : Ticket :=
  { sender := 11, receiver := 22, faceValue := 8, winProb := 2 ^ 256 - 1,
    expirationBlock := 0, receiverRandHash := 2 ^ 256 - 1, senderNonce := 1 }

/-- A hash that is the length of its input, and a recovery that returns `r`:
stand-ins that make ledger runs computable. -/
def toyCrypto : Crypto where
  keccak256 := fun bs => bs.length
  ecrecover := fun _ _ r _ => r

/-- A hash that is constantly the largest 256-bit value, with the recovery of
`toyCrypto`. -/
def maxCrypto : Crypto where
  keccak256 := fun _ => 2 ^ 256 - 1
  ecrecover := fun _ _ r _ => r

/-- A 65-byte signature with `r = signer`, `s = 1` and `v = 27`. -/
def toySig (signer : Nat) : List Byte :=
  toBytesBE 32 signer ++ toBytesBE 32 1 ++ toBytesBE 1 27

/-- A ledger with one funded sender: account `sender` holds `escrow` and
`penalty`, and the ticketing contract (address 1000) holds 1000 tokens. -/
def toyWorld (sender escrow penalty : Nat) : World where
  storage :=
    { owner := 1, token := 2000, unlockDuration := 10,
      deposits := fun a => if a = sender then ⟨escrow, penalty, 0⟩ else ⟨0, 0, 0⟩,
      usedTickets := fun _ => false }
  balanceOf := fun a => if a = 1000 then 1000 else 0

/-- The context of the examples: contract 1000, caller 7, block 5. -/
def toyEnv : Env := { contract := 1000, caller := 7, blockNumber := 5 }

/-- A ticket from account 11 to account 22 over 8 tokens whose commitment is
the `toyCrypto` hash of any revealed value. -/
def toyTicket (winProb expirationBlock : Nat) : Ticket :=
  { sender := 11, receiver := 22, faceValue := 8, winProb := winProb,
    expirationBlock := expirationBlock, receiverRandHash := 32, senderNonce := 1 }

/-- A ticket whose fields fit the types of the struct: two addresses, four
256-bit words and a `uint32`. -/
def wellTyped (t : Ticket) : Bool :=
  abiValid t && decide (t.faceValue < 2 ^ 256) && decide (t.winProb < 2 ^ 256) &&
    decide (t.expirationBlock < 2 ^ 256) && decide (t.receiverRandHash < 2 ^ 256)

/-- A ledger in which account 7 has the deposit `d` and the ticketing contract
(address 1000) holds 1000 tokens, with the given `unlockDuration`. -/
def toyDepositWorld (d : Deposit) (unlockDuration : Nat) : World where
  storage :=
    { owner := 1, token := 2000, unlockDuration := unlockDuration,
      deposits := fun a => if a = 7 then d else ⟨0, 0, 0⟩,
      usedTickets := fun _ => false }
  balanceOf := fun a => if a = 1000 then 1000 else 0

/-! The `StakingManager` contract (`go-eth/contracts/staking_manager.go`,
`StakingManagerBin`): storage slot 0x65 the token address, 0x66
`unlockDuration`, 0x68 the mapping `stakes`, 0x69 the mapping `stakers`, 0x6a
the mapping `totalStakes`, 0x6b `totalStake`, 0x6c the array `stakees`, 0x6d the
mapping `unlockings`.  Its arithmetic is checked: an overflow reverts with
`Panic(0x11)`. -/

/-- One entry of the mapping `stakes`. -/
structure Stake where
  amount : Nat
  stakee : Nat
deriving DecidableEq, Repr

/-- One entry of the mapping `unlockings`. -/
structure Unlock where
  amount : Nat
  unlockAt : Nat
deriving DecidableEq, Repr

/-- Storage of the staking manager. -/
structure StakingStorage where
  token : Nat
  unlockDuration : Nat
  stakes : Nat → Stake
  stakers : Nat → List Nat
  totalStakes : Nat → Nat
  totalStake : Nat
  stakees : List Nat
  unlockings : Nat → Unlock

/-- The ledger state a staking transaction runs against: the storage of the
staking manager and the balances held in the token contract. -/
structure StakingWorld where
  storage : StakingStorage
  balanceOf : Nat → Nat

/-- The revert of checked arithmetic of the staking manager. -/
def panicOverflow : String := "Panic(0x11)"

/-- The function `getKey(staker, stakee)` (selector 0xbc298553): the hash of
the two addresses packed on 20 bytes each. -/
def getKey (c : Crypto) (staker stakee : Nat) : Nat :=
  c.keccak256 (toBytesBE 20 staker ++ toBytesBE 20 stakee) % 2 ^ 256

/-- The getter `stakes(key)` (selector 0x8fee6407). -/
def stakes (w : StakingWorld) (key : Nat) : Stake := w.storage.stakes key

/-- The getter `unlockings(key)` (selector 0x9341a536). -/
def unlockings (w : StakingWorld) (key : Nat) : Unlock := w.storage.unlockings key

/-- The internal routine that books `amount` as stake of `msg.sender` on
`stakee`, shared by `addStake` and `cancelUnlocking`: a first stake enters the
staker in `stakers[stakee]`, a first stake on the stakee enters it in
`stakees`, and the three sums are raised with checked additions. -/
def addStakeBody (c : Crypto) (env : Env) (st : StakingStorage) (amount stakee : Nat) :
    Except String StakingStorage :=
  if stakee = 0 then .error "Address is null"
  else if amount = 0 then .error "Cannot stake nothing"
  else
    let key := getKey c env.caller stakee
    let stake := st.stakes key
    if stake.amount ≠ 0 ∧ ¬ (stake.amount + amount < 2 ^ 256) then .error panicOverflow
    else if ¬ (st.totalStakes stakee + amount < 2 ^ 256) then .error panicOverflow
    else if ¬ (st.totalStake + amount < 2 ^ 256) then .error panicOverflow
    else
      .ok { st with
        stakes := update st.stakes key
          (if stake.amount = 0 then { amount := amount, stakee := stakee }
            else { stake with amount := stake.amount + amount })
        stakers :=
          if stake.amount = 0 then update st.stakers stakee (st.stakers stakee ++ [env.caller])
          else st.stakers
        stakees := if st.totalStakes stakee = 0 then st.stakees ++ [stakee] else st.stakees
        totalStakes := update st.totalStakes stakee (st.totalStakes stakee + amount)
        totalStake := st.totalStake + amount }

/-- The function `cancelUnlocking(amount, stakee)` (selector 0x23314c6c): the
amount is taken out of the unlocking of `msg.sender` on `stakee` (the record is
deleted when the amount is all of it) and booked as stake again; no token is
moved. -/
def cancelUnlocking (c : Crypto) (env : Env) (w : StakingWorld) (amount stakee : Nat) :
    Except String StakingWorld :=
  if decide (stakee < 2 ^ 160) = false then .error ""
  else
    let key := getKey c env.caller stakee
    let unlock := w.storage.unlockings key
    if unlock.amount ≠ amount ∧ ¬ (amount < unlock.amount) then
      .error "Unlock has insufficient amount"
    else
      let unlock1 : Unlock :=
        if unlock.amount = amount then { amount := 0, unlockAt := 0 }
        else { unlock with amount := unlock.amount - amount }
      match addStakeBody c env
          { w.storage with unlockings := update w.storage.unlockings key unlock1 }
          amount stakee with
      | .error e => .error e
      | .ok st => .ok { w with storage := st }

/-- The function `withdrawStake(stakee)` (selector 0xc23a5cea). -/
def withdrawStake (c : Crypto) (env : Env) (w : StakingWorld) (stakee : Nat) :
    Except String StakingWorld :=
  if decide (stakee < 2 ^ 160) = false then .error ""
  else
    let key := getKey c env.caller stakee
    let unlock := w.storage.unlockings key
    if ¬ (unlock.unlockAt < env.blockNumber) then .error "Stake not yet unlocked"
    else if unlock.amount = 0 then .error "No amount to withdraw"
    else
      match tokenTransfer w.balanceOf env.contract env.caller unlock.amount with
      | .error e => .error e
      | .ok balances =>
        .ok { storage := { w.storage with
                unlockings := update w.storage.unlockings key { amount := 0, unlockAt := 0 } }
              balanceOf := balances }

/-- The staking ledger after a transaction: the successor state when the call
returned, the state before when it reverted. -/
def settleStaking (w : StakingWorld) (r : Except String StakingWorld) : StakingWorld :=
  match r with
  | .ok w1 => w1
  | .error _ => w

/-- A staking ledger in which account 7 has the stake `stake` and the unlocking
`unlock` on stakee 9 (under the key of `toyCrypto`, the length 40), and the
staking manager (address 1000) holds 1000 tokens. -/
def toyStakingWorld (stake : Nat) (unlock : Unlock) : StakingWorld where
  storage :=
    { token := 2000, unlockDuration := 10,
      stakes := fun k => if k = 40 then ⟨stake, 9⟩ else ⟨0, 0⟩,
      stakers := fun a => if a = 9 then [7] else [],
      totalStakes := fun a => if a = 9 then stake else 0,
      totalStake := stake,
      stakees := [9],
      unlockings := fun k => if k = 40 then unlock else ⟨0, 0⟩ }
  balanceOf := fun a => if a = 1000 then 1000 else 0


/-! The Go bindings (`go-eth/contracts/syloTicketing.go`, `staking_manager.go`,
`price_manager.go`), as abigen generated them.  They call into
`bind.BoundContract` of go-ethereum, which is a library and not part of the
repository: its methods are the fields of `BoundContract` below, so a
statement about a binding holds for every backend.  A Go result `(T, error)`
is a pair whose second component is `none` for a nil error, a run-time panic
is `Except.error`, and a channel is the list of the values buffered in it when
the method runs. -/

/-- A Go `error` that is not nil; a value of type `error` is an
`Option GoError`. -/
abbrev GoError := String

/-- A Go `*big.Int`: nil or an integer. -/
abbrev BigInt := Option Int

/-- The values that pass through `interface\x7b\x7d` in the bindings: the
arguments of the contract methods and the outputs a call unpacks. -/
inductive Val where
  | address (a : Nat)
  | bigInt (n : BigInt)
  | bytes32 (b : List Byte)
  | bytes (b : List Byte)
  | bool (b : Bool)
  | ticket (t : Ticket)
  | bigInts (l : List BigInt)
  | addresses (l : List Nat)
  | stake (amount : BigInt) (stakee : Nat)
  | deposit (escrow penalty unlockAt : BigInt)
deriving DecidableEq, Repr

/-- The run-time panics of the Go code embedded here: an index into the output
slice that is out of range, a failed `abi.ConvertType`, and a `FillBytes` into
a buffer that is too small. -/
inductive GoPanic where
  | indexOutOfRange (index length : Nat)
  | conversion
  | bufferTooSmall
deriving DecidableEq, Repr

/-- The struct `bind.CallOpts` (without its `Context`). -/
structure CallOpts where
  Pending : Bool
  From : Nat
  BlockNumber : BigInt
deriving DecidableEq, Repr

/-- The struct `bind.TransactOpts` (without its `Signer` and `Context`). -/
structure TransactOpts where
  From : Nat
  Nonce : BigInt
  Value : BigInt
  GasPrice : BigInt
  GasLimit : Nat
deriving DecidableEq, Repr

/-- The struct `bind.FilterOpts` (without its `Context`). -/
structure FilterOpts where
  Start : Nat
  End : Option Nat
deriving DecidableEq, Repr

/-- The struct `bind.WatchOpts` (without its `Context`). -/
structure WatchOpts where
  Start : Option Nat
deriving DecidableEq, Repr

/-- A `types.Transaction`, represented by what `Transact` builds it from: the
sending account, the contract method and the arguments packed into its
input. -/
structure Transaction where
  From : Nat
  method : String
  params : List Val
deriving DecidableEq, Repr

/-- The struct `types.Log`. -/
structure Log where
  Address : Nat
  Topics : List Nat
  Data : List Byte
  BlockNumber : Nat
  TxHash : Nat
  TxIndex : Nat
  BlockHash : Nat
  Index : Nat
  Removed : Bool
deriving DecidableEq, Repr

/-- The zero value of `types.Log`. -/
def Log.zero : Log :=
  { Address := 0, Topics := [], Data := [], BlockNumber := 0, TxHash := 0, TxIndex := 0,
    BlockHash := 0, Index := 0, Removed := false }

/-- The event structs `SyloTicketingOwnershipTransferred`,
`PriceManagerOwnershipTransferred` and `StakingManagerOwnershipTransferred`,
which have the same three fields. -/
structure OwnershipTransferred where
  PreviousOwner : Nat
  NewOwner : Nat
  Raw : Log
deriving DecidableEq, Repr

/-- The struct `new(...OwnershipTransferred)` points to. -/
def OwnershipTransferred.zero : OwnershipTransferred :=
  { PreviousOwner := 0, NewOwner := 0, Raw := Log.zero }

/-- An `ethereum.Subscription`, as far as the bindings read it: the state of
the channel `Err()`.  A running subscription has sent nothing, a failed one
has its error buffered, and a channel that was closed (the subscription ended
without error, or its error was taken) yields nil. -/
inductive Subscription where
  | running
  | failed (e : GoError)
  | closed
deriving DecidableEq, Repr

/-- A receive on `sub.Err()`: `none` when the receive cannot proceed, else the
value received and the channel afterwards. -/
def Subscription.Err : Subscription → Option (Option GoError × Subscription)
  | .running => none
  | .failed e => some (some e, .closed)
  | .closed => some (none, .closed)

/-- The methods of `bind.BoundContract` the bindings call.  `R` is what the
`result` argument of `Call` points to: one value in the go-ethereum the
`SyloTicketing` binding was generated for, the slice of outputs in the one of
the two other bindings; `Call` gets what is there before the call and returns
what is there after it.  `FilterLogs` and `WatchLogs` return the log channel,
the subscription and the error; `UnpackLog` gets and returns the struct `out`
points to. -/
structure BoundContract (R : Type) where
  Call : CallOpts → R → String → List Val → R × Option GoError
  Transact : TransactOpts → String → List Val → Option Transaction × Option GoError
  FilterLogs : FilterOpts → String → List (List Val) → List Log × Subscription × Option GoError
  WatchLogs : WatchOpts → String → List (List Val) → List Log × Subscription × Option GoError
  UnpackLog : OwnershipTransferred → String → Log → OwnershipTransferred × Option GoError

/-- The iterator structs `SyloTicketingOwnershipTransferredIterator`,
`PriceManagerOwnershipTransferredIterator` and
`StakingManagerOwnershipTransferredIterator`: the same fields, and the same
methods up to the name of the event struct.  `Event` is `none` for a nil
pointer and `fail` is `none` for a nil error. -/
structure OwnershipTransferredIterator (R : Type) where
  Event : Option OwnershipTransferred
  contract : BoundContract R
  event : String
  logs : List Log
  sub : Subscription
  done : Bool
  fail : Option GoError

/-- How a call of `Next` ends: it returns, it waits in the `select` that has
no `default` because neither channel has a value, or the model ran out of
fuel for its recursive call. -/
inductive NextResult (R : Type) where
  | returned (more : Bool) (it : OwnershipTransferredIterator R)
  | blocked
  | outOfFuel

/-- The body of `case log := <-it.logs` in `Next`, which is the same text in
both `select` statements: a fresh event struct is unpacked into, a failure is
kept in `fail`, and a success gets the log as `Raw`. -/
def OwnershipTransferredIterator.receive {R : Type} (it : OwnershipTransferredIterator R)
    (log : Log) (rest : List Log) : NextResult R :=
  match it.contract.UnpackLog OwnershipTransferred.zero it.event log with
  | (ev, some err) => .returned false { it with logs := rest, Event := some ev, fail := some err }
  | (ev, none) => .returned true { it with logs := rest, Event := some { ev with Raw := log } }

/-- The method `Next`.  The fuel counts the calls of `Next` that may still be
made, this one included; `pickSub` is the choice of the `select` when both
channels have a value (Go picks one of the ready cases at random). -/
def OwnershipTransferredIterator.Next {R : Type} (pickSub : Bool) :
    Nat → OwnershipTransferredIterator R → NextResult R
  | 0, _ => .outOfFuel
  | fuel + 1, it =>
    match it.fail with
    | some _ => .returned false it
    | none =>
      if it.done then
        match it.logs with
        | log :: rest => it.receive log rest
        | [] => .returned false it
      else
        match it.logs, it.sub.Err with
        | [], none => .blocked
        | log :: rest, none => it.receive log rest
        | [], some (err, sub) =>
          OwnershipTransferredIterator.Next pickSub fuel
            { it with sub := sub, done := true, fail := err }
        | log :: rest, some (err, sub) =>
          if pickSub then
            OwnershipTransferredIterator.Next pickSub fuel
              { it with sub := sub, done := true, fail := err }
          else it.receive log rest

/-- The method `Error`. -/
def OwnershipTransferredIterator.Error {R : Type} (it : OwnershipTransferredIterator R) :
    Option GoError :=
  it.fail

/-- The methods `FilterOwnershipTransferred` of the three filterers, which are
the same text: the iterator over the logs `FilterLogs` found. -/
def FilterOwnershipTransferred {R : Type} (contract : BoundContract R) (opts : FilterOpts)
    (previousOwner newOwner : List Nat) :
    Option (OwnershipTransferredIterator R) × Option GoError :=
  let previousOwnerRule : List Val :=
    previousOwner.foldl (fun rule previousOwnerItem => rule ++ [Val.address previousOwnerItem]) []
  let newOwnerRule : List Val :=
    newOwner.foldl (fun rule newOwnerItem => rule ++ [Val.address newOwnerItem]) []
  match contract.FilterLogs opts "OwnershipTransferred" [previousOwnerRule, newOwnerRule] with
  | (_, _, some err) => (none, some err)
  | (logs, sub, none) =>
    (some { Event := none, contract := contract, event := "OwnershipTransferred", logs := logs,
            sub := sub, done := false, fail := none }, none)

/-- What the subscription returned by `WatchOwnershipTransferred` runs on: the
contract, the log channel and subscription of `WatchLogs`, and the sink.  Its
forwarding loop runs in a goroutine of its own and is not modelled. -/
structure WatchSubscription (R : Type) where
  contract : BoundContract R
  logs : List Log
  sub : Subscription
  sink : List OwnershipTransferred

/-- The methods `WatchOwnershipTransferred` of the three filterers, which are
the same text up to the return of `event.NewSubscription`. -/
def WatchOwnershipTransferred {R : Type} (contract : BoundContract R) (opts : WatchOpts)
    (sink : List OwnershipTransferred) (previousOwner newOwner : List Nat) :
    Option (WatchSubscription R) × Option GoError :=
  let previousOwnerRule : List Val :=
    previousOwner.foldl (fun rule previousOwnerItem => rule ++ [Val.address previousOwnerItem]) []
  let newOwnerRule : List Val :=
    newOwner.foldl (fun rule newOwnerItem => rule ++ [Val.address newOwnerItem]) []
  match contract.WatchLogs opts "OwnershipTransferred" [previousOwnerRule, newOwnerRule] with
  | (_, _, some err) => (none, some err)
  | (logs, sub, none) =>
    (some { contract := contract, logs := logs, sub := sub, sink := sink }, none)


/-- The struct `StakingManagerStake` of the binding. -/
structure StakingManagerStake where
  Amount : BigInt
  Stakee : Nat
deriving DecidableEq, Repr

/-- The zero value of `StakingManagerStake`. -/
def StakingManagerStake.zero : StakingManagerStake := { Amount := none, Stakee := 0 }

/-- The type assertion to `*big.Int`. -/
def Val.toBigInt : Val → Option BigInt
  | .bigInt n => some n
  | _ => none

/-- The type assertion to `common.Address`. -/
def Val.toAddress : Val → Option Nat
  | .address a => some a
  | _ => none

/-- The type assertion to `[32]byte`. -/
def Val.toBytes32 : Val → Option (List Byte)
  | .bytes32 b => some b
  | _ => none

/-- The type assertion to `[]common.Address`. -/
def Val.toAddresses : Val → Option (List Nat)
  | .addresses l => some l
  | _ => none

/-- The type assertion to `StakingManagerStake`. -/
def Val.toStake : Val → Option StakingManagerStake
  | .stake amount stakee => some { Amount := amount, Stakee := stakee }
  | _ => none

/-- The expression `*abi.ConvertType(out[i], new(T)).(*T)` of the callers: the
index panics when `out` has no element `i`, and the conversion panics when the
element is not a `T`. -/
def outAs {α : Type} (assert : Val → Option α) (out : List Val) (i : Nat) : Except GoPanic α :=
  match out.get? i with
  | none => .error (.indexOutOfRange i out.length)
  | some v =>
    match assert v with
    | none => .error .conversion
    | some x => .ok x

/-! The binding `SyloTicketing` (`go-eth/contracts/syloTicketing.go`). -/

/-- The struct `SyloTicketingCaller`. -/
structure SyloTicketingCaller where
  contract : BoundContract Val

/-- The struct `SyloTicketingTransactor`. -/
structure SyloTicketingTransactor where
  contract : BoundContract Val

/-- The struct `SyloTicketingFilterer`. -/
structure SyloTicketingFilterer where
  contract : BoundContract Val

/-- The struct `SyloTicketing`, which embeds the caller, the transactor and the filterer. -/
structure SyloTicketing where
  SyloTicketingCaller : SyloTicketingCaller
  SyloTicketingTransactor : SyloTicketingTransactor
  SyloTicketingFilterer : SyloTicketingFilterer

/-- The struct `SyloTicketingSession`. -/
structure SyloTicketingSession where
  Contract : SyloTicketing
  CallOpts : CallOpts
  TransactOpts : TransactOpts

/-- The struct `SyloTicketingCallerSession`. -/
structure SyloTicketingCallerSession where
  Contract : SyloTicketingCaller
  CallOpts : CallOpts

/-- The struct `SyloTicketingTransactorSession`. -/
structure SyloTicketingTransactorSession where
  Contract : SyloTicketingTransactor
  TransactOpts : TransactOpts

/-- The method `SyloTicketingCaller.Deposits` (line 206). -/
def SyloTicketingCaller.Deposits (b : SyloTicketingCaller) (opts : CallOpts) (arg0 : Nat) :
    Val × Option GoError :=
  let ret := Val.deposit none none none
  b.contract.Call opts ret "deposits" [Val.address arg0]

/-- The method `SyloTicketingSession.Deposits` (line 224). -/
def SyloTicketingSession.Deposits (s : SyloTicketingSession) (arg0 : Nat) :
    Val × Option GoError :=
  SyloTicketingCaller.Deposits s.Contract.SyloTicketingCaller s.CallOpts arg0

/-- The method `SyloTicketingCallerSession.Deposits` (line 235). -/
def SyloTicketingCallerSession.Deposits (s : SyloTicketingCallerSession) (arg0 : Nat) :
    Val × Option GoError :=
  SyloTicketingCaller.Deposits s.Contract s.CallOpts arg0

/-- The method `SyloTicketingCaller.GetTicketHash` (line 246). -/
def SyloTicketingCaller.GetTicketHash (b : SyloTicketingCaller) (opts : CallOpts)
    (ticket : Ticket) :
    Val × Option GoError :=
  let ret0 := Val.bytes32 (List.replicate 32 0)
  b.contract.Call opts ret0 "getTicketHash" [Val.ticket ticket]

/-- The method `SyloTicketingSession.GetTicketHash` (line 258). -/
def SyloTicketingSession.GetTicketHash (s : SyloTicketingSession) (ticket : Ticket) :
    Val × Option GoError :=
  SyloTicketingCaller.GetTicketHash s.Contract.SyloTicketingCaller s.CallOpts ticket

/-- The method `SyloTicketingCallerSession.GetTicketHash` (line 265). -/
def SyloTicketingCallerSession.GetTicketHash (s : SyloTicketingCallerSession) (ticket : Ticket) :
    Val × Option GoError :=
  SyloTicketingCaller.GetTicketHash s.Contract s.CallOpts ticket

/-- The method `SyloTicketingCaller.Owner` (line 272). -/
def SyloTicketingCaller.Owner (b : SyloTicketingCaller) (opts : CallOpts) :
    Val × Option GoError :=
  let ret0 := Val.address 0
  b.contract.Call opts ret0 "owner" []

/-- The method `SyloTicketingSession.Owner` (line 284). -/
def SyloTicketingSession.Owner (s : SyloTicketingSession) :
    Val × Option GoError :=
  SyloTicketingCaller.Owner s.Contract.SyloTicketingCaller s.CallOpts

/-- The method `SyloTicketingCallerSession.Owner` (line 291). -/
def SyloTicketingCallerSession.Owner (s : SyloTicketingCallerSession) :
    Val × Option GoError :=
  SyloTicketingCaller.Owner s.Contract s.CallOpts

/-- The method `SyloTicketingCaller.UnlockDuration` (line 298). -/
def SyloTicketingCaller.UnlockDuration (b : SyloTicketingCaller) (opts : CallOpts) :
    Val × Option GoError :=
  let ret0 := Val.bigInt none
  b.contract.Call opts ret0 "unlockDuration" []

/-- The method `SyloTicketingSession.UnlockDuration` (line 310). -/
def SyloTicketingSession.UnlockDuration (s : SyloTicketingSession) :
    Val × Option GoError :=
  SyloTicketingCaller.UnlockDuration s.Contract.SyloTicketingCaller s.CallOpts

/-- The method `SyloTicketingCallerSession.UnlockDuration` (line 317). -/
def SyloTicketingCallerSession.UnlockDuration (s : SyloTicketingCallerSession) :
    Val × Option GoError :=
  SyloTicketingCaller.UnlockDuration s.Contract s.CallOpts

/-- The method `SyloTicketingCaller.UsedTickets` (line 324). -/
def SyloTicketingCaller.UsedTickets (b : SyloTicketingCaller) (opts : CallOpts) (arg0 : List Byte) :
    Val × Option GoError :=
  let ret0 := Val.bool false
  b.contract.Call opts ret0 "usedTickets" [Val.bytes32 arg0]

/-- The method `SyloTicketingSession.UsedTickets` (line 336). -/
def SyloTicketingSession.UsedTickets (s : SyloTicketingSession) (arg0 : List Byte) :
    Val × Option GoError :=
  SyloTicketingCaller.UsedTickets s.Contract.SyloTicketingCaller s.CallOpts arg0

/-- The method `SyloTicketingCallerSession.UsedTickets` (line 343). -/
def SyloTicketingCallerSession.UsedTickets (s : SyloTicketingCallerSession) (arg0 : List Byte) :
    Val × Option GoError :=
  SyloTicketingCaller.UsedTickets s.Contract s.CallOpts arg0

/-- The method `SyloTicketingTransactor.DepositEscrow` (line 350). -/
def SyloTicketingTransactor.DepositEscrow (b : SyloTicketingTransactor) (opts : TransactOpts)
    (amount : BigInt) :
    Option Transaction × Option GoError :=
  b.contract.Transact opts "depositEscrow" [Val.bigInt amount]

/-- The method `SyloTicketingSession.DepositEscrow` (line 357). -/
def SyloTicketingSession.DepositEscrow (s : SyloTicketingSession) (amount : BigInt) :
    Option Transaction × Option GoError :=
  SyloTicketingTransactor.DepositEscrow s.Contract.SyloTicketingTransactor s.TransactOpts amount

/-- The method `SyloTicketingTransactorSession.DepositEscrow` (line 364). -/
def SyloTicketingTransactorSession.DepositEscrow (s : SyloTicketingTransactorSession)
    (amount : BigInt) :
    Option Transaction × Option GoError :=
  SyloTicketingTransactor.DepositEscrow s.Contract s.TransactOpts amount

/-- The method `SyloTicketingTransactor.DepositEscrowFor` (line 371). -/
def SyloTicketingTransactor.DepositEscrowFor (b : SyloTicketingTransactor) (opts : TransactOpts)
    (amount : BigInt) (account : Nat) :
    Option Transaction × Option GoError :=
  b.contract.Transact opts "depositEscrowFor" [Val.bigInt amount, Val.address account]

/-- The method `SyloTicketingSession.DepositEscrowFor` (line 378). -/
def SyloTicketingSession.DepositEscrowFor (s : SyloTicketingSession) (amount : BigInt)
    (account : Nat) :
    Option Transaction × Option GoError :=
  SyloTicketingTransactor.DepositEscrowFor s.Contract.SyloTicketingTransactor s.TransactOpts
      amount account

/-- The method `SyloTicketingTransactorSession.DepositEscrowFor` (line 385). -/
def SyloTicketingTransactorSession.DepositEscrowFor (s : SyloTicketingTransactorSession)
    (amount : BigInt) (account : Nat) :
    Option Transaction × Option GoError :=
  SyloTicketingTransactor.DepositEscrowFor s.Contract s.TransactOpts amount account

/-- The method `SyloTicketingTransactor.DepositPenalty` (line 392). -/
def SyloTicketingTransactor.DepositPenalty (b : SyloTicketingTransactor) (opts : TransactOpts)
    (amount : BigInt) :
    Option Transaction × Option GoError :=
  b.contract.Transact opts "depositPenalty" [Val.bigInt amount]

/-- The method `SyloTicketingSession.DepositPenalty` (line 399). -/
def SyloTicketingSession.DepositPenalty (s : SyloTicketingSession) (amount : BigInt) :
    Option Transaction × Option GoError :=
  SyloTicketingTransactor.DepositPenalty s.Contract.SyloTicketingTransactor s.TransactOpts amount

/-- The method `SyloTicketingTransactorSession.DepositPenalty` (line 406). -/
def SyloTicketingTransactorSession.DepositPenalty (s : SyloTicketingTransactorSession)
    (amount : BigInt) :
    Option Transaction × Option GoError :=
  SyloTicketingTransactor.DepositPenalty s.Contract s.TransactOpts amount

/-- The method `SyloTicketingTransactor.DepositPenaltyFor` (line 413). -/
def SyloTicketingTransactor.DepositPenaltyFor (b : SyloTicketingTransactor) (opts : TransactOpts)
    (amount : BigInt) (account : Nat) :
    Option Transaction × Option GoError :=
  b.contract.Transact opts "depositPenaltyFor" [Val.bigInt amount, Val.address account]

/-- The method `SyloTicketingSession.DepositPenaltyFor` (line 420). -/
def SyloTicketingSession.DepositPenaltyFor (s : SyloTicketingSession) (amount : BigInt)
    (account : Nat) :
    Option Transaction × Option GoError :=
  SyloTicketingTransactor.DepositPenaltyFor s.Contract.SyloTicketingTransactor s.TransactOpts
      amount account

/-- The method `SyloTicketingTransactorSession.DepositPenaltyFor` (line 427). -/
def SyloTicketingTransactorSession.DepositPenaltyFor (s : SyloTicketingTransactorSession)
    (amount : BigInt) (account : Nat) :
    Option Transaction × Option GoError :=
  SyloTicketingTransactor.DepositPenaltyFor s.Contract s.TransactOpts amount account

/-- The method `SyloTicketingTransactor.LockDeposits` (line 434). -/
def SyloTicketingTransactor.LockDeposits (b : SyloTicketingTransactor) (opts : TransactOpts) :
    Option Transaction × Option GoError :=
  b.contract.Transact opts "lockDeposits" []

/-- The method `SyloTicketingSession.LockDeposits` (line 441). -/
def SyloTicketingSession.LockDeposits (s : SyloTicketingSession) :
    Option Transaction × Option GoError :=
  SyloTicketingTransactor.LockDeposits s.Contract.SyloTicketingTransactor s.TransactOpts

/-- The method `SyloTicketingTransactorSession.LockDeposits` (line 448). -/
def SyloTicketingTransactorSession.LockDeposits (s : SyloTicketingTransactorSession) :
    Option Transaction × Option GoError :=
  SyloTicketingTransactor.LockDeposits s.Contract s.TransactOpts

/-- The method `SyloTicketingTransactor.Redeem` (line 455). -/
def SyloTicketingTransactor.Redeem (b : SyloTicketingTransactor) (opts : TransactOpts)
    (ticket : Ticket) (receiverRand : BigInt) (sig : List Byte) :
    Option Transaction × Option GoError :=
  b.contract.Transact opts "redeem" [Val.ticket ticket, Val.bigInt receiverRand, Val.bytes sig]

/-- The method `SyloTicketingSession.Redeem` (line 462). -/
def SyloTicketingSession.Redeem (s : SyloTicketingSession) (ticket : Ticket)
    (receiverRand : BigInt) (sig : List Byte) :
    Option Transaction × Option GoError :=
  SyloTicketingTransactor.Redeem s.Contract.SyloTicketingTransactor s.TransactOpts ticket
      receiverRand sig

/-- The method `SyloTicketingTransactorSession.Redeem` (line 469). -/
def SyloTicketingTransactorSession.Redeem (s : SyloTicketingTransactorSession) (ticket : Ticket)
    (receiverRand : BigInt) (sig : List Byte) :
    Option Transaction × Option GoError :=
  SyloTicketingTransactor.Redeem s.Contract s.TransactOpts ticket receiverRand sig

/-- The method `SyloTicketingTransactor.RenounceOwnership` (line 476). -/
def SyloTicketingTransactor.RenounceOwnership (b : SyloTicketingTransactor) (opts : TransactOpts) :
    Option Transaction × Option GoError :=
  b.contract.Transact opts "renounceOwnership" []

/-- The method `SyloTicketingSession.RenounceOwnership` (line 483). -/
def SyloTicketingSession.RenounceOwnership (s : SyloTicketingSession) :
    Option Transaction × Option GoError :=
  SyloTicketingTransactor.RenounceOwnership s.Contract.SyloTicketingTransactor s.TransactOpts

/-- The method `SyloTicketingTransactorSession.RenounceOwnership` (line 490). -/
def SyloTicketingTransactorSession.RenounceOwnership (s : SyloTicketingTransactorSession) :
    Option Transaction × Option GoError :=
  SyloTicketingTransactor.RenounceOwnership s.Contract s.TransactOpts

/-- The method `SyloTicketingTransactor.SetUnlockDuration` (line 497). -/
def SyloTicketingTransactor.SetUnlockDuration (b : SyloTicketingTransactor) (opts : TransactOpts)
    (newUnlockDuration : BigInt) :
    Option Transaction × Option GoError :=
  b.contract.Transact opts "setUnlockDuration" [Val.bigInt newUnlockDuration]

/-- The method `SyloTicketingSession.SetUnlockDuration` (line 504). -/
def SyloTicketingSession.SetUnlockDuration (s : SyloTicketingSession) (newUnlockDuration : BigInt) :
    Option Transaction × Option GoError :=
  SyloTicketingTransactor.SetUnlockDuration s.Contract.SyloTicketingTransactor s.TransactOpts
      newUnlockDuration

/-- The method `SyloTicketingTransactorSession.SetUnlockDuration` (line 511). -/
def SyloTicketingTransactorSession.SetUnlockDuration (s : SyloTicketingTransactorSession)
    (newUnlockDuration : BigInt) :
    Option Transaction × Option GoError :=
  SyloTicketingTransactor.SetUnlockDuration s.Contract s.TransactOpts newUnlockDuration

/-- The method `SyloTicketingTransactor.TransferOwnership` (line 518). -/
def SyloTicketingTransactor.TransferOwnership (b : SyloTicketingTransactor) (opts : TransactOpts)
    (newOwner : Nat) :
    Option Transaction × Option GoError :=
  b.contract.Transact opts "transferOwnership" [Val.address newOwner]

/-- The method `SyloTicketingSession.TransferOwnership` (line 525). -/
def SyloTicketingSession.TransferOwnership (s : SyloTicketingSession) (newOwner : Nat) :
    Option Transaction × Option GoError :=
  SyloTicketingTransactor.TransferOwnership s.Contract.SyloTicketingTransactor s.TransactOpts
      newOwner

/-- The method `SyloTicketingTransactorSession.TransferOwnership` (line 532). -/
def SyloTicketingTransactorSession.TransferOwnership (s : SyloTicketingTransactorSession)
    (newOwner : Nat) :
    Option Transaction × Option GoError :=
  SyloTicketingTransactor.TransferOwnership s.Contract s.TransactOpts newOwner

/-- The method `SyloTicketingTransactor.UnlockDeposits` (line 539). -/
def SyloTicketingTransactor.UnlockDeposits (b : SyloTicketingTransactor) (opts : TransactOpts) :
    Option Transaction × Option GoError :=
  b.contract.Transact opts "unlockDeposits" []

/-- The method `SyloTicketingSession.UnlockDeposits` (line 546). -/
def SyloTicketingSession.UnlockDeposits (s : SyloTicketingSession) :
    Option Transaction × Option GoError :=
  SyloTicketingTransactor.UnlockDeposits s.Contract.SyloTicketingTransactor s.TransactOpts

/-- The method `SyloTicketingTransactorSession.UnlockDeposits` (line 553). -/
def SyloTicketingTransactorSession.UnlockDeposits (s : SyloTicketingTransactorSession) :
    Option Transaction × Option GoError :=
  SyloTicketingTransactor.UnlockDeposits s.Contract s.TransactOpts

/-- The method `SyloTicketingTransactor.Withdraw` (line 560). -/
def SyloTicketingTransactor.Withdraw (b : SyloTicketingTransactor) (opts : TransactOpts) :
    Option Transaction × Option GoError :=
  b.contract.Transact opts "withdraw" []

/-- The method `SyloTicketingSession.Withdraw` (line 567). -/
def SyloTicketingSession.Withdraw (s : SyloTicketingSession) :
    Option Transaction × Option GoError :=
  SyloTicketingTransactor.Withdraw s.Contract.SyloTicketingTransactor s.TransactOpts

/-- The method `SyloTicketingTransactorSession.Withdraw` (line 574). -/
def SyloTicketingTransactorSession.Withdraw (s : SyloTicketingTransactorSession) :
    Option Transaction × Option GoError :=
  SyloTicketingTransactor.Withdraw s.Contract s.TransactOpts

/-- The method `SyloTicketingTransactor.WithdrawTo` (line 581). -/
def SyloTicketingTransactor.WithdrawTo (b : SyloTicketingTransactor) (opts : TransactOpts)
    (account : Nat) :
    Option Transaction × Option GoError :=
  b.contract.Transact opts "withdrawTo" [Val.address account]

/-- The method `SyloTicketingSession.WithdrawTo` (line 588). -/
def SyloTicketingSession.WithdrawTo (s : SyloTicketingSession) (account : Nat) :
    Option Transaction × Option GoError :=
  SyloTicketingTransactor.WithdrawTo s.Contract.SyloTicketingTransactor s.TransactOpts account

/-- The method `SyloTicketingTransactorSession.WithdrawTo` (line 595). -/
def SyloTicketingTransactorSession.WithdrawTo (s : SyloTicketingTransactorSession) (account : Nat) :
    Option Transaction × Option GoError :=
  SyloTicketingTransactor.WithdrawTo s.Contract s.TransactOpts account

/-! The binding `StakingManager` (`go-eth/contracts/staking_manager.go`). -/

/-- The struct `StakingManagerCaller`. -/
structure StakingManagerCaller where
  contract : BoundContract (List Val)

/-- The struct `StakingManagerTransactor`. -/
structure StakingManagerTransactor where
  contract : BoundContract (List Val)

/-- The struct `StakingManagerFilterer`. -/
structure StakingManagerFilterer where
  contract : BoundContract (List Val)

/-- The struct `StakingManager`, which embeds the caller, the transactor and the filterer. -/
structure StakingManager where
  StakingManagerCaller : StakingManagerCaller
  StakingManagerTransactor : StakingManagerTransactor
  StakingManagerFilterer : StakingManagerFilterer

/-- The struct `StakingManagerSession`. -/
structure StakingManagerSession where
  Contract : StakingManager
  CallOpts : CallOpts
  TransactOpts : TransactOpts

/-- The struct `StakingManagerCallerSession`. -/
structure StakingManagerCallerSession where
  Contract : StakingManagerCaller
  CallOpts : CallOpts

/-- The struct `StakingManagerTransactorSession`. -/
structure StakingManagerTransactorSession where
  Contract : StakingManagerTransactor
  TransactOpts : TransactOpts

/-- The method `StakingManagerCaller.GetCountOfStakees` (line 200). -/
def StakingManagerCaller.GetCountOfStakees (b : StakingManagerCaller) (opts : CallOpts) :
    Except GoPanic (BigInt × Option GoError) :=
  match b.contract.Call opts [] "getCountOfStakees" [] with
  | (_, some err) => .ok (none, some err)
  | (out, none) => do
    let out0 ← outAs Val.toBigInt out 0
    pure (out0, none)

/-- The method `StakingManagerSession.GetCountOfStakees` (line 217). -/
def StakingManagerSession.GetCountOfStakees (s : StakingManagerSession) :
    Except GoPanic (BigInt × Option GoError) :=
  StakingManagerCaller.GetCountOfStakees s.Contract.StakingManagerCaller s.CallOpts

/-- The method `StakingManagerCallerSession.GetCountOfStakees` (line 224). -/
def StakingManagerCallerSession.GetCountOfStakees (s : StakingManagerCallerSession) :
    Except GoPanic (BigInt × Option GoError) :=
  StakingManagerCaller.GetCountOfStakees s.Contract s.CallOpts

/-- The method `StakingManagerCaller.GetKey` (line 231). -/
def StakingManagerCaller.GetKey (b : StakingManagerCaller) (opts : CallOpts) (staker : Nat)
    (stakee : Nat) :
    Except GoPanic (List Byte × Option GoError) :=
  match b.contract.Call opts [] "getKey" [Val.address staker, Val.address stakee] with
  | (_, some err) => .ok (List.replicate 32 0, some err)
  | (out, none) => do
    let out0 ← outAs Val.toBytes32 out 0
    pure (out0, none)

/-- The method `StakingManagerSession.GetKey` (line 248). -/
def StakingManagerSession.GetKey (s : StakingManagerSession) (staker : Nat) (stakee : Nat) :
    Except GoPanic (List Byte × Option GoError) :=
  StakingManagerCaller.GetKey s.Contract.StakingManagerCaller s.CallOpts staker stakee

/-- The method `StakingManagerCallerSession.GetKey` (line 255). -/
def StakingManagerCallerSession.GetKey (s : StakingManagerCallerSession) (staker : Nat)
    (stakee : Nat) :
    Except GoPanic (List Byte × Option GoError) :=
  StakingManagerCaller.GetKey s.Contract s.CallOpts staker stakee

/-- The method `StakingManagerCaller.GetStake` (line 262). -/
def StakingManagerCaller.GetStake (b : StakingManagerCaller) (opts : CallOpts) (staker : Nat)
    (stakee : Nat) :
    Except GoPanic (StakingManagerStake × Option GoError) :=
  match b.contract.Call opts [] "getStake" [Val.address staker, Val.address stakee] with
  | (_, some err) => .ok (StakingManagerStake.zero, some err)
  | (out, none) => do
    let out0 ← outAs Val.toStake out 0
    pure (out0, none)

/-- The method `StakingManagerSession.GetStake` (line 279). -/
def StakingManagerSession.GetStake (s : StakingManagerSession) (staker : Nat) (stakee : Nat) :
    Except GoPanic (StakingManagerStake × Option GoError) :=
  StakingManagerCaller.GetStake s.Contract.StakingManagerCaller s.CallOpts staker stakee

/-- The method `StakingManagerCallerSession.GetStake` (line 286). -/
def StakingManagerCallerSession.GetStake (s : StakingManagerCallerSession) (staker : Nat)
    (stakee : Nat) :
    Except GoPanic (StakingManagerStake × Option GoError) :=
  StakingManagerCaller.GetStake s.Contract s.CallOpts staker stakee

/-- The method `StakingManagerCaller.GetStakers` (line 293). -/
def StakingManagerCaller.GetStakers (b : StakingManagerCaller) (opts : CallOpts) (stakee : Nat) :
    Except GoPanic (List Nat × Option GoError) :=
  match b.contract.Call opts [] "getStakers" [Val.address stakee] with
  | (_, some err) => .ok ([], some err)
  | (out, none) => do
    let out0 ← outAs Val.toAddresses out 0
    pure (out0, none)

/-- The method `StakingManagerSession.GetStakers` (line 310). -/
def StakingManagerSession.GetStakers (s : StakingManagerSession) (stakee : Nat) :
    Except GoPanic (List Nat × Option GoError) :=
  StakingManagerCaller.GetStakers s.Contract.StakingManagerCaller s.CallOpts stakee

/-- The method `StakingManagerCallerSession.GetStakers` (line 317). -/
def StakingManagerCallerSession.GetStakers (s : StakingManagerCallerSession) (stakee : Nat) :
    Except GoPanic (List Nat × Option GoError) :=
  StakingManagerCaller.GetStakers s.Contract s.CallOpts stakee

/-- The method `StakingManagerCaller.GetTotalStake` (line 324). -/
def StakingManagerCaller.GetTotalStake (b : StakingManagerCaller) (opts : CallOpts) :
    Except GoPanic (BigInt × Option GoError) :=
  match b.contract.Call opts [] "getTotalStake" [] with
  | (_, some err) => .ok (none, some err)
  | (out, none) => do
    let out0 ← outAs Val.toBigInt out 0
    pure (out0, none)

/-- The method `StakingManagerSession.GetTotalStake` (line 341). -/
def StakingManagerSession.GetTotalStake (s : StakingManagerSession) :
    Except GoPanic (BigInt × Option GoError) :=
  StakingManagerCaller.GetTotalStake s.Contract.StakingManagerCaller s.CallOpts

/-- The method `StakingManagerCallerSession.GetTotalStake` (line 348). -/
def StakingManagerCallerSession.GetTotalStake (s : StakingManagerCallerSession) :
    Except GoPanic (BigInt × Option GoError) :=
  StakingManagerCaller.GetTotalStake s.Contract s.CallOpts

/-- The method `StakingManagerCaller.Owner` (line 355). -/
def StakingManagerCaller.Owner (b : StakingManagerCaller) (opts : CallOpts) :
    Except GoPanic (Nat × Option GoError) :=
  match b.contract.Call opts [] "owner" [] with
  | (_, some err) => .ok (0, some err)
  | (out, none) => do
    let out0 ← outAs Val.toAddress out 0
    pure (out0, none)

/-- The method `StakingManagerSession.Owner` (line 372). -/
def StakingManagerSession.Owner (s : StakingManagerSession) :
    Except GoPanic (Nat × Option GoError) :=
  StakingManagerCaller.Owner s.Contract.StakingManagerCaller s.CallOpts

/-- The method `StakingManagerCallerSession.Owner` (line 379). -/
def StakingManagerCallerSession.Owner (s : StakingManagerCallerSession) :
    Except GoPanic (Nat × Option GoError) :=
  StakingManagerCaller.Owner s.Contract s.CallOpts

/-- The method `StakingManagerCaller.Stakees` (line 386). -/
def StakingManagerCaller.Stakees (b : StakingManagerCaller) (opts : CallOpts) (arg0 : BigInt) :
    Except GoPanic (Nat × Option GoError) :=
  match b.contract.Call opts [] "stakees" [Val.bigInt arg0] with
  | (_, some err) => .ok (0, some err)
  | (out, none) => do
    let out0 ← outAs Val.toAddress out 0
    pure (out0, none)

/-- The method `StakingManagerSession.Stakees` (line 403). -/
def StakingManagerSession.Stakees (s : StakingManagerSession) (arg0 : BigInt) :
    Except GoPanic (Nat × Option GoError) :=
  StakingManagerCaller.Stakees s.Contract.StakingManagerCaller s.CallOpts arg0

/-- The method `StakingManagerCallerSession.Stakees` (line 410). -/
def StakingManagerCallerSession.Stakees (s : StakingManagerCallerSession) (arg0 : BigInt) :
    Except GoPanic (Nat × Option GoError) :=
  StakingManagerCaller.Stakees s.Contract s.CallOpts arg0

/-- The method `StakingManagerCaller.Stakers` (line 417). -/
def StakingManagerCaller.Stakers (b : StakingManagerCaller) (opts : CallOpts) (arg0 : Nat)
    (arg1 : BigInt) :
    Except GoPanic (Nat × Option GoError) :=
  match b.contract.Call opts [] "stakers" [Val.address arg0, Val.bigInt arg1] with
  | (_, some err) => .ok (0, some err)
  | (out, none) => do
    let out0 ← outAs Val.toAddress out 0
    pure (out0, none)

/-- The method `StakingManagerSession.Stakers` (line 434). -/
def StakingManagerSession.Stakers (s : StakingManagerSession) (arg0 : Nat) (arg1 : BigInt) :
    Except GoPanic (Nat × Option GoError) :=
  StakingManagerCaller.Stakers s.Contract.StakingManagerCaller s.CallOpts arg0 arg1

/-- The method `StakingManagerCallerSession.Stakers` (line 441). -/
def StakingManagerCallerSession.Stakers (s : StakingManagerCallerSession) (arg0 : Nat)
    (arg1 : BigInt) :
    Except GoPanic (Nat × Option GoError) :=
  StakingManagerCaller.Stakers s.Contract s.CallOpts arg0 arg1

/-- The struct `StakingManagerCaller.Stakes` returns. -/
structure StakesOutput where
  Amount : BigInt
  Stakee : Nat
deriving DecidableEq, Repr

/-- The method `StakingManagerCaller.Stakes` (line 448). -/
def StakingManagerCaller.Stakes (b : StakingManagerCaller) (opts : CallOpts) (arg0 : List Byte) :
    Except GoPanic (StakesOutput × Option GoError) :=
  let outstruct : StakesOutput := { Amount := none, Stakee := 0 }
  match b.contract.Call opts [] "stakes" [Val.bytes32 arg0] with
  | (_, some err) => .ok (outstruct, some err)
  | (out, none) => do
    let Amount ← outAs Val.toBigInt out 0
    let Stakee ← outAs Val.toAddress out 1
    pure ({ outstruct with Amount := Amount, Stakee := Stakee }, none)

/-- The method `StakingManagerSession.Stakes` (line 473). -/
def StakingManagerSession.Stakes (s : StakingManagerSession) (arg0 : List Byte) :
    Except GoPanic (StakesOutput × Option GoError) :=
  StakingManagerCaller.Stakes s.Contract.StakingManagerCaller s.CallOpts arg0

/-- The method `StakingManagerCallerSession.Stakes` (line 483). -/
def StakingManagerCallerSession.Stakes (s : StakingManagerCallerSession) (arg0 : List Byte) :
    Except GoPanic (StakesOutput × Option GoError) :=
  StakingManagerCaller.Stakes s.Contract s.CallOpts arg0

/-- The method `StakingManagerCaller.TotalStake` (line 493). -/
def StakingManagerCaller.TotalStake (b : StakingManagerCaller) (opts : CallOpts) :
    Except GoPanic (BigInt × Option GoError) :=
  match b.contract.Call opts [] "totalStake" [] with
  | (_, some err) => .ok (none, some err)
  | (out, none) => do
    let out0 ← outAs Val.toBigInt out 0
    pure (out0, none)

/-- The method `StakingManagerSession.TotalStake` (line 510). -/
def StakingManagerSession.TotalStake (s : StakingManagerSession) :
    Except GoPanic (BigInt × Option GoError) :=
  StakingManagerCaller.TotalStake s.Contract.StakingManagerCaller s.CallOpts

/-- The method `StakingManagerCallerSession.TotalStake` (line 517). -/
def StakingManagerCallerSession.TotalStake (s : StakingManagerCallerSession) :
    Except GoPanic (BigInt × Option GoError) :=
  StakingManagerCaller.TotalStake s.Contract s.CallOpts

/-- The method `StakingManagerCaller.TotalStakes` (line 524). -/
def StakingManagerCaller.TotalStakes (b : StakingManagerCaller) (opts : CallOpts) (arg0 : Nat) :
    Except GoPanic (BigInt × Option GoError) :=
  match b.contract.Call opts [] "totalStakes" [Val.address arg0] with
  | (_, some err) => .ok (none, some err)
  | (out, none) => do
    let out0 ← outAs Val.toBigInt out 0
    pure (out0, none)

/-- The method `StakingManagerSession.TotalStakes` (line 541). -/
def StakingManagerSession.TotalStakes (s : StakingManagerSession) (arg0 : Nat) :
    Except GoPanic (BigInt × Option GoError) :=
  StakingManagerCaller.TotalStakes s.Contract.StakingManagerCaller s.CallOpts arg0

/-- The method `StakingManagerCallerSession.TotalStakes` (line 548). -/
def StakingManagerCallerSession.TotalStakes (s : StakingManagerCallerSession) (arg0 : Nat) :
    Except GoPanic (BigInt × Option GoError) :=
  StakingManagerCaller.TotalStakes s.Contract s.CallOpts arg0

/-- The method `StakingManagerCaller.UnlockDuration` (line 555). -/
def StakingManagerCaller.UnlockDuration (b : StakingManagerCaller) (opts : CallOpts) :
    Except GoPanic (BigInt × Option GoError) :=
  match b.contract.Call opts [] "unlockDuration" [] with
  | (_, some err) => .ok (none, some err)
  | (out, none) => do
    let out0 ← outAs Val.toBigInt out 0
    pure (out0, none)

/-- The method `StakingManagerSession.UnlockDuration` (line 572). -/
def StakingManagerSession.UnlockDuration (s : StakingManagerSession) :
    Except GoPanic (BigInt × Option GoError) :=
  StakingManagerCaller.UnlockDuration s.Contract.StakingManagerCaller s.CallOpts

/-- The method `StakingManagerCallerSession.UnlockDuration` (line 579). -/
def StakingManagerCallerSession.UnlockDuration (s : StakingManagerCallerSession) :
    Except GoPanic (BigInt × Option GoError) :=
  StakingManagerCaller.UnlockDuration s.Contract s.CallOpts

/-- The struct `StakingManagerCaller.Unlockings` returns. -/
structure UnlockingsOutput where
  Amount : BigInt
  UnlockAt : BigInt
deriving DecidableEq, Repr

/-- The method `StakingManagerCaller.Unlockings` (line 586). -/
def StakingManagerCaller.Unlockings (b : StakingManagerCaller) (opts : CallOpts)
    (arg0 : List Byte) :
    Except GoPanic (UnlockingsOutput × Option GoError) :=
  let outstruct : UnlockingsOutput := { Amount := none, UnlockAt := none }
  match b.contract.Call opts [] "unlockings" [Val.bytes32 arg0] with
  | (_, some err) => .ok (outstruct, some err)
  | (out, none) => do
    let Amount ← outAs Val.toBigInt out 0
    let UnlockAt ← outAs Val.toBigInt out 1
    pure ({ outstruct with Amount := Amount, UnlockAt := UnlockAt }, none)

/-- The method `StakingManagerSession.Unlockings` (line 611). -/
def StakingManagerSession.Unlockings (s : StakingManagerSession) (arg0 : List Byte) :
    Except GoPanic (UnlockingsOutput × Option GoError) :=
  StakingManagerCaller.Unlockings s.Contract.StakingManagerCaller s.CallOpts arg0

/-- The method `StakingManagerCallerSession.Unlockings` (line 621). -/
def StakingManagerCallerSession.Unlockings (s : StakingManagerCallerSession) (arg0 : List Byte) :
    Except GoPanic (UnlockingsOutput × Option GoError) :=
  StakingManagerCaller.Unlockings s.Contract s.CallOpts arg0

/-- The method `StakingManagerTransactor.AddStake` (line 631). -/
def StakingManagerTransactor.AddStake (b : StakingManagerTransactor) (opts : TransactOpts)
    (amount : BigInt) (stakee : Nat) :
    Option Transaction × Option GoError :=
  b.contract.Transact opts "addStake" [Val.bigInt amount, Val.address stakee]

/-- The method `StakingManagerSession.AddStake` (line 638). -/
def StakingManagerSession.AddStake (s : StakingManagerSession) (amount : BigInt) (stakee : Nat) :
    Option Transaction × Option GoError :=
  StakingManagerTransactor.AddStake s.Contract.StakingManagerTransactor s.TransactOpts amount stakee

/-- The method `StakingManagerTransactorSession.AddStake` (line 645). -/
def StakingManagerTransactorSession.AddStake (s : StakingManagerTransactorSession)
    (amount : BigInt) (stakee : Nat) :
    Option Transaction × Option GoError :=
  StakingManagerTransactor.AddStake s.Contract s.TransactOpts amount stakee

/-- The method `StakingManagerTransactor.CancelUnlocking` (line 652). -/
def StakingManagerTransactor.CancelUnlocking (b : StakingManagerTransactor) (opts : TransactOpts)
    (amount : BigInt) (stakee : Nat) :
    Option Transaction × Option GoError :=
  b.contract.Transact opts "cancelUnlocking" [Val.bigInt amount, Val.address stakee]

/-- The method `StakingManagerSession.CancelUnlocking` (line 659). -/
def StakingManagerSession.CancelUnlocking (s : StakingManagerSession) (amount : BigInt)
    (stakee : Nat) :
    Option Transaction × Option GoError :=
  StakingManagerTransactor.CancelUnlocking s.Contract.StakingManagerTransactor s.TransactOpts
      amount stakee

/-- The method `StakingManagerTransactorSession.CancelUnlocking` (line 666). -/
def StakingManagerTransactorSession.CancelUnlocking (s : StakingManagerTransactorSession)
    (amount : BigInt) (stakee : Nat) :
    Option Transaction × Option GoError :=
  StakingManagerTransactor.CancelUnlocking s.Contract s.TransactOpts amount stakee

/-- The method `StakingManagerTransactor.Initialize` (line 673). -/
def StakingManagerTransactor.Initialize (b : StakingManagerTransactor) (opts : TransactOpts)
    (token : Nat) (_unlockDuration : BigInt) :
    Option Transaction × Option GoError :=
  b.contract.Transact opts "initialize" [Val.address token, Val.bigInt _unlockDuration]

/-- The method `StakingManagerSession.Initialize` (line 680). -/
def StakingManagerSession.Initialize (s : StakingManagerSession) (token : Nat)
    (_unlockDuration : BigInt) :
    Option Transaction × Option GoError :=
  StakingManagerTransactor.Initialize s.Contract.StakingManagerTransactor s.TransactOpts token
      _unlockDuration

/-- The method `StakingManagerTransactorSession.Initialize` (line 687). -/
def StakingManagerTransactorSession.Initialize (s : StakingManagerTransactorSession) (token : Nat)
    (_unlockDuration : BigInt) :
    Option Transaction × Option GoError :=
  StakingManagerTransactor.Initialize s.Contract s.TransactOpts token _unlockDuration

/-- The method `StakingManagerTransactor.RenounceOwnership` (line 694). -/
def StakingManagerTransactor.RenounceOwnership (b : StakingManagerTransactor)
    (opts : TransactOpts) :
    Option Transaction × Option GoError :=
  b.contract.Transact opts "renounceOwnership" []

/-- The method `StakingManagerSession.RenounceOwnership` (line 701). -/
def StakingManagerSession.RenounceOwnership (s : StakingManagerSession) :
    Option Transaction × Option GoError :=
  StakingManagerTransactor.RenounceOwnership s.Contract.StakingManagerTransactor s.TransactOpts

/-- The method `StakingManagerTransactorSession.RenounceOwnership` (line 708). -/
def StakingManagerTransactorSession.RenounceOwnership (s : StakingManagerTransactorSession) :
    Option Transaction × Option GoError :=
  StakingManagerTransactor.RenounceOwnership s.Contract s.TransactOpts

/-- The method `StakingManagerTransactor.SetUnlockDuration` (line 715). -/
def StakingManagerTransactor.SetUnlockDuration (b : StakingManagerTransactor)
    (opts : TransactOpts) (newUnlockDuration : BigInt) :
    Option Transaction × Option GoError :=
  b.contract.Transact opts "setUnlockDuration" [Val.bigInt newUnlockDuration]

/-- The method `StakingManagerSession.SetUnlockDuration` (line 722). -/
def StakingManagerSession.SetUnlockDuration (s : StakingManagerSession)
    (newUnlockDuration : BigInt) :
    Option Transaction × Option GoError :=
  StakingManagerTransactor.SetUnlockDuration s.Contract.StakingManagerTransactor s.TransactOpts
      newUnlockDuration

/-- The method `StakingManagerTransactorSession.SetUnlockDuration` (line 729). -/
def StakingManagerTransactorSession.SetUnlockDuration (s : StakingManagerTransactorSession)
    (newUnlockDuration : BigInt) :
    Option Transaction × Option GoError :=
  StakingManagerTransactor.SetUnlockDuration s.Contract s.TransactOpts newUnlockDuration

/-- The method `StakingManagerTransactor.TransferOwnership` (line 736). -/
def StakingManagerTransactor.TransferOwnership (b : StakingManagerTransactor)
    (opts : TransactOpts) (newOwner : Nat) :
    Option Transaction × Option GoError :=
  b.contract.Transact opts "transferOwnership" [Val.address newOwner]

/-- The method `StakingManagerSession.TransferOwnership` (line 743). -/
def StakingManagerSession.TransferOwnership (s : StakingManagerSession) (newOwner : Nat) :
    Option Transaction × Option GoError :=
  StakingManagerTransactor.TransferOwnership s.Contract.StakingManagerTransactor s.TransactOpts
      newOwner

/-- The method `StakingManagerTransactorSession.TransferOwnership` (line 750). -/
def StakingManagerTransactorSession.TransferOwnership (s : StakingManagerTransactorSession)
    (newOwner : Nat) :
    Option Transaction × Option GoError :=
  StakingManagerTransactor.TransferOwnership s.Contract s.TransactOpts newOwner

/-- The method `StakingManagerTransactor.UnlockStake` (line 757). -/
def StakingManagerTransactor.UnlockStake (b : StakingManagerTransactor) (opts : TransactOpts)
    (amount : BigInt) (stakee : Nat) :
    Option Transaction × Option GoError :=
  b.contract.Transact opts "unlockStake" [Val.bigInt amount, Val.address stakee]

/-- The method `StakingManagerSession.UnlockStake` (line 764). -/
def StakingManagerSession.UnlockStake (s : StakingManagerSession) (amount : BigInt) (stakee : Nat) :
    Option Transaction × Option GoError :=
  StakingManagerTransactor.UnlockStake s.Contract.StakingManagerTransactor s.TransactOpts amount
      stakee

/-- The method `StakingManagerTransactorSession.UnlockStake` (line 771). -/
def StakingManagerTransactorSession.UnlockStake (s : StakingManagerTransactorSession)
    (amount : BigInt) (stakee : Nat) :
    Option Transaction × Option GoError :=
  StakingManagerTransactor.UnlockStake s.Contract s.TransactOpts amount stakee

/-- The method `StakingManagerTransactor.WithdrawStake` (line 778). -/
def StakingManagerTransactor.WithdrawStake (b : StakingManagerTransactor) (opts : TransactOpts)
    (stakee : Nat) :
    Option Transaction × Option GoError :=
  b.contract.Transact opts "withdrawStake" [Val.address stakee]

/-- The method `StakingManagerSession.WithdrawStake` (line 785). -/
def StakingManagerSession.WithdrawStake (s : StakingManagerSession) (stakee : Nat) :
    Option Transaction × Option GoError :=
  StakingManagerTransactor.WithdrawStake s.Contract.StakingManagerTransactor s.TransactOpts stakee

/-- The method `StakingManagerTransactorSession.WithdrawStake` (line 792). -/
def StakingManagerTransactorSession.WithdrawStake (s : StakingManagerTransactorSession)
    (stakee : Nat) :
    Option Transaction × Option GoError :=
  StakingManagerTransactor.WithdrawStake s.Contract s.TransactOpts stakee

/-! The binding `PriceManager` (`go-eth/contracts/price_manager.go`). -/

/-- The struct `PriceManagerCaller`. -/
structure PriceManagerCaller where
  contract : BoundContract (List Val)

/-- The struct `PriceManagerTransactor`. -/
structure PriceManagerTransactor where
  contract : BoundContract (List Val)

/-- The struct `PriceManagerFilterer`. -/
structure PriceManagerFilterer where
  contract : BoundContract (List Val)

/-- The struct `PriceManager`, which embeds the caller, the transactor and the filterer. -/
structure PriceManager where
  PriceManagerCaller : PriceManagerCaller
  PriceManagerTransactor : PriceManagerTransactor
  PriceManagerFilterer : PriceManagerFilterer

/-- The struct `PriceManagerSession`. -/
structure PriceManagerSession where
  Contract : PriceManager
  CallOpts : CallOpts
  TransactOpts : TransactOpts

/-- The struct `PriceManagerCallerSession`. -/
structure PriceManagerCallerSession where
  Contract : PriceManagerCaller
  CallOpts : CallOpts

/-- The struct `PriceManagerTransactorSession`. -/
structure PriceManagerTransactorSession where
  Contract : PriceManagerTransactor
  TransactOpts : TransactOpts

/-- The method `PriceManagerCaller.CurrentServicePrice` (line 194). -/
def PriceManagerCaller.CurrentServicePrice (b : PriceManagerCaller) (opts : CallOpts) :
    Except GoPanic (BigInt × Option GoError) :=
  match b.contract.Call opts [] "currentServicePrice" [] with
  | (_, some err) => .ok (none, some err)
  | (out, none) => do
    let out0 ← outAs Val.toBigInt out 0
    pure (out0, none)

/-- The method `PriceManagerSession.CurrentServicePrice` (line 211). -/
def PriceManagerSession.CurrentServicePrice (s : PriceManagerSession) :
    Except GoPanic (BigInt × Option GoError) :=
  PriceManagerCaller.CurrentServicePrice s.Contract.PriceManagerCaller s.CallOpts

/-- The method `PriceManagerCallerSession.CurrentServicePrice` (line 218). -/
def PriceManagerCallerSession.CurrentServicePrice (s : PriceManagerCallerSession) :
    Except GoPanic (BigInt × Option GoError) :=
  PriceManagerCaller.CurrentServicePrice s.Contract s.CallOpts

/-- The method `PriceManagerCaller.CurrentUpperPrice` (line 225). -/
def PriceManagerCaller.CurrentUpperPrice (b : PriceManagerCaller) (opts : CallOpts) :
    Except GoPanic (BigInt × Option GoError) :=
  match b.contract.Call opts [] "currentUpperPrice" [] with
  | (_, some err) => .ok (none, some err)
  | (out, none) => do
    let out0 ← outAs Val.toBigInt out 0
    pure (out0, none)

/-- The method `PriceManagerSession.CurrentUpperPrice` (line 242). -/
def PriceManagerSession.CurrentUpperPrice (s : PriceManagerSession) :
    Except GoPanic (BigInt × Option GoError) :=
  PriceManagerCaller.CurrentUpperPrice s.Contract.PriceManagerCaller s.CallOpts

/-- The method `PriceManagerCallerSession.CurrentUpperPrice` (line 249). -/
def PriceManagerCallerSession.CurrentUpperPrice (s : PriceManagerCallerSession) :
    Except GoPanic (BigInt × Option GoError) :=
  PriceManagerCaller.CurrentUpperPrice s.Contract s.CallOpts

/-- The method `PriceManagerCaller.Owner` (line 256). -/
def PriceManagerCaller.Owner (b : PriceManagerCaller) (opts : CallOpts) :
    Except GoPanic (Nat × Option GoError) :=
  match b.contract.Call opts [] "owner" [] with
  | (_, some err) => .ok (0, some err)
  | (out, none) => do
    let out0 ← outAs Val.toAddress out 0
    pure (out0, none)

/-- The method `PriceManagerSession.Owner` (line 273). -/
def PriceManagerSession.Owner (s : PriceManagerSession) :
    Except GoPanic (Nat × Option GoError) :=
  PriceManagerCaller.Owner s.Contract.PriceManagerCaller s.CallOpts

/-- The method `PriceManagerCallerSession.Owner` (line 280). -/
def PriceManagerCallerSession.Owner (s : PriceManagerCallerSession) :
    Except GoPanic (Nat × Option GoError) :=
  PriceManagerCaller.Owner s.Contract s.CallOpts

/-- The method `PriceManagerTransactor.CalculatePrices` (line 287). -/
def PriceManagerTransactor.CalculatePrices (b : PriceManagerTransactor) (opts : TransactOpts)
    (sortedIndexes : List BigInt) :
    Option Transaction × Option GoError :=
  b.contract.Transact opts "calculatePrices" [Val.bigInts sortedIndexes]

/-- The method `PriceManagerSession.CalculatePrices` (line 294). -/
def PriceManagerSession.CalculatePrices (s : PriceManagerSession) (sortedIndexes : List BigInt) :
    Option Transaction × Option GoError :=
  PriceManagerTransactor.CalculatePrices s.Contract.PriceManagerTransactor s.TransactOpts
      sortedIndexes

/-- The method `PriceManagerTransactorSession.CalculatePrices` (line 301). -/
def PriceManagerTransactorSession.CalculatePrices (s : PriceManagerTransactorSession)
    (sortedIndexes : List BigInt) :
    Option Transaction × Option GoError :=
  PriceManagerTransactor.CalculatePrices s.Contract s.TransactOpts sortedIndexes

/-- The method `PriceManagerTransactor.Initialize` (line 308). -/
def PriceManagerTransactor.Initialize (b : PriceManagerTransactor) (opts : TransactOpts)
    (stakingManager : Nat) (voting : Nat) :
    Option Transaction × Option GoError :=
  b.contract.Transact opts "initialize" [Val.address stakingManager, Val.address voting]

/-- The method `PriceManagerSession.Initialize` (line 315). -/
def PriceManagerSession.Initialize (s : PriceManagerSession) (stakingManager : Nat) (voting : Nat) :
    Option Transaction × Option GoError :=
  PriceManagerTransactor.Initialize s.Contract.PriceManagerTransactor s.TransactOpts
      stakingManager voting

/-- The method `PriceManagerTransactorSession.Initialize` (line 322). -/
def PriceManagerTransactorSession.Initialize (s : PriceManagerTransactorSession)
    (stakingManager : Nat) (voting : Nat) :
    Option Transaction × Option GoError :=
  PriceManagerTransactor.Initialize s.Contract s.TransactOpts stakingManager voting

/-- The method `PriceManagerTransactor.RenounceOwnership` (line 329). -/
def PriceManagerTransactor.RenounceOwnership (b : PriceManagerTransactor) (opts : TransactOpts) :
    Option Transaction × Option GoError :=
  b.contract.Transact opts "renounceOwnership" []

/-- The method `PriceManagerSession.RenounceOwnership` (line 336). -/
def PriceManagerSession.RenounceOwnership (s : PriceManagerSession) :
    Option Transaction × Option GoError :=
  PriceManagerTransactor.RenounceOwnership s.Contract.PriceManagerTransactor s.TransactOpts

/-- The method `PriceManagerTransactorSession.RenounceOwnership` (line 343). -/
def PriceManagerTransactorSession.RenounceOwnership (s : PriceManagerTransactorSession) :
    Option Transaction × Option GoError :=
  PriceManagerTransactor.RenounceOwnership s.Contract s.TransactOpts

/-- The method `PriceManagerTransactor.TransferOwnership` (line 350). -/
def PriceManagerTransactor.TransferOwnership (b : PriceManagerTransactor) (opts : TransactOpts)
    (newOwner : Nat) :
    Option Transaction × Option GoError :=
  b.contract.Transact opts "transferOwnership" [Val.address newOwner]

/-- The method `PriceManagerSession.TransferOwnership` (line 357). -/
def PriceManagerSession.TransferOwnership (s : PriceManagerSession) (newOwner : Nat) :
    Option Transaction × Option GoError :=
  PriceManagerTransactor.TransferOwnership s.Contract.PriceManagerTransactor s.TransactOpts newOwner

/-- The method `PriceManagerTransactorSession.TransferOwnership` (line 364). -/
def PriceManagerTransactorSession.TransferOwnership (s : PriceManagerTransactorSession)
    (newOwner : Nat) :
    Option Transaction × Option GoError :=
  PriceManagerTransactor.TransferOwnership s.Contract s.TransactOpts newOwner


/-! The commitment of the clients (`go-eth/payments_test.go`,
`go-eth/client_test.go`). -/

/-- The method `FillBytes` of `big.Int` (Go library) on a buffer of `n` bytes:
the absolute value as a zero-extended big-endian byte string, and a panic when
it does not fit. -/
def FillBytes (x : Int) (n : Nat) : Except GoPanic (List Byte) :=
  if x.natAbs < 256 ^ n then .ok (toBytesBE n x.natAbs) else .error .bufferTooSmall

/-- The function `crypto.Keccak256` of go-ethereum: the digest as 32 bytes. -/
def Keccak256 (c : Crypto) (data : List Byte) : List Byte :=
  toBytesBE 32 (c.keccak256 data % 2 ^ 256)

/-- The Go builtin `copy(dst, src)`: `dst` afterwards. -/
def copy (dst src : List Byte) : List Byte :=
  src.take dst.length ++ dst.drop src.length

/-- The commitment of the test "can redeem ticket" (client_test.go, line 238):
`copy(receiverRandHash[:], crypto.Keccak256(receiverRand.FillBytes(receiverRandHash[:])))`
for a `receiverRandHash` of type `[32]byte`, which `FillBytes` writes the value
into before it is hashed. -/
def receiverRandHash (c : Crypto) (receiverRand : Int) : Except GoPanic (List Byte) := do
  let receiverRandHash ← FillBytes receiverRand 32
  pure (copy receiverRandHash (Keccak256 c receiverRandHash))

/-- The function `createRandomNumber` (payments_test.go, line 113) on the 32
bytes `b` that `rand.Read` gave: the number the bytes spell and its
commitment. -/
def createRandomNumber (c : Crypto) (b : List Byte) : Except GoPanic (Int × List Byte) := do
  let randNum : Int := (fromBytesBE b : Nat)
  let randNumHash ← FillBytes randNum 32
  pure (randNum, copy randNumHash (Keccak256 c randNumHash))

/-! Backends and inputs of the examples. -/

/-- What `UnpackLog` of go-ethereum does with an `OwnershipTransferred` log:
both fields of the event are indexed, so they are read from topics 1 and 2;
the other fields of `out` stay as they are, and a log with another number of
topics is an error. -/
def toyUnpackLog (out : OwnershipTransferred) (_event : String) (log : Log) :
    OwnershipTransferred × Option GoError :=
  match log.Topics with
  | [_, previousOwner, newOwner] =>
    ({ out with PreviousOwner := previousOwner, NewOwner := newOwner }, none)
  | _ => (out, some "abi: wrong number of topics")

/-- A backend for the two bindings whose `Call` fills a slice of outputs:
`stakes` yields the two outputs (5, 9), `owner` yields one, every other call
fails; a transaction is built and never sent; a filter for one previous owner
finds nothing and any other filter fails. -/
def toyContract : BoundContract (List Val) where
  Call := fun _ out method _ =>
    if method = "stakes" then ([Val.bigInt (some 5), Val.address 9], none)
    else if method = "owner" then ([Val.address 1], none)
    else (out, some "execution reverted")
  Transact := fun opts method params =>
    (some { From := opts.From, method := method, params := params }, none)
  FilterLogs := fun _ _ query =>
    if query.head?.map List.length = some 1 then ([], .closed, none)
    else ([], .closed, some "filter failed")
  WatchLogs := fun _ _ query =>
    if query.head?.map List.length = some 1 then ([], .running, none)
    else ([], .closed, some "watch failed")
  UnpackLog := toyUnpackLog

/-- A backend for the `SyloTicketing` binding, whose `Call` fills one value: a
call leaves the value as it is, and a transaction is built and never sent. -/
def toyTicketing : BoundContract Val where
  Call := fun _ result _ _ => (result, none)
  Transact := fun opts method params =>
    (some { From := opts.From, method := method, params := params }, none)
  FilterLogs := fun _ _ _ => ([], .closed, none)
  WatchLogs := fun _ _ _ => ([], .running, none)
  UnpackLog := toyUnpackLog

/-- The options of the example calls: account 7. -/
def toyCallOpts : CallOpts := { Pending := false, From := 7, BlockNumber := none }

/-- The options of the example transactions: account 7. -/
def toyTransactOpts : TransactOpts :=
  { From := 7, Nonce := none, Value := none, GasPrice := none, GasLimit := 0 }

/-- A log of `OwnershipTransferred(1, 2)` emitted by contract 1000 in block 5. -/
def toyLog : Log :=
  { Address := 1000,
    Topics := [0x8be0079c531659141344cd1fd0a4f28419497f9722a3daafe3b4186f6b6457e0, 1, 2],
    Data := [], BlockNumber := 5, TxHash := 77, TxIndex := 0, BlockHash := 88, Index := 0,
    Removed := false }

/-- A log that does not unpack: it has the event topic only. -/
def badLog : Log :=
  { Address := 1000,
    Topics := [0x8be0079c531659141344cd1fd0a4f28419497f9722a3daafe3b4186f6b6457e0],
    Data := [], BlockNumber := 6, TxHash := 78, TxIndex := 0, BlockHash := 89, Index := 0,
    Removed := false }

/-- An iterator over the given channel contents, as `FilterOwnershipTransferred`
builds it, with `done` as given. -/
def toyIterator (logs : List Log) (sub : Subscription) (done : Bool) :
    OwnershipTransferredIterator (List Val) :=
  { Event := none, contract := toyContract, event := "OwnershipTransferred", logs := logs,
    sub := sub, done := done, fail := none }


/-- The client loop `for it.Next() \x7b ... \x7d` cut at the calls it makes, one
per entry of `picks` (the choice of the `select` in that call): what each call
returned together with `it.Event` after it, and the iterator after the last
call.  A call that does not return ends the run. -/
def OwnershipTransferredIterator.NextAll {R : Type} :
    List Bool → OwnershipTransferredIterator R →
      List (Bool × Option OwnershipTransferred) × OwnershipTransferredIterator R
  | [], it => ([], it)
  | pickSub :: picks, it =>
    match it.Next pickSub 2 with
    | .returned more it1 =>
      ((more, it1.Event) :: (OwnershipTransferredIterator.NextAll picks it1).1,
        (OwnershipTransferredIterator.NextAll picks it1).2)
    | _ => ([], it)


/-- The event a call of `Next` leaves in `it.Event` when it received `log` and
the log unpacked: the struct `UnpackLog` filled, with the log as `Raw`. -/
def OwnershipTransferredIterator.delivered {R : Type} (it : OwnershipTransferredIterator R)
    (log : Log) : OwnershipTransferred :=
  { (it.contract.UnpackLog OwnershipTransferred.zero it.event log).1 with Raw := log }


/-- The method `SyloTicketingFilterer.ParseOwnershipTransferred` (line 743):
the event as `UnpackLog` filled it.  The method does not assign `Raw`. -/
def SyloTicketingFilterer.ParseOwnershipTransferred (f : SyloTicketingFilterer) (log : Log) :
    Option OwnershipTransferred × Option GoError :=
  match f.contract.UnpackLog OwnershipTransferred.zero "OwnershipTransferred" log with
  | (_, some err) => (none, some err)
  | (event, none) => (some event, none)

/-- The method `PriceManagerFilterer.ParseOwnershipTransferred` (line 512). -/
def PriceManagerFilterer.ParseOwnershipTransferred (f : PriceManagerFilterer) (log : Log) :
    Option OwnershipTransferred × Option GoError :=
  match f.contract.UnpackLog OwnershipTransferred.zero "OwnershipTransferred" log with
  | (_, some err) => (none, some err)
  | (event, none) => (some { event with Raw := log }, none)

/-- The method `StakingManagerFilterer.ParseOwnershipTransferred` (line 940). -/
def StakingManagerFilterer.ParseOwnershipTransferred (f : StakingManagerFilterer) (log : Log) :
    Option OwnershipTransferred × Option GoError :=
  match f.contract.UnpackLog OwnershipTransferred.zero "OwnershipTransferred" log with
  | (_, some err) => (none, some err)
  | (event, none) => (some { event with Raw := log }, none)

/-- A completed iterator of the `SyloTicketing` binding over the given channel
contents. -/
def toyTicketingIterator (logs : List Log) : OwnershipTransferredIterator Val :=
  { Event := none, contract := toyTicketing, event := "OwnershipTransferred", logs := logs,
    sub := .closed, done := true, fail := none }


/-- A ledger with no deposit yet: the accounts 7 and 8 hold `2 ^ 255` tokens
each and the ticketing contract (address 1000) holds none; `unlockDuration` is
10. -/
def toyFundedWorld : World where
  storage :=
    { owner := 1, token := 2000, unlockDuration := 10,
      deposits := fun _ => ⟨0, 0, 0⟩,
      usedTickets := fun _ => false }
  balanceOf := fun a => if a = 7 ∨ a = 8 then 2 ^ 255 else 0

end Sylo


namespace Sylo

/-! What `redeem` does, stage by stage. -/

theorem expired_eq_false_iff (t : Ticket) (b : Nat) :
    expired t b = false ↔ (t.expirationBlock = 0 ∨ b ≤ t.expirationBlock) := by
  unfold expired
  by_cases h0 : t.expirationBlock = 0
  · simp [h0]
  · simp [h0, Nat.not_lt]

theorem expired_eq_true_iff (t : Ticket) (b : Nat) :
    expired t b = true ↔ (t.expirationBlock ≠ 0 ∧ t.expirationBlock < b) := by
  unfold expired
  simp

/-- When the checks before signature verification pass, what is left of
`requireValidWinningTicket` is the signature check and the win evaluation. -/
theorem requireValid_of_passesCommitment {c : Crypto} {env : Env} {w : World} {t : Ticket}
    {rr : Nat} (sig : List Byte) (h : passesCommitment c env w t rr = true) :
    requireValidWinningTicket c env w.storage t (getTicketHash c t) rr sig =
      match recover c (getTicketHash c t) sig with
      | .error e => .error e
      | .ok signer =>
        if signer ≠ t.sender then .error "Ticket doesn't have a valid signature"
        else if ¬ (outcome c sig rr < t.winProb) then .error "Ticket is not a winner"
        else .ok () := by
  simp only [passesCommitment, Bool.and_eq_true, decide_eq_true_eq, Bool.not_eq_true',
    expired_eq_false_iff] at h
  obtain ⟨⟨⟨⟨⟨_, hs⟩, hr⟩, he⟩, hu⟩, hc⟩ := h
  unfold requireValidWinningTicket
  simp [hs, hr, he, hu, hc]

/-- For a valid ticket `requireValidWinningTicket` is the win evaluation. -/
theorem requireValid_of_validTicket {c : Crypto} {env : Env} {w : World} {t : Ticket}
    {rr : Nat} {sig : List Byte} (h : validTicket c env w t rr sig = true) :
    requireValidWinningTicket c env w.storage t (getTicketHash c t) rr sig =
      if outcome c sig rr < t.winProb then .ok () else .error "Ticket is not a winner" := by
  simp only [validTicket, Bool.and_eq_true] at h
  obtain ⟨hp, hv⟩ := h
  rw [requireValid_of_passesCommitment sig hp]
  unfold validSignature at hv
  split at hv
  · rename_i signer hrec
    simp only [decide_eq_true_eq] at hv
    simp only [hrec, hv]
    by_cases ho : outcome c sig rr < t.winProb <;> simp [ho]
  · exact absurd hv (by simp)

theorem abiValid_of_passesCommitment {c : Crypto} {env : Env} {w : World} {t : Ticket}
    {rr : Nat} (h : passesCommitment c env w t rr = true) : abiValid t = true := by
  simp only [passesCommitment, Bool.and_eq_true] at h
  exact h.1.1.1.1.1

/-- For a valid ticket `redeem` is the win evaluation followed by `pay`. -/
theorem redeem_of_validTicket {c : Crypto} {env : Env} {w : World} {t : Ticket}
    {rr : Nat} {sig : List Byte} (h : validTicket c env w t rr sig = true) :
    redeem c env w t rr sig =
      if outcome c sig rr < t.winProb then pay env w t (getTicketHash c t)
      else .error "Ticket is not a winner" := by
  have hv := requireValid_of_validTicket h
  simp only [validTicket, Bool.and_eq_true] at h
  have ha := abiValid_of_passesCommitment h.1
  unfold redeem
  rw [hv]
  by_cases ho : outcome c sig rr < t.winProb <;> simp [ho, ha]

/-- The checked subtraction in `payOut` cannot fail once the funds check of
`pay` has passed. -/
theorem payOut_of_funds (d : Deposit) (fv : Nat)
    (hf : ¬ ((d.escrow + d.penalty) % 2 ^ 256 < fv)) :
    payOut d fv =
      .ok (if fv > d.escrow then { d with escrow := 0, penalty := d.penalty - (fv - d.escrow) }
        else { d with escrow := d.escrow - fv }) := by
  have hle : (d.escrow + d.penalty) % 2 ^ 256 ≤ d.escrow + d.penalty := Nat.mod_le _ _
  unfold payOut
  by_cases h1 : fv > d.escrow
  · have h2 : ¬ (fv - d.escrow > d.penalty) := by omega
    simp [h1, h2]
  · simp [h1]

/-- `pay` goes through exactly when the sender is funded and the contract
holds the tokens, and then it yields `paidWorld`. -/
theorem pay_eq_ok_iff (env : Env) (w : World) (t : Ticket) (hash : Nat) (w1 : World) :
    pay env w t hash = .ok w1 ↔
      (¬ (((w.storage.deposits t.sender).escrow + (w.storage.deposits t.sender).penalty)
          % 2 ^ 256 < t.faceValue) ∧
        t.faceValue ≤ w.balanceOf env.contract ∧ w1 = paidWorld env w t hash) := by
  unfold pay
  dsimp only
  by_cases hf : ((w.storage.deposits t.sender).escrow + (w.storage.deposits t.sender).penalty)
      % 2 ^ 256 < t.faceValue
  · rw [if_pos hf]
    constructor
    · intro h
      cases h
    · intro h
      exact absurd hf h.1
  · rw [if_neg hf, payOut_of_funds _ _ hf]
    unfold tokenTransfer
    dsimp only
    by_cases hb : w.balanceOf env.contract < t.faceValue
    · have hb2 : ¬ (t.faceValue ≤ w.balanceOf env.contract) := by omega
      rw [if_pos hb]
      constructor
      · intro h
        cases h
      · intro h
        exact absurd h.2.1 hb2
    · have hb2 : t.faceValue ≤ w.balanceOf env.contract := by omega
      rw [if_neg hb]
      constructor
      · intro h
        injection h with h
        exact ⟨hf, hb2, h.symm⟩
      · intro h
        rw [h.2.2]
        rfl

/-- `pay` never reports a losing ticket. -/
theorem pay_ne_not_winner (env : Env) (w : World) (t : Ticket) (hash : Nat) :
    pay env w t hash ≠ .error "Ticket is not a winner" := by
  unfold pay
  dsimp only
  by_cases hf : ((w.storage.deposits t.sender).escrow + (w.storage.deposits t.sender).penalty)
      % 2 ^ 256 < t.faceValue
  · rw [if_pos hf]
    intro h
    injection h with h
    exact absurd h (by decide)
  · rw [if_neg hf, payOut_of_funds _ _ hf]
    unfold tokenTransfer tokenInsufficientBalance
    dsimp only
    by_cases hb : w.balanceOf env.contract < t.faceValue
    · rw [if_pos hb]
      intro h
      injection h with h
      exact absurd h (by decide)
    · rw [if_neg hb]
      intro h
      cases h

/-! The replay mark is permanent. -/

theorem depositEscrowBody_usedTickets {env : Env} {w w1 : World} {amount account : Nat}
    (h : depositEscrowBody env w amount account = .ok w1) :
    w1.storage.usedTickets = w.storage.usedTickets := by
  unfold depositEscrowBody at h
  dsimp only at h
  split_ifs at h
  split at h
  · cases h
  · cases h
    rfl

theorem depositEscrowFor_usedTickets {env : Env} {w w1 : World} {amount account : Nat}
    (h : depositEscrowFor env w amount account = .ok w1) :
    w1.storage.usedTickets = w.storage.usedTickets := by
  unfold depositEscrowFor at h
  split_ifs at h
  exact depositEscrowBody_usedTickets h

theorem depositPenaltyBody_usedTickets {env : Env} {w w1 : World} {amount account : Nat}
    (h : depositPenaltyBody env w amount account = .ok w1) :
    w1.storage.usedTickets = w.storage.usedTickets := by
  unfold depositPenaltyBody at h
  dsimp only at h
  split_ifs at h
  split at h
  · cases h
  · cases h
    rfl

theorem depositPenaltyFor_usedTickets {env : Env} {w w1 : World} {amount account : Nat}
    (h : depositPenaltyFor env w amount account = .ok w1) :
    w1.storage.usedTickets = w.storage.usedTickets := by
  unfold depositPenaltyFor at h
  split_ifs at h
  exact depositPenaltyBody_usedTickets h

theorem unlockDeposits_usedTickets {env : Env} {w w1 : World} {u : Nat}
    (h : unlockDeposits env w = .ok (w1, u)) :
    w1.storage.usedTickets = w.storage.usedTickets := by
  unfold unlockDeposits at h
  dsimp only at h
  split_ifs at h
  cases h
  rfl

theorem lockDeposits_usedTickets {env : Env} {w w1 : World}
    (h : lockDeposits env w = .ok w1) :
    w1.storage.usedTickets = w.storage.usedTickets := by
  unfold lockDeposits at h
  dsimp only at h
  split_ifs at h
  cases h
  rfl

theorem withdrawBody_usedTickets {env : Env} {w w1 : World} {account : Nat}
    (h : withdrawBody env w account = .ok w1) :
    w1.storage.usedTickets = w.storage.usedTickets := by
  unfold withdrawBody at h
  dsimp only at h
  split_ifs at h
  split at h
  · cases h
  · cases h
    rfl

theorem withdrawTo_usedTickets {env : Env} {w w1 : World} {account : Nat}
    (h : withdrawTo env w account = .ok w1) :
    w1.storage.usedTickets = w.storage.usedTickets := by
  unfold withdrawTo at h
  split_ifs at h
  exact withdrawBody_usedTickets h

theorem setUnlockDuration_usedTickets {env : Env} {w w1 : World} {d : Nat}
    (h : setUnlockDuration env w d = .ok w1) :
    w1.storage.usedTickets = w.storage.usedTickets := by
  unfold setUnlockDuration at h
  split_ifs at h
  cases h
  rfl

theorem transferOwnership_usedTickets {env : Env} {w w1 : World} {o : Nat}
    (h : transferOwnership env w o = .ok w1) :
    w1.storage.usedTickets = w.storage.usedTickets := by
  unfold transferOwnership at h
  split_ifs at h
  cases h
  rfl

theorem renounceOwnership_usedTickets {env : Env} {w w1 : World}
    (h : renounceOwnership env w = .ok w1) :
    w1.storage.usedTickets = w.storage.usedTickets := by
  unfold renounceOwnership at h
  split_ifs at h
  cases h
  rfl

/-- A successful `redeem` is a successful `pay` on the hash of the ticket. -/
theorem redeem_ok_pay {c : Crypto} {env : Env} {w w1 : World} {t : Ticket} {rr : Nat}
    {sig : List Byte} (h : redeem c env w t rr sig = .ok w1) :
    abiValid t = true ∧
      requireValidWinningTicket c env w.storage t (getTicketHash c t) rr sig = .ok () ∧
      pay env w t (getTicketHash c t) = .ok w1 := by
  unfold redeem at h
  by_cases ha : abiValid t = false
  · rw [if_pos ha] at h
    cases h
  · rw [if_neg ha] at h
    split at h
    · cases h
    · rename_i u hreq
      exact ⟨by simpa using ha, hreq, h⟩

/-- A successful `redeem` yields `paidWorld`. -/
theorem redeem_ok_paidWorld {c : Crypto} {env : Env} {w w1 : World} {t : Ticket} {rr : Nat}
    {sig : List Byte} (h : redeem c env w t rr sig = .ok w1) :
    w1 = paidWorld env w t (getTicketHash c t) :=
  ((pay_eq_ok_iff env w t _ w1).mp (redeem_ok_pay h).2.2).2.2

/-- A successful `redeem` puts the hash of its ticket in `usedTickets`. -/
theorem redeem_marks_used {c : Crypto} {env : Env} {w w1 : World} {t : Ticket} {rr : Nat}
    {sig : List Byte} (h : redeem c env w t rr sig = .ok w1) :
    w1.storage.usedTickets (getTicketHash c t) = true := by
  rw [redeem_ok_paidWorld h]
  simp [paidWorld, update]

/-- No call ever takes a hash out of `usedTickets`. -/
theorem Call.run_usedTickets (c : Crypto) (env : Env) (w : World) (call : Call) (hash : Nat)
    (hu : w.storage.usedTickets hash = true) :
    (settle w (call.run c env w)).storage.usedTickets hash = true := by
  cases hr : call.run c env w with
  | error e => simpa [settle] using hu
  | ok w1 =>
    simp only [settle]
    cases call with
    | depositEscrow amount => rw [depositEscrowBody_usedTickets hr]; exact hu
    | depositEscrowFor amount account => rw [depositEscrowFor_usedTickets hr]; exact hu
    | depositPenalty amount => rw [depositPenaltyBody_usedTickets hr]; exact hu
    | depositPenaltyFor amount account => rw [depositPenaltyFor_usedTickets hr]; exact hu
    | unlockDeposits =>
      simp only [Call.run] at hr
      cases hu2 : Sylo.unlockDeposits env w with
      | error e => rw [hu2] at hr; cases hr
      | ok p =>
        obtain ⟨w2, u⟩ := p
        rw [hu2] at hr
        cases hr
        rw [unlockDeposits_usedTickets hu2]
        exact hu
    | lockDeposits => rw [lockDeposits_usedTickets hr]; exact hu
    | withdraw => rw [withdrawBody_usedTickets hr]; exact hu
    | withdrawTo account => rw [withdrawTo_usedTickets hr]; exact hu
    | redeem ticket receiverRand sig =>
      have hw : w1 = paidWorld env w ticket (getTicketHash c ticket) := redeem_ok_paidWorld hr
      rw [hw]
      simp only [paidWorld, update]
      split
      · rfl
      · exact hu
    | setUnlockDuration d => rw [setUnlockDuration_usedTickets hr]; exact hu
    | transferOwnership o => rw [transferOwnership_usedTickets hr]; exact hu
    | renounceOwnership => rw [renounceOwnership_usedTickets hr]; exact hu

/-- A hash in `usedTickets` stays there through any sequence of transactions. -/
theorem runCalls_usedTickets (c : Crypto) (calls : List (Env × Call)) (w : World) (hash : Nat)
    (hu : w.storage.usedTickets hash = true) :
    (runCalls c w calls).storage.usedTickets hash = true := by
  induction calls generalizing w with
  | nil => exact hu
  | cons head rest ih =>
    obtain ⟨env, call⟩ := head
    exact ih _ (Call.run_usedTickets c env w call hash hu)

/-- What a passed `requireValidWinningTicket` establishes. -/
theorem requireValid_eq_ok_iff (c : Crypto) (env : Env) (st : Storage) (t : Ticket)
    (hash rr : Nat) (sig : List Byte) :
    requireValidWinningTicket c env st t hash rr sig = .ok () ↔
      (t.sender ≠ 0 ∧ t.receiver ≠ 0 ∧ expired t env.blockNumber = false ∧
        st.usedTickets hash = false ∧ randHash c rr = t.receiverRandHash ∧
        recover c hash sig = .ok t.sender ∧ outcome c sig rr < t.winProb) := by
  unfold requireValidWinningTicket
  rw [expired_eq_false_iff]
  by_cases hs : t.sender = 0
  · simp [hs]
  by_cases hr : t.receiver = 0
  · simp [hs, hr]
  by_cases he : t.expirationBlock = 0 ∨ env.blockNumber ≤ t.expirationBlock
  swap
  · simp [hs, hr, he]
  by_cases hu : st.usedTickets hash = true
  · simp [hs, hr, he, hu]
  by_cases hc : randHash c rr = t.receiverRandHash
  swap
  · simp [hs, hr, he, hu, hc]
  simp only [hs, hr, he, hu, hc, if_false, not_true_eq_false, not_false_eq_true, ne_eq,
    true_and, Bool.not_eq_true, Bool.false_eq_true]
  cases hrec : recover c hash sig with
  | error e => simp
  | ok signer =>
    by_cases hsig : signer = t.sender
    · by_cases ho : outcome c sig rr < t.winProb <;> simp [hsig, ho, hu]
    · simp [hsig]

/-- A ticket whose hash is in `usedTickets` is rejected. -/
theorem redeem_used_error (c : Crypto) (env : Env) (w : World) (t : Ticket) (rr : Nat)
    (sig : List Byte) (hu : w.storage.usedTickets (getTicketHash c t) = true) :
    ∃ e, redeem c env w t rr sig = .error e := by
  cases hr : redeem c env w t rr sig with
  | error e => exact ⟨e, rfl⟩
  | ok w1 =>
    have h := ((requireValid_eq_ok_iff c env w.storage t _ rr sig).mp (redeem_ok_pay hr).2.1).2.2.2.1
    rw [hu] at h
    cases h

/-- The rejection of a decodable, non-null ticket whose hash is in
`usedTickets`: the expiry check comes first, the replay check second. -/
theorem redeem_used_eq (c : Crypto) (env : Env) (w : World) (t : Ticket) (rr : Nat)
    (sig : List Byte) (ha : abiValid t = true) (hs : t.sender ≠ 0) (hr : t.receiver ≠ 0)
    (hu : w.storage.usedTickets (getTicketHash c t) = true) :
    redeem c env w t rr sig =
      .error (if expired t env.blockNumber = true then "Ticket has expired"
        else "Ticket already redeemed") := by
  unfold redeem requireValidWinningTicket
  by_cases he : expired t env.blockNumber = true
  · have he2 := (expired_eq_true_iff t env.blockNumber).mp he
    have he3 : ¬ (t.expirationBlock = 0 ∨ env.blockNumber ≤ t.expirationBlock) := by omega
    simp [ha, hs, hr, he, he3]
  · have he2 := (expired_eq_false_iff t env.blockNumber).mp (by simpa using he)
    simp [ha, hs, hr, he, he2, hu]

/-- A rejected call leaves the ledger as it was. -/
theorem settle_error (w : World) (e : String) : settle w (.error e) = w := rfl

/-- How a payment that goes through moves the deposit of the sender and the
token balance of the receiver. -/
theorem paidWorld_moves (env : Env) (w : World) (t : Ticket) (hash : Nat)
    (hf : ¬ (((w.storage.deposits t.sender).escrow + (w.storage.deposits t.sender).penalty)
      % 2 ^ 256 < t.faceValue))
    (hb : t.faceValue ≤ w.balanceOf env.contract) :
    (t.faceValue ≤ (w.storage.deposits t.sender).escrow →
        ((paidWorld env w t hash).storage.deposits t.sender).escrow + t.faceValue =
            (w.storage.deposits t.sender).escrow ∧
          ((paidWorld env w t hash).storage.deposits t.sender).penalty =
            (w.storage.deposits t.sender).penalty) ∧
      ((w.storage.deposits t.sender).escrow < t.faceValue →
        ((paidWorld env w t hash).storage.deposits t.sender).escrow = 0 ∧
          ((paidWorld env w t hash).storage.deposits t.sender).penalty +
              (t.faceValue - (w.storage.deposits t.sender).escrow) =
            (w.storage.deposits t.sender).penalty) ∧
      ((paidWorld env w t hash).storage.deposits t.sender).unlockAt =
        (w.storage.deposits t.sender).unlockAt ∧
      (paidWorld env w t hash).balanceOf t.receiver =
        (if t.receiver = env.contract then w.balanceOf t.receiver
          else w.balanceOf t.receiver + t.faceValue) := by
  have hle : ((w.storage.deposits t.sender).escrow + (w.storage.deposits t.sender).penalty)
      % 2 ^ 256 ≤ (w.storage.deposits t.sender).escrow + (w.storage.deposits t.sender).penalty :=
    Nat.mod_le _ _
  have hd : (paidWorld env w t hash).storage.deposits t.sender =
      paidDeposit (w.storage.deposits t.sender) t.faceValue := by
    simp [paidWorld, update]
  rw [hd]
  refine ⟨?_, ?_, ?_, ?_⟩
  · intro h
    have h1 : ¬ (t.faceValue > (w.storage.deposits t.sender).escrow) := by omega
    simp only [paidDeposit, h1, if_false]
    exact ⟨by omega, trivial⟩
  · intro h
    have h1 : t.faceValue > (w.storage.deposits t.sender).escrow := h
    simp only [paidDeposit, h1, if_true]
    exact ⟨trivial, by omega⟩
  · unfold paidDeposit
    split <;> rfl
  · by_cases hrc : t.receiver = env.contract
    · simp only [paidWorld, update, hrc, if_true]
      omega
    · simp [paidWorld, update, hrc]

/-- Every revert string of `recover` is a signature error. -/
theorem recover_error_mem (c : Crypto) (hash : Nat) (sig : List Byte) (e : String)
    (h : recover c hash sig = .error e) : e ∈ signatureErrors := by
  unfold recover at h
  dsimp only at h
  split_ifs at h <;> cases h <;> simp [signatureErrors]

/-- The signature check, read off `validSignature`. -/
theorem validSignature_eq_true_iff (c : Crypto) (t : Ticket) (sig : List Byte) :
    validSignature c t sig = true ↔ recover c (getTicketHash c t) sig = .ok t.sender := by
  unfold validSignature
  cases hrec : recover c (getTicketHash c t) sig with
  | error e => simp
  | ok signer => simp

/-- A reverted call, settled, is the ledger before the call. -/
theorem settle_of_error {w : World} {r : Except String World} (h : ∃ e, r = .error e) :
    settle w r = w := by
  obtain ⟨e, he⟩ := h
  rw [he]
  rfl

/-! The packed encoding of a ticket. -/

theorem toBytesBE_length (w n : Nat) : (toBytesBE w n).length = w := by
  induction w generalizing n with
  | zero => rfl
  | succ w ih => simp [toBytesBE, ih]

theorem fromBytesBE_append_singleton (bs : List Byte) (b : Byte) :
    fromBytesBE (bs ++ [b]) = fromBytesBE bs * 256 + b.val := by
  simp [fromBytesBE, List.foldl_append]

/-- Reading back an encoding gives the encoded number, cut to the width. -/
theorem fromBytesBE_toBytesBE (w n : Nat) : fromBytesBE (toBytesBE w n) = n % 256 ^ w := by
  induction w generalizing n with
  | zero => simp [toBytesBE, fromBytesBE, Nat.mod_one]
  | succ w ih =>
    rw [toBytesBE, fromBytesBE_append_singleton, ih, pow_succ', Nat.mod_mul]
    show n / 256 % 256 ^ w * 256 + n % 256 = n % 256 + 256 * (n / 256 % 256 ^ w)
    ring

/-- The encoding on `w` bytes is injective on the numbers that fit `w` bytes. -/
theorem toBytesBE_injective (w a b : Nat) (ha : a < 256 ^ w) (hb : b < 256 ^ w)
    (h : toBytesBE w a = toBytesBE w b) : a = b := by
  have h1 := congrArg fromBytesBE h
  rw [fromBytesBE_toBytesBE, fromBytesBE_toBytesBE, Nat.mod_eq_of_lt ha, Nat.mod_eq_of_lt hb] at h1
  exact h1

theorem encodeTicket_length (t : Ticket) : (encodeTicket t).length = 172 := by
  simp [encodeTicket, toBytesBE_length]

/-- Two well-typed tickets with the same packed encoding are the same ticket. -/
theorem encodeTicket_eq_imp (t1 t2 : Ticket) (h1 : wellTyped t1 = true)
    (h2 : wellTyped t2 = true) (h : encodeTicket t1 = encodeTicket t2) : t1 = t2 := by
  simp only [wellTyped, abiValid, Bool.and_eq_true, decide_eq_true_eq] at h1 h2
  obtain ⟨⟨⟨⟨⟨⟨hs1, hr1⟩, hn1⟩, hf1⟩, hw1⟩, he1⟩, hh1⟩ := h1
  obtain ⟨⟨⟨⟨⟨⟨hs2, hr2⟩, hn2⟩, hf2⟩, hw2⟩, he2⟩, hh2⟩ := h2
  unfold encodeTicket at h
  obtain ⟨h, g7⟩ := List.append_inj' h (by simp [toBytesBE_length])
  obtain ⟨h, g6⟩ := List.append_inj' h (by simp [toBytesBE_length])
  obtain ⟨h, g5⟩ := List.append_inj' h (by simp [toBytesBE_length])
  obtain ⟨h, g4⟩ := List.append_inj' h (by simp [toBytesBE_length])
  obtain ⟨h, g3⟩ := List.append_inj' h (by simp [toBytesBE_length])
  obtain ⟨g1, g2⟩ := List.append_inj' h (by simp [toBytesBE_length])
  have e1 := toBytesBE_injective 20 _ _ (by norm_num; omega) (by norm_num; omega) g1
  have e2 := toBytesBE_injective 20 _ _ (by norm_num; omega) (by norm_num; omega) g2
  have e3 := toBytesBE_injective 32 _ _ (by norm_num; omega) (by norm_num; omega) g3
  have e4 := toBytesBE_injective 32 _ _ (by norm_num; omega) (by norm_num; omega) g4
  have e5 := toBytesBE_injective 32 _ _ (by norm_num; omega) (by norm_num; omega) g5
  have e6 := toBytesBE_injective 32 _ _ (by norm_num; omega) (by norm_num; omega) g6
  have e7 := toBytesBE_injective 4 _ _ (by norm_num; omega) (by norm_num; omega) g7
  cases t1
  cases t2
  simp only [Ticket.mk.injEq]
  exact ⟨e1, e2, e3, e4, e5, e6, e7⟩

/-! The deposit lock. -/

/-- Before the block after `unlockAt`, a requested withdrawal is refused. -/
theorem withdrawBody_not_complete (env : Env) (w : World) (account : Nat)
    (h0 : (w.storage.deposits env.caller).unlockAt ≠ 0)
    (hb : env.blockNumber ≤ (w.storage.deposits env.caller).unlockAt) :
    withdrawBody env w account = .error "Unlock period not complete" := by
  unfold withdrawBody
  dsimp only
  rw [if_neg (by omega), if_pos (by omega)]

/-- After `unlockAt`, a requested withdrawal pays the whole deposit out of the
tokens the contract holds and clears the record. -/
theorem withdrawBody_complete (env : Env) (w : World) (account : Nat)
    (h0 : (w.storage.deposits env.caller).unlockAt ≠ 0)
    (hlt : (w.storage.deposits env.caller).unlockAt < env.blockNumber)
    (hb : ((w.storage.deposits env.caller).penalty + (w.storage.deposits env.caller).escrow)
      % 2 ^ 256 ≤ w.balanceOf env.contract) :
    ∃ w1, withdrawBody env w account = .ok w1 ∧
      w1.storage.deposits env.caller = { escrow := 0, penalty := 0, unlockAt := 0 } ∧
      w1.balanceOf account =
        (if account = env.contract then w.balanceOf account
          else w.balanceOf account +
            ((w.storage.deposits env.caller).penalty + (w.storage.deposits env.caller).escrow)
              % 2 ^ 256) := by
  unfold withdrawBody tokenTransfer
  dsimp only
  rw [if_neg (by omega), if_neg (by omega), if_neg (by omega)]
  refine ⟨_, rfl, ?_, ?_⟩
  · simp [update]
  · by_cases hc : account = env.contract
    · simp only [update, hc, if_true]
      omega
    · simp [update, hc]

/-- A withdrawal that goes through was requested and is past `unlockAt`. -/
theorem withdrawBody_ok_imp {env : Env} {w w1 : World} {account : Nat}
    (h : withdrawBody env w account = .ok w1) :
    (w.storage.deposits env.caller).unlockAt ≠ 0 ∧
      (w.storage.deposits env.caller).unlockAt < env.blockNumber ∧
      w1.storage.deposits env.caller = { escrow := 0, penalty := 0, unlockAt := 0 } := by
  unfold withdrawBody at h
  dsimp only at h
  split_ifs at h with h1 h2
  split at h
  · cases h
  · cases h
    refine ⟨by omega, by omega, ?_⟩
    simp [update]

/-- On a locked account with a deposit, `unlockDeposits` stores and returns the
block height plus `unlockDuration`, reduced modulo `2 ^ 256`, and touches
neither escrow nor penalty. -/
theorem unlockDeposits_of_locked (env : Env) (w : World)
    (hd : (w.storage.deposits env.caller).escrow ≠ 0 ∨
      (w.storage.deposits env.caller).penalty ≠ 0)
    (h0 : (w.storage.deposits env.caller).unlockAt = 0) :
    ∃ w1, unlockDeposits env w =
        .ok (w1, (env.blockNumber + w.storage.unlockDuration) % 2 ^ 256) ∧
      w1.storage.deposits env.caller =
        { escrow := (w.storage.deposits env.caller).escrow,
          penalty := (w.storage.deposits env.caller).penalty,
          unlockAt := (env.blockNumber + w.storage.unlockDuration) % 2 ^ 256 } ∧
      w1.balanceOf = w.balanceOf := by
  unfold unlockDeposits
  dsimp only
  rw [if_neg (by omega), if_neg (by omega)]
  refine ⟨_, rfl, ?_, rfl⟩
  simp [update]

/-- With no deposit, `unlockDeposits` is refused. -/
theorem unlockDeposits_of_empty (env : Env) (w : World)
    (he : (w.storage.deposits env.caller).escrow = 0)
    (hp : (w.storage.deposits env.caller).penalty = 0) :
    unlockDeposits env w = .error "Nothing to withdraw" := by
  unfold unlockDeposits
  dsimp only
  rw [if_pos (by omega)]

/-- A deposit for an account whose `unlockAt` is set is refused. -/
theorem depositEscrowBody_unlocking (env : Env) (w : World) (amount account : Nat)
    (hu : (w.storage.deposits account).unlockAt ≠ 0) :
    depositEscrowBody env w amount account = .error "Cannot deposit while unlocking" := by
  unfold depositEscrowBody
  dsimp only
  rw [if_pos hu]

theorem depositPenaltyBody_unlocking (env : Env) (w : World) (amount account : Nat)
    (hu : (w.storage.deposits account).unlockAt ≠ 0) :
    depositPenaltyBody env w amount account = .error "Cannot deposit while unlocking" := by
  unfold depositPenaltyBody
  dsimp only
  rw [if_pos hu]

/-- A deposit that goes through was made for a locked account and leaves it
locked. -/
theorem depositEscrowBody_ok_imp {env : Env} {w w1 : World} {amount account : Nat}
    (h : depositEscrowBody env w amount account = .ok w1) :
    (w.storage.deposits account).unlockAt = 0 ∧ (w1.storage.deposits account).unlockAt = 0 := by
  unfold depositEscrowBody at h
  dsimp only at h
  split_ifs at h with h1
  split at h
  · cases h
  · cases h
    refine ⟨by omega, ?_⟩
    simp only [update, if_true]
    omega

theorem depositPenaltyBody_ok_imp {env : Env} {w w1 : World} {amount account : Nat}
    (h : depositPenaltyBody env w amount account = .ok w1) :
    (w.storage.deposits account).unlockAt = 0 ∧ (w1.storage.deposits account).unlockAt = 0 := by
  unfold depositPenaltyBody at h
  dsimp only at h
  split_ifs at h with h1
  split at h
  · cases h
  · cases h
    refine ⟨by omega, ?_⟩
    simp only [update, if_true]
    omega

/-! The staking manager. -/

/-- What `cancelUnlocking` does when it goes through: the unlocking shrinks by
the amount, the stake grows by it, and the token balances stay. -/
theorem cancelUnlocking_ok (c : Crypto) (env : Env) (w : StakingWorld) (a stakee : Nat)
    (hs : stakee < 2 ^ 160) (hs0 : stakee ≠ 0) (ha : 0 < a)
    (hle : a ≤ (w.storage.unlockings (getKey c env.caller stakee)).amount)
    (ho1 : (w.storage.stakes (getKey c env.caller stakee)).amount + a < 2 ^ 256)
    (ho2 : w.storage.totalStakes stakee + a < 2 ^ 256)
    (ho3 : w.storage.totalStake + a < 2 ^ 256) :
    ∃ w1, cancelUnlocking c env w a stakee = .ok w1 ∧
      (w1.storage.unlockings (getKey c env.caller stakee)).amount + a =
        (w.storage.unlockings (getKey c env.caller stakee)).amount ∧
      (w1.storage.stakes (getKey c env.caller stakee)).amount =
        (w.storage.stakes (getKey c env.caller stakee)).amount + a ∧
      w1.balanceOf = w.balanceOf := by
  have hdec : ¬ (decide (stakee < 2 ^ 160) = false) := by
    rw [decide_eq_true hs]
    decide
  have ha0 : a ≠ 0 := by omega
  unfold cancelUnlocking
  rw [if_neg hdec]
  dsimp only
  rw [if_neg (by omega)]
  unfold addStakeBody
  dsimp only
  rw [if_neg hs0, if_neg ha0, if_neg (by omega), if_neg (by omega), if_neg (by omega)]
  refine ⟨_, rfl, ?_, ?_, rfl⟩
  · by_cases heq : (w.storage.unlockings (getKey c env.caller stakee)).amount = a
    · simp only [update, heq, if_true]
      omega
    · simp only [update, heq, if_true, if_false]
      omega
  · by_cases hz : (w.storage.stakes (getKey c env.caller stakee)).amount = 0
    · simp only [update, hz, if_true]
      omega
    · simp only [update, hz, if_true, if_false]

/-- Before the block after `unlockAt`, `withdrawStake` is refused. -/
theorem withdrawStake_not_yet (c : Crypto) (env : Env) (w : StakingWorld) (stakee : Nat)
    (hs : stakee < 2 ^ 160)
    (hb : env.blockNumber ≤ (w.storage.unlockings (getKey c env.caller stakee)).unlockAt) :
    withdrawStake c env w stakee = .error "Stake not yet unlocked" := by
  have hdec : ¬ (decide (stakee < 2 ^ 160) = false) := by
    rw [decide_eq_true hs]
    decide
  unfold withdrawStake
  rw [if_neg hdec]
  dsimp only
  rw [if_pos (by omega)]

/-- After `unlockAt`, `withdrawStake` pays the unlocking out of the tokens the
contract holds and clears the record. -/
theorem withdrawStake_ok (c : Crypto) (env : Env) (w : StakingWorld) (stakee : Nat)
    (hs : stakee < 2 ^ 160)
    (hlt : (w.storage.unlockings (getKey c env.caller stakee)).unlockAt < env.blockNumber)
    (hn : (w.storage.unlockings (getKey c env.caller stakee)).amount ≠ 0)
    (hb : (w.storage.unlockings (getKey c env.caller stakee)).amount ≤
      w.balanceOf env.contract) :
    ∃ w1, withdrawStake c env w stakee = .ok w1 ∧
      w1.storage.unlockings (getKey c env.caller stakee) = { amount := 0, unlockAt := 0 } ∧
      w1.storage.stakes = w.storage.stakes ∧
      w1.balanceOf env.caller =
        (if env.caller = env.contract then w.balanceOf env.caller
          else w.balanceOf env.caller +
            (w.storage.unlockings (getKey c env.caller stakee)).amount) := by
  have hdec : ¬ (decide (stakee < 2 ^ 160) = false) := by
    rw [decide_eq_true hs]
    decide
  unfold withdrawStake tokenTransfer
  rw [if_neg hdec]
  dsimp only
  rw [if_neg (by omega), if_neg hn, if_neg (by omega)]
  refine ⟨_, rfl, ?_, rfl, ?_⟩
  · simp [update]
  · by_cases hc : env.caller = env.contract
    · rw [hc] at hb ⊢
      simp only [update, if_true]
      omega
    · simp [update, hc]

/-- With an empty unlocking record, `withdrawStake` past `unlockAt` is refused. -/
theorem withdrawStake_empty (c : Crypto) (env : Env) (w : StakingWorld) (stakee : Nat)
    (hs : stakee < 2 ^ 160)
    (hlt : (w.storage.unlockings (getKey c env.caller stakee)).unlockAt < env.blockNumber)
    (hn : (w.storage.unlockings (getKey c env.caller stakee)).amount = 0) :
    withdrawStake c env w stakee = .error "No amount to withdraw" := by
  have hdec : ¬ (decide (stakee < 2 ^ 160) = false) := by
    rw [decide_eq_true hs]
    decide
  unfold withdrawStake
  rw [if_neg hdec]
  dsimp only
  rw [if_neg (by omega), if_pos hn]

/-! The commitment of the clients. -/

/-- A byte string of `n` bytes spells a number below `256 ^ n`. -/
theorem fromBytesBE_lt (bs : List Byte) : fromBytesBE bs < 256 ^ bs.length := by
  induction bs using List.reverseRecOn with
  | nil => simp [fromBytesBE]
  | append_singleton l a ih =>
    rw [fromBytesBE_append_singleton, List.length_append, List.length_singleton, pow_succ]
    have := a.isLt
    omega

/-- A value that fits is written out big-endian on the whole buffer. -/
theorem FillBytes_of_lt (r : Int) (n : Nat) (h0 : 0 ≤ r) (h1 : r.toNat < 256 ^ n) :
    FillBytes r n = .ok (toBytesBE n r.toNat) := by
  have habs : r.natAbs = r.toNat := by omega
  unfold FillBytes
  rw [habs, if_pos h1]

/-- Copying onto a buffer of the same length replaces it. -/
theorem copy_of_length_eq (dst src : List Byte) (h : dst.length = src.length) :
    copy dst src = src := by
  unfold copy
  rw [h, List.take_length, List.drop_eq_nil_of_le (le_of_eq h), List.append_nil]

/-- The commitment of a value is the digest of its 32-byte word. -/
theorem receiverRandHash_eq (c : Crypto) (r : Int) (h0 : 0 ≤ r) (h1 : r.toNat < 256 ^ 32) :
    receiverRandHash c r = .ok (toBytesBE 32 (randHash c r.toNat)) := by
  unfold receiverRandHash
  rw [FillBytes_of_lt r 32 h0 h1]
  show Except.ok (copy (toBytesBE 32 r.toNat) (Keccak256 c (toBytesBE 32 r.toNat))) = _
  rw [copy_of_length_eq _ _ (by rw [Keccak256, toBytesBE_length, toBytesBE_length])]
  rfl

/-- A ticket that passes the checks up to the commitment is not rejected for
its commitment. -/
theorem redeem_ne_mismatch_of_passesCommitment {c : Crypto} {env : Env} {w : World}
    {t : Ticket} {rr : Nat} (sig : List Byte) (h : passesCommitment c env w t rr = true) :
    redeem c env w t rr sig ≠
      .error "Hash of receiverRand doesn't match receiverRandHash" := by
  have ha := abiValid_of_passesCommitment h
  unfold redeem
  rw [if_neg (by rw [ha]; decide)]
  cases hv : requireValidWinningTicket c env w.storage t (getTicketHash c t) rr sig with
  | error e =>
    dsimp only
    intro hx
    injection hx with hx
    subst hx
    rw [requireValid_of_passesCommitment sig h] at hv
    cases hrec : recover c (getTicketHash c t) sig with
    | error e1 =>
      rw [hrec] at hv
      injection hv with hv
      have hmem := recover_error_mem c _ sig _ hrec
      rw [hv] at hmem
      exact absurd hmem (by decide)
    | ok signer =>
      rw [hrec] at hv
      dsimp only at hv
      split_ifs at hv <;> (injection hv with hv; exact absurd hv (by decide))
  | ok u =>
    dsimp only
    unfold pay payOut tokenTransfer tokenInsufficientBalance
    dsimp only
    split_ifs <;> (try dsimp only) <;>
      first
      | (intro hx; injection hx with hx; exact absurd hx (by decide))
      | (intro hx; cases hx)

/-- The pair `createRandomNumber` returns for 32 random bytes: the number the
bytes spell and the digest of its 32-byte word. -/
theorem createRandomNumber_eq (c : Crypto) (b : List Byte) (h : b.length = 32) :
    createRandomNumber c b =
      .ok ((fromBytesBE b : Int), toBytesBE 32 (randHash c (fromBytesBE b))) := by
  have hlt : fromBytesBE b < 256 ^ 32 := by
    have := fromBytesBE_lt b
    rwa [h] at this
  unfold createRandomNumber
  dsimp only
  rw [FillBytes_of_lt _ 32 (Int.ofNat_nonneg _) (by rw [Int.toNat_ofNat]; exact hlt)]
  show Except.ok (_, copy (toBytesBE 32 (fromBytesBE b : Int).toNat)
    (Keccak256 c (toBytesBE 32 (fromBytesBE b : Int).toNat))) = _
  rw [copy_of_length_eq _ _ (by rw [Keccak256, toBytesBE_length, toBytesBE_length]),
    Int.toNat_ofNat]
  rfl

/-! The event iterator. -/

/-- A failed iterator returns false as it is. -/
theorem Next_of_fail {R : Type} (it : OwnershipTransferredIterator R) (pickSub : Bool)
    (fuel : Nat) (e : GoError) (hfail : it.fail = some e) :
    it.Next pickSub (fuel + 1) = .returned false it := by
  unfold OwnershipTransferredIterator.Next
  rw [hfail]

/-- A completed iterator with an empty channel returns false as it is. -/
theorem Next_done_nil {R : Type} (it : OwnershipTransferredIterator R) (pickSub : Bool)
    (fuel : Nat) (hfail : it.fail = none) (hdone : it.done = true) (hlogs : it.logs = []) :
    it.Next pickSub (fuel + 1) = .returned false it := by
  unfold OwnershipTransferredIterator.Next
  rw [hfail]
  dsimp only
  rw [if_pos hdone, hlogs]

/-- A completed iterator takes the first log of the channel. -/
theorem Next_done_cons {R : Type} (it : OwnershipTransferredIterator R) (pickSub : Bool)
    (fuel : Nat) (log : Log) (rest : List Log) (hfail : it.fail = none)
    (hdone : it.done = true) (hlogs : it.logs = log :: rest) :
    it.Next pickSub (fuel + 1) = it.receive log rest := by
  unfold OwnershipTransferredIterator.Next
  rw [hfail]
  dsimp only
  rw [if_pos hdone, hlogs]

/-- An iterator in progress waits when neither channel has a value. -/
theorem Next_blocked {R : Type} (it : OwnershipTransferredIterator R) (pickSub : Bool)
    (fuel : Nat) (hfail : it.fail = none) (hdone : it.done = false) (hlogs : it.logs = [])
    (hsub : it.sub = .running) :
    it.Next pickSub (fuel + 1) = .blocked := by
  unfold OwnershipTransferredIterator.Next
  rw [hfail]
  dsimp only
  rw [if_neg (by rw [hdone]; decide), hlogs, hsub]
  rfl

/-- An iterator in progress takes the first log when the `select` picks the
log channel. -/
theorem Next_progress_log {R : Type} (it : OwnershipTransferredIterator R) (pickSub : Bool)
    (fuel : Nat) (log : Log) (rest : List Log) (hfail : it.fail = none)
    (hdone : it.done = false) (hlogs : it.logs = log :: rest)
    (hpick : it.sub = .running ∨ pickSub = false) :
    it.Next pickSub (fuel + 1) = it.receive log rest := by
  unfold OwnershipTransferredIterator.Next
  rw [hfail]
  dsimp only
  rw [if_neg (by rw [hdone]; decide), hlogs]
  cases hs : it.sub.Err with
  | none => rfl
  | some r =>
    obtain ⟨err, sub⟩ := r
    rcases hpick with hrun | hp
    · rw [hrun] at hs
      cases hs
    · dsimp only
      rw [if_neg (by rw [hp]; decide)]

/-- An iterator in progress that takes the result of the subscription calls
`Next` again, completed and with the result as `fail`. -/
theorem Next_progress_sub {R : Type} (it : OwnershipTransferredIterator R) (pickSub : Bool)
    (fuel : Nat) (err : Option GoError) (sub : Subscription) (hfail : it.fail = none)
    (hdone : it.done = false) (hsub : it.sub.Err = some (err, sub))
    (hpick : it.logs = [] ∨ pickSub = true) :
    it.Next pickSub (fuel + 1) =
      OwnershipTransferredIterator.Next pickSub fuel
        { it with sub := sub, done := true, fail := err } := by
  conv_lhs => unfold OwnershipTransferredIterator.Next
  rw [hfail]
  dsimp only
  rw [if_neg (by rw [hdone]; decide), hsub]
  cases hl : it.logs with
  | nil => rfl
  | cons log rest =>
    rcases hpick with hnil | hp
    · rw [hnil] at hl
      cases hl
    · dsimp only
      rw [if_pos hp]

/-- A received log that unpacks is delivered with the log as `Raw`. -/
theorem receive_ok {R : Type} (it : OwnershipTransferredIterator R) (log : Log)
    (rest : List Log) (ev : OwnershipTransferred)
    (h : it.contract.UnpackLog OwnershipTransferred.zero it.event log = (ev, none)) :
    it.receive log rest =
      .returned true { it with logs := rest, Event := some { ev with Raw := log } } := by
  unfold OwnershipTransferredIterator.receive
  rw [h]

/-- A received log that does not unpack fails the iterator. -/
theorem receive_error {R : Type} (it : OwnershipTransferredIterator R) (log : Log)
    (rest : List Log) (ev : OwnershipTransferred) (e : GoError)
    (h : it.contract.UnpackLog OwnershipTransferred.zero it.event log = (ev, some e)) :
    it.receive log rest =
      .returned false { it with logs := rest, Event := some ev, fail := some e } := by
  unfold OwnershipTransferredIterator.receive
  rw [h]

/-- Receiving a log returns. -/
theorem receive_returns {R : Type} (it : OwnershipTransferredIterator R) (log : Log)
    (rest : List Log) : ∃ more it1, it.receive log rest = .returned more it1 := by
  rcases hu : it.contract.UnpackLog OwnershipTransferred.zero it.event log with ⟨ev, _ | e⟩
  · exact ⟨_, _, receive_ok it log rest ev hu⟩
  · exact ⟨_, _, receive_error it log rest ev e hu⟩

/-- A call of `Next` on a failed or completed iterator returns with no call
of `Next` in it. -/
theorem Next_one_returns {R : Type} (it : OwnershipTransferredIterator R) (pickSub : Bool)
    (h : it.fail ≠ none ∨ it.done = true) :
    ∃ more it1, it.Next pickSub 1 = .returned more it1 := by
  cases hf : it.fail with
  | some e => exact ⟨_, _, Next_of_fail it pickSub 0 e hf⟩
  | none =>
    rcases h with h | h
    · exact absurd hf h
    · cases hl : it.logs with
      | nil => exact ⟨_, _, Next_done_nil it pickSub 0 hf h hl⟩
      | cons log rest =>
        rw [Next_done_cons it pickSub 0 log rest hf h hl]
        exact receive_returns it log rest

/-- On a failed or completed iterator the fuel beyond one call is not used. -/
theorem Next_done_fuel {R : Type} (it : OwnershipTransferredIterator R) (pickSub : Bool)
    (fuel : Nat) (h : it.fail ≠ none ∨ it.done = true) :
    it.Next pickSub (fuel + 1) = it.Next pickSub 1 := by
  cases hf : it.fail with
  | some e => rw [Next_of_fail it pickSub fuel e hf, Next_of_fail it pickSub 0 e hf]
  | none =>
    rcases h with h | h
    · exact absurd hf h
    · cases hl : it.logs with
      | nil => rw [Next_done_nil it pickSub fuel hf h hl, Next_done_nil it pickSub 0 hf h hl]
      | cons log rest =>
        rw [Next_done_cons it pickSub fuel log rest hf h hl,
          Next_done_cons it pickSub 0 log rest hf h hl]

/-- The ways a call of `Next` runs: it returns or waits with no further call,
or it takes the result of the subscription and calls `Next` once more on the
completed iterator. -/
theorem Next_cases {R : Type} (it : OwnershipTransferredIterator R) (pickSub : Bool) :
    (∃ more it1, ∀ fuel, it.Next pickSub (fuel + 1) = .returned more it1) ∨
      ((it.logs = [] ∧ it.sub = .running) ∧ ∀ fuel, it.Next pickSub (fuel + 1) = .blocked) ∨
      ∃ err sub, it.fail = none ∧ it.done = false ∧ it.sub.Err = some (err, sub) ∧
        (it.logs = [] ∨ pickSub = true) ∧
        ∀ fuel, it.Next pickSub (fuel + 1) =
          OwnershipTransferredIterator.Next pickSub fuel
            { it with sub := sub, done := true, fail := err } := by
  cases hf : it.fail with
  | some e => exact .inl ⟨_, _, fun fuel => Next_of_fail it pickSub fuel e hf⟩
  | none =>
    cases hd : it.done with
    | true =>
      cases hl : it.logs with
      | nil => exact .inl ⟨_, _, fun fuel => Next_done_nil it pickSub fuel hf hd hl⟩
      | cons log rest =>
        obtain ⟨more, it1, hr⟩ := receive_returns it log rest
        exact .inl ⟨more, it1, fun fuel => by
          rw [Next_done_cons it pickSub fuel log rest hf hd hl, hr]⟩
    | false =>
      cases hs : it.sub.Err with
      | none =>
        have hrun : it.sub = .running := by
          cases hsub : it.sub with
          | running => rfl
          | failed e => rw [hsub] at hs; cases hs
          | closed => rw [hsub] at hs; cases hs
        cases hl : it.logs with
        | nil => exact .inr (.inl ⟨⟨rfl, hrun⟩, fun fuel => Next_blocked it pickSub fuel hf hd hl hrun⟩)
        | cons log rest =>
          obtain ⟨more, it1, hr⟩ := receive_returns it log rest
          exact .inl ⟨more, it1, fun fuel => by
            rw [Next_progress_log it pickSub fuel log rest hf hd hl (.inl hrun), hr]⟩
      | some r =>
        obtain ⟨err, sub⟩ := r
        by_cases hl : it.logs = []
        · exact .inr (.inr ⟨err, sub, rfl, rfl, rfl, .inl hl, fun fuel =>
            Next_progress_sub it pickSub fuel err sub hf hd hs (.inl hl)⟩)
        · obtain ⟨log, rest, hl⟩ := List.exists_cons_of_ne_nil hl
          by_cases hp : pickSub = true
          · exact .inr (.inr ⟨err, sub, rfl, rfl, rfl, .inr hp, fun fuel =>
              Next_progress_sub it pickSub fuel err sub hf hd hs (.inr hp)⟩)
          · obtain ⟨more, it1, hr⟩ := receive_returns it log rest
            exact .inl ⟨more, it1, fun fuel => by
              rw [Next_progress_log it pickSub fuel log rest hf hd hl
                (.inr (by simpa using hp)), hr]⟩

/-- A completed iterator whose buffered logs all unpack delivers them one per
call, in the order of the channel, and is left completed with an empty
channel. -/
theorem NextAll_done {R : Type} (pickSub : Bool) (logs : List Log) :
    ∀ it : OwnershipTransferredIterator R, it.done = true → it.fail = none → it.logs = logs →
      (∀ log ∈ logs, (it.contract.UnpackLog OwnershipTransferred.zero it.event log).2 = none) →
      (it.NextAll (List.replicate logs.length pickSub)).1 =
          logs.map (fun log => (true, some (it.delivered log))) ∧
        (it.NextAll (List.replicate logs.length pickSub)).2.logs = [] ∧
        (it.NextAll (List.replicate logs.length pickSub)).2.done = true ∧
        (it.NextAll (List.replicate logs.length pickSub)).2.fail = none := by
  induction logs with
  | nil =>
    intro it hd hf hl _
    exact ⟨rfl, hl, hd, hf⟩
  | cons log rest ih =>
    intro it hd hf hl hok
    have hu : it.contract.UnpackLog OwnershipTransferred.zero it.event log =
        ((it.contract.UnpackLog OwnershipTransferred.zero it.event log).1, none) := by
      have := hok log (List.mem_cons_self _ _)
      rw [← this]
    have hnext := Next_done_cons it pickSub 1 log rest hf hd hl
    rw [receive_ok it log rest _ hu] at hnext
    have hrec := ih { it with logs := rest, Event := some (it.delivered log) }
      hd hf rfl (fun l hl2 => hok l (List.mem_cons_of_mem _ hl2))
    rw [List.length_cons, List.replicate_succ]
    unfold OwnershipTransferredIterator.NextAll
    rw [hnext]
    exact ⟨by rw [List.map_cons]; exact congrArg _ hrec.1, hrec.2.1, hrec.2.2.1, hrec.2.2.2⟩

/-! The topic rules of the filters. -/

/-- The loop that builds a topic rule appends the addresses one by one: the
rule is the list of the addresses, in their order. -/
theorem rule_foldl_eq_map (addrs : List Nat) (rule : List Val) :
    addrs.foldl (fun rule item => rule ++ [Val.address item]) rule =
      rule ++ addrs.map Val.address := by
  induction addrs generalizing rule with
  | nil => simp
  | cons a rest ih => rw [List.foldl_cons, ih, List.map_cons, List.append_assoc, List.singleton_append]

/-! The callers. -/

/-- Reading an output that is there does not panic on the index. -/
theorem outAs_bind_ne_indexOutOfRange {α β : Type} (assert : Val → Option α) (out : List Val)
    (i : Nat) (h : i < out.length) (k : α → Except GoPanic β)
    (hk : ∀ x j len, k x ≠ .error (.indexOutOfRange j len)) (j len : Nat) :
    (outAs assert out i >>= k) ≠ .error (.indexOutOfRange j len) := by
  unfold outAs
  rw [List.get?_eq_get h]
  dsimp only
  cases assert (out.get ⟨i, h⟩) with
  | none =>
    intro hx
    cases hx
  | some x => exact hk x j len

/-- Returning a value is not a panic. -/
theorem pure_ne_indexOutOfRange {β : Type} (x : β) (j len : Nat) :
    (pure x : Except GoPanic β) ≠ .error (.indexOutOfRange j len) := by
  intro hx
  cases hx

/-- A recovered account comes from a 65-byte signature and is what `ecrecover`
yields for the hash and the three parts of the signature, cut to 160 bits. -/
theorem recover_ok_imp {c : Crypto} {hash : Nat} {sig : List Byte} {a : Nat}
    (h : recover c hash sig = .ok a) :
    sig.length = 65 ∧ sigS sig ≤ maxS ∧
      (normV (sigV sig) = 27 ∨ normV (sigV sig) = 28) ∧
      c.ecrecover hash (normV (sigV sig)) (sigR sig) (sigS sig) % 2 ^ 160 = a ∧ a ≠ 0 := by
  unfold recover at h
  dsimp only at h
  split_ifs at h with h1 h2 h3 h4
  injection h with h
  refine ⟨by omega, by omega, by omega, h, ?_⟩
  rw [← h]
  exact h4

/-- After `unlockAt`, a withdrawal the token contract cannot pay is reverted
with the error of the token. -/
theorem withdrawBody_unfunded (env : Env) (w : World) (account : Nat)
    (h0 : (w.storage.deposits env.caller).unlockAt ≠ 0)
    (hlt : (w.storage.deposits env.caller).unlockAt < env.blockNumber)
    (hb : w.balanceOf env.contract <
      ((w.storage.deposits env.caller).penalty + (w.storage.deposits env.caller).escrow)
        % 2 ^ 256) :
    withdrawBody env w account = .error tokenInsufficientBalance := by
  unfold withdrawBody tokenTransfer
  dsimp only
  rw [if_neg (by omega), if_neg (by omega), if_pos hb]

/-- What `withdraw` does once the unlock period is complete: it pays escrow
plus penalty modulo `2 ^ 256` to the caller and clears the record when the
contract holds that amount, it is reverted with the error of the token when
the contract does not, and the amount is escrow plus penalty whenever that sum
fits in 256 bits. -/
theorem withdraw_of_complete (env : Env) (w : World)
    (h0 : (w.storage.deposits env.caller).unlockAt ≠ 0)
    (hlt : (w.storage.deposits env.caller).unlockAt < env.blockNumber) :
    (((w.storage.deposits env.caller).penalty + (w.storage.deposits env.caller).escrow)
          % 2 ^ 256 ≤ w.balanceOf env.contract →
        ∃ w1, withdraw env w = .ok w1 ∧
          deposits w1 env.caller = { escrow := 0, penalty := 0, unlockAt := 0 } ∧
          w1.balanceOf env.caller =
            (if env.caller = env.contract then w.balanceOf env.caller
              else w.balanceOf env.caller +
                ((w.storage.deposits env.caller).penalty +
                  (w.storage.deposits env.caller).escrow) % 2 ^ 256)) ∧
      (w.balanceOf env.contract <
          ((w.storage.deposits env.caller).penalty + (w.storage.deposits env.caller).escrow)
            % 2 ^ 256 →
        withdraw env w = .error tokenInsufficientBalance ∧
          settle w (withdraw env w) = w) ∧
      ((w.storage.deposits env.caller).escrow + (w.storage.deposits env.caller).penalty
          < 2 ^ 256 →
        ((w.storage.deposits env.caller).penalty + (w.storage.deposits env.caller).escrow)
            % 2 ^ 256 =
          (w.storage.deposits env.caller).escrow + (w.storage.deposits env.caller).penalty) := by
  refine ⟨fun hb => withdrawBody_complete env w env.caller h0 hlt hb, fun hb => ?_, fun hfit => ?_⟩
  · have herr := withdrawBody_unfunded env w env.caller h0 hlt hb
    exact ⟨herr, settle_of_error ⟨_, herr⟩⟩
  · rw [Nat.mod_eq_of_lt (by omega)]
    omega

/-! The claims. -/

/-- C1: for a ticket that passes the validity checks of `redeem` (decodable,
non-null sender and receiver, not expired, not yet redeemed, matching
commitment, valid signature), the win check passes if and only if the outcome
value, the hash `keccak256(sig ++ receiverRand)` of the signature followed by
the revealed value as one 32-byte word, read as an unsigned 256-bit integer,
is strictly below `winProb`: then `redeem` goes on to the payment, and
otherwise, in particular when the outcome equals `winProb`, it is rejected
with "Ticket is not a winner". -/
theorem redeem_wins_iff_outcome_lt_winProb (c : Crypto) (env : Env) (w : World) (t : Ticket)
    (rr : Nat) (sig : List Byte) (h : validTicket c env w t rr sig = true) :
    (requireValidWinningTicket c env w.storage t (getTicketHash c t) rr sig = .ok () ↔
        c.keccak256 (sig ++ toBytesBE 32 rr) % 2 ^ 256 < t.winProb) ∧
      (redeem c env w t rr sig = .error "Ticket is not a winner" ↔
        ¬ (c.keccak256 (sig ++ toBytesBE 32 rr) % 2 ^ 256 < t.winProb)) ∧
      (c.keccak256 (sig ++ toBytesBE 32 rr) % 2 ^ 256 = t.winProb →
        redeem c env w t rr sig = .error "Ticket is not a winner") ∧
      (c.keccak256 (sig ++ toBytesBE 32 rr) % 2 ^ 256 < t.winProb →
        redeem c env w t rr sig = pay env w t (getTicketHash c t)) ∧
      outcome c sig rr = c.keccak256 (sig ++ toBytesBE 32 rr) % 2 ^ 256 := by
  have hreq := requireValid_of_validTicket h
  have hred := redeem_of_validTicket h
  have key : redeem c env w t rr sig = .error "Ticket is not a winner" ↔
      ¬ (outcome c sig rr < t.winProb) := by
    rw [hred]
    by_cases ho : outcome c sig rr < t.winProb
    · simp only [ho, if_true, not_true_eq_false, iff_false]
      exact pay_ne_not_winner env w t _
    · simp [ho]
  have hiff : requireValidWinningTicket c env w.storage t (getTicketHash c t) rr sig = .ok () ↔
      outcome c sig rr < t.winProb := by
    rw [hreq]
    by_cases ho : outcome c sig rr < t.winProb <;> simp [ho]
  have htie : outcome c sig rr = t.winProb →
      redeem c env w t rr sig = .error "Ticket is not a winner" := by
    intro heq
    exact key.mpr (by omega)
  exact ⟨hiff, key, htie, fun hlt => hred.trans (if_pos hlt), rfl⟩

/-- Witness of C1: a valid ticket whose outcome (97) ties with `winProb` loses. -/
theorem redeem_wins_iff_outcome_lt_winProb_witness :
    validTicket toyCrypto toyEnv (toyWorld 11 5 10) (toyTicket 97 0) 3 (toySig 11) = true ∧
      redeem toyCrypto toyEnv (toyWorld 11 5 10) (toyTicket 97 0) 3 (toySig 11) =
        .error "Ticket is not a winner" :=
  ⟨by decide,
    (redeem_wins_iff_outcome_lt_winProb toyCrypto toyEnv (toyWorld 11 5 10) (toyTicket 97 0) 3
      (toySig 11) (by decide)).2.2.1 (by decide)⟩

/-- Counterexample to C2 as stated: a ticket with `expirationBlock = 5` is
redeemed at block 5; the same call at block 6 is rejected with "Ticket has
expired", not with "Ticket already redeemed". -/
theorem replay_after_expiry_reports_expired :
    ∃ w1, redeem toyCrypto toyEnv (toyWorld 11 5 10) (toyTicket 100 5) 3 (toySig 11) = .ok w1 ∧
      redeem toyCrypto { toyEnv with blockNumber := 6 } w1 (toyTicket 100 5) 3 (toySig 11) =
        .error "Ticket has expired" ∧
      redeem toyCrypto { toyEnv with blockNumber := 6 } w1 (toyTicket 100 5) 3 (toySig 11) ≠
        .error "Ticket already redeemed" := by
  have h1 : redeem toyCrypto toyEnv (toyWorld 11 5 10) (toyTicket 100 5) 3 (toySig 11) =
      .ok (paidWorld toyEnv (toyWorld 11 5 10) (toyTicket 100 5)
        (getTicketHash toyCrypto (toyTicket 100 5))) := by
    rw [redeem_of_validTicket (by decide)]
    rw [if_pos (by decide)]
    exact (pay_eq_ok_iff _ _ _ _ _).mpr ⟨by decide, by decide, rfl⟩
  have h2 := redeem_used_eq toyCrypto { toyEnv with blockNumber := 6 } _ (toyTicket 100 5) 3
    (toySig 11) (by decide) (by decide) (by decide) (redeem_marks_used h1)
  rw [if_pos (by decide)] at h2
  refine ⟨_, h1, h2, ?_⟩
  rw [h2]
  intro h
  injection h with h
  exact absurd h (by decide)

/-- C2 (amended): once a ticket has been redeemed, every later `redeem` of a
ticket with the same hash is rejected and leaves the ledger unchanged, after
any sequence of transactions, at any block height and whatever the token
balances, randomness and signature; for the redeemed ticket itself the
rejection is "Ticket has expired" when the ticket is past its expiration at
that height, because the expiry check precedes the replay check, and "Ticket
already redeemed" otherwise. -/
theorem redeemed_ticket_is_never_redeemed_again (c : Crypto) (env : Env) (w w1 : World)
    (t : Ticket) (rr : Nat) (sig : List Byte) (h : redeem c env w t rr sig = .ok w1)
    (calls : List (Env × Call)) (bal : Nat → Nat) (env2 : Env) (t2 : Ticket) (rr2 : Nat)
    (sig2 : List Byte) (hhash : getTicketHash c t2 = getTicketHash c t) :
    (∃ e, redeem c env2 ⟨(runCalls c w1 calls).storage, bal⟩ t2 rr2 sig2 = .error e) ∧
      settle ⟨(runCalls c w1 calls).storage, bal⟩
        (redeem c env2 ⟨(runCalls c w1 calls).storage, bal⟩ t2 rr2 sig2) =
          ⟨(runCalls c w1 calls).storage, bal⟩ ∧
      redeem c env2 ⟨(runCalls c w1 calls).storage, bal⟩ t rr2 sig2 =
        .error (if expired t env2.blockNumber = true then "Ticket has expired"
          else "Ticket already redeemed") := by
  have hused : (runCalls c w1 calls).storage.usedTickets (getTicketHash c t) = true :=
    runCalls_usedTickets c calls w1 _ (redeem_marks_used h)
  have hreq := (requireValid_eq_ok_iff c env w.storage t _ rr sig).mp (redeem_ok_pay h).2.1
  have herr := redeem_used_error c env2 ⟨(runCalls c w1 calls).storage, bal⟩ t2 rr2 sig2
    (by rw [hhash]; exact hused)
  refine ⟨herr, ?_, ?_⟩
  · obtain ⟨e, he⟩ := herr
    rw [he]
    rfl
  · exact redeem_used_eq c env2 ⟨(runCalls c w1 calls).storage, bal⟩ t rr2 sig2
      (redeem_ok_pay h).1 hreq.1 hreq.2.1 hused

/-- Witness of C2: after the redemption of the counterexample and a deposit by
someone else, the ticket is rejected at block 5 with "Ticket already
redeemed". -/
theorem redeemed_ticket_is_never_redeemed_again_witness :
    redeem toyCrypto toyEnv
        ⟨(runCalls toyCrypto
            (paidWorld toyEnv (toyWorld 11 5 10) (toyTicket 100 5)
              (getTicketHash toyCrypto (toyTicket 100 5)))
            [(toyEnv, Call.depositEscrow 0)]).storage, fun _ => 0⟩
        (toyTicket 100 5) 4 (toySig 12) =
      .error "Ticket already redeemed" := by
  have h1 : redeem toyCrypto toyEnv (toyWorld 11 5 10) (toyTicket 100 5) 3 (toySig 11) =
      .ok (paidWorld toyEnv (toyWorld 11 5 10) (toyTicket 100 5)
        (getTicketHash toyCrypto (toyTicket 100 5))) := by
    rw [redeem_of_validTicket (by decide)]
    rw [if_pos (by decide)]
    exact (pay_eq_ok_iff _ _ _ _ _).mpr ⟨by decide, by decide, rfl⟩
  have h2 := (redeemed_ticket_is_never_redeemed_again toyCrypto toyEnv (toyWorld 11 5 10) _
    (toyTicket 100 5) 3 (toySig 11) h1 [(toyEnv, Call.depositEscrow 0)] (fun _ => 0) toyEnv
    (toyTicket 100 5) 4 (toySig 12) rfl).2.2
  rw [if_neg (by decide)] at h2
  exact h2

/-- Counterexample to C3 as stated: a winning ticket of face value 8 against
an escrow of 5 and a penalty of 10 is redeemed; the escrow goes to 0 (not to
"5 minus 8") and the penalty to 7. -/
theorem redeem_may_empty_escrow_and_charge_penalty :
    ∃ w1, redeem toyCrypto toyEnv (toyWorld 11 5 10) (toyTicket 100 0) 3 (toySig 11) = .ok w1 ∧
      ((toyWorld 11 5 10).storage.deposits 11).escrow = 5 ∧
      (w1.storage.deposits 11).escrow = 0 ∧
      (w1.storage.deposits 11).escrow + (toyTicket 100 0).faceValue ≠
        ((toyWorld 11 5 10).storage.deposits 11).escrow ∧
      (w1.storage.deposits 11).penalty = 7 := by
  refine ⟨paidWorld toyEnv (toyWorld 11 5 10) (toyTicket 100 0)
    (getTicketHash toyCrypto (toyTicket 100 0)), ?_, by decide, by decide, by decide, by decide⟩
  rw [redeem_of_validTicket (by decide)]
  rw [if_pos (by decide)]
  exact (pay_eq_ok_iff _ _ _ _ _).mpr ⟨by decide, by decide, rfl⟩

/-- C3 (amended): after a successful redemption the deposit of the sender is
lower by exactly `faceValue`: when `faceValue` is at most the escrow, the
escrow is lower by exactly `faceValue` and the penalty is untouched; when
`faceValue` exceeds the escrow, the escrow is 0 and the penalty is lower by
the rest; `unlockAt` is untouched.  The contract transfers exactly `faceValue`
tokens to the receiver, whose token balance rises by exactly `faceValue`
(a receiver that is the ticketing contract itself keeps its balance). -/
theorem redeem_debits_sender_and_credits_receiver (c : Crypto) (env : Env) (w w1 : World)
    (t : Ticket) (rr : Nat) (sig : List Byte) (h : redeem c env w t rr sig = .ok w1) :
    (t.faceValue ≤ (w.storage.deposits t.sender).escrow →
        (w1.storage.deposits t.sender).escrow + t.faceValue =
            (w.storage.deposits t.sender).escrow ∧
          (w1.storage.deposits t.sender).penalty = (w.storage.deposits t.sender).penalty) ∧
      ((w.storage.deposits t.sender).escrow < t.faceValue →
        (w1.storage.deposits t.sender).escrow = 0 ∧
          (w1.storage.deposits t.sender).penalty +
              (t.faceValue - (w.storage.deposits t.sender).escrow) =
            (w.storage.deposits t.sender).penalty) ∧
      (w1.storage.deposits t.sender).unlockAt = (w.storage.deposits t.sender).unlockAt ∧
      w1.balanceOf t.receiver =
        (if t.receiver = env.contract then w.balanceOf t.receiver
          else w.balanceOf t.receiver + t.faceValue) := by
  have hp := (pay_eq_ok_iff env w t _ w1).mp (redeem_ok_pay h).2.2
  rw [hp.2.2]
  exact paidWorld_moves env w t _ hp.1 hp.2.1

/-- Witness of C3: a winning ticket of face value 8 against an escrow of 50
leaves an escrow of 42 and gives the receiver 8 tokens. -/
theorem redeem_debits_sender_and_credits_receiver_witness :
    ((paidWorld toyEnv (toyWorld 11 50 10) (toyTicket 100 0)
          (getTicketHash toyCrypto (toyTicket 100 0))).storage.deposits 11).escrow + 8 = 50 ∧
      (paidWorld toyEnv (toyWorld 11 50 10) (toyTicket 100 0)
          (getTicketHash toyCrypto (toyTicket 100 0))).balanceOf 22 = 0 + 8 := by
  have h1 : redeem toyCrypto toyEnv (toyWorld 11 50 10) (toyTicket 100 0) 3 (toySig 11) =
      .ok (paidWorld toyEnv (toyWorld 11 50 10) (toyTicket 100 0)
        (getTicketHash toyCrypto (toyTicket 100 0))) := by
    rw [redeem_of_validTicket (by decide)]
    rw [if_pos (by decide)]
    exact (pay_eq_ok_iff _ _ _ _ _).mpr ⟨by decide, by decide, rfl⟩
  have h2 := redeem_debits_sender_and_credits_receiver toyCrypto toyEnv (toyWorld 11 50 10) _
    (toyTicket 100 0) 3 (toySig 11) h1
  exact ⟨(h2.1 (by decide)).1, h2.2.2.2⟩

/-- Counterexample to C4 as stated: an otherwise valid ticket whose outcome
(97) is not below `winProb` (97) is rejected, and its hash is not recorded in
`usedTickets`. -/
theorem losing_ticket_is_not_recorded :
    validTicket toyCrypto toyEnv (toyWorld 11 5 10) (toyTicket 97 0) 3 (toySig 11) = true ∧
      ¬ (outcome toyCrypto (toySig 11) 3 < (toyTicket 97 0).winProb) ∧
      usedTickets
          (settle (toyWorld 11 5 10)
            (redeem toyCrypto toyEnv (toyWorld 11 5 10) (toyTicket 97 0) 3 (toySig 11)))
          (getTicketHash toyCrypto (toyTicket 97 0)) = false := by
  refine ⟨by decide, by decide, ?_⟩
  rw [redeem_of_validTicket (by decide)]
  rw [if_neg (by decide)]
  decide

/-- C4 (amended): for an otherwise valid ticket whose outcome is a loss,
`redeem` is rejected with "Ticket is not a winner"; the whole ledger is left
as it was, so no value moves (escrow, penalty and token balances unchanged)
and the hash is not recorded: `usedTickets(hash)` is false afterwards as it
was before, and the same submission meets the same verdict again. -/
theorem losing_ticket_is_rejected_and_not_consumed (c : Crypto) (env : Env) (w : World)
    (t : Ticket) (rr : Nat) (sig : List Byte) (h : validTicket c env w t rr sig = true)
    (hloss : ¬ (outcome c sig rr < t.winProb)) :
    redeem c env w t rr sig = .error "Ticket is not a winner" ∧
      settle w (redeem c env w t rr sig) = w ∧
      usedTickets (settle w (redeem c env w t rr sig)) (getTicketHash c t) = false ∧
      redeem c env (settle w (redeem c env w t rr sig)) t rr sig =
        .error "Ticket is not a winner" := by
  have hr : redeem c env w t rr sig = .error "Ticket is not a winner" := by
    rw [redeem_of_validTicket h, if_neg hloss]
  have hu : w.storage.usedTickets (getTicketHash c t) = false := by
    simp only [validTicket, passesCommitment, Bool.and_eq_true, Bool.not_eq_true'] at h
    exact h.1.1.2
  refine ⟨hr, ?_, ?_, ?_⟩
  · rw [hr]
    rfl
  · rw [hr]
    exact hu
  · rw [hr]
    exact hr

/-- Witness of C4: the losing ticket of the counterexample. -/
theorem losing_ticket_is_rejected_and_not_consumed_witness :
    redeem toyCrypto toyEnv (toyWorld 11 5 10) (toyTicket 97 0) 3 (toySig 11) =
      .error "Ticket is not a winner" :=
  (losing_ticket_is_rejected_and_not_consumed toyCrypto toyEnv (toyWorld 11 5 10)
    (toyTicket 97 0) 3 (toySig 11) (by decide) (by decide)).1

/-- Counterexample to C5 as stated: with a hash whose value is `2 ^ 256 - 1`
a valid, funded ticket with `winProb = 2 ^ 256 - 1` loses. -/
theorem max_winProb_loses_at_max_outcome :
    validTicket maxCrypto toyEnv (toyWorld 11 5 10) maxTicket 3 (toySig 11) = true ∧
      maxTicket.winProb = 2 ^ 256 - 1 ∧
      maxTicket.faceValue ≤ ((toyWorld 11 5 10).storage.deposits 11).escrow +
        ((toyWorld 11 5 10).storage.deposits 11).penalty ∧
      outcome maxCrypto (toySig 11) 3 = 2 ^ 256 - 1 ∧
      redeem maxCrypto toyEnv (toyWorld 11 5 10) maxTicket 3 (toySig 11) =
        .error "Ticket is not a winner" := by
  refine ⟨by decide, by decide, by decide, by decide, ?_⟩
  rw [redeem_of_validTicket (by decide)]
  rw [if_neg (by decide)]

/-- C5 (amended): a valid ticket with `winProb = 2 ^ 256 - 1` whose sender is
funded (escrow plus penalty cover `faceValue`, and the contract holds the
tokens) is redeemed for every outcome value below `2 ^ 256 - 1`: `redeem`
succeeds, records the hash, takes `faceValue` from the deposit of the sender
and pays `faceValue` tokens to the receiver.  At the one outcome value
`2 ^ 256 - 1` the ticket loses. -/
theorem max_winProb_wins_below_max_outcome (c : Crypto) (env : Env) (w : World) (t : Ticket)
    (rr : Nat) (sig : List Byte) (h : validTicket c env w t rr sig = true)
    (hmax : t.winProb = 2 ^ 256 - 1)
    (hf : ¬ (((w.storage.deposits t.sender).escrow + (w.storage.deposits t.sender).penalty)
      % 2 ^ 256 < t.faceValue))
    (hb : t.faceValue ≤ w.balanceOf env.contract) :
    (outcome c sig rr ≠ 2 ^ 256 - 1 →
        ∃ w1, redeem c env w t rr sig = .ok w1 ∧
          usedTickets w1 (getTicketHash c t) = true ∧
          (w1.storage.deposits t.sender).escrow + (w1.storage.deposits t.sender).penalty +
              t.faceValue =
            (w.storage.deposits t.sender).escrow + (w.storage.deposits t.sender).penalty ∧
          w1.balanceOf t.receiver =
            (if t.receiver = env.contract then w.balanceOf t.receiver
              else w.balanceOf t.receiver + t.faceValue)) ∧
      (outcome c sig rr = 2 ^ 256 - 1 →
        redeem c env w t rr sig = .error "Ticket is not a winner") := by
  have hred := redeem_of_validTicket h
  have hlt : outcome c sig rr < 2 ^ 256 := Nat.mod_lt _ (by positivity)
  constructor
  · intro hne
    have hwin : outcome c sig rr < t.winProb := by omega
    rw [if_pos hwin] at hred
    have hpay : pay env w t (getTicketHash c t) = .ok (paidWorld env w t (getTicketHash c t)) :=
      (pay_eq_ok_iff _ _ _ _ _).mpr ⟨hf, hb, rfl⟩
    have hm := paidWorld_moves env w t (getTicketHash c t) hf hb
    refine ⟨_, hred.trans hpay, ?_, ?_, hm.2.2.2⟩
    · simp [usedTickets, paidWorld, update]
    · have hle : ((w.storage.deposits t.sender).escrow +
          (w.storage.deposits t.sender).penalty) % 2 ^ 256 ≤
          (w.storage.deposits t.sender).escrow + (w.storage.deposits t.sender).penalty :=
        Nat.mod_le _ _
      by_cases hcase : t.faceValue ≤ (w.storage.deposits t.sender).escrow
      · have h1 := hm.1 hcase
        omega
      · have h2 := hm.2.1 (by omega)
        omega
  · intro heq
    have hloss : ¬ (outcome c sig rr < t.winProb) := by omega
    rw [if_neg hloss] at hred
    exact hred

/-- Witness of C5: under `toyCrypto` the outcome is 97 and the ticket with the
largest `winProb` is redeemed. -/
theorem max_winProb_wins_below_max_outcome_witness :
    ∃ w1, redeem toyCrypto toyEnv (toyWorld 11 5 10) (toyTicket (2 ^ 256 - 1) 0) 3 (toySig 11) =
        .ok w1 ∧
      usedTickets w1 (getTicketHash toyCrypto (toyTicket (2 ^ 256 - 1) 0)) = true := by
  obtain ⟨w1, h1, h2, _⟩ :=
    (max_winProb_wins_below_max_outcome toyCrypto toyEnv (toyWorld 11 5 10)
      (toyTicket (2 ^ 256 - 1) 0) 3 (toySig 11) (by decide) (by decide) (by decide)
      (by decide)).1 (by decide)
  exact ⟨w1, h1, h2⟩

/-- C6: a ticket with `winProb = 0` never wins: whatever the ledger, the
randomness and the signature, `redeem` is rejected and the ledger is left as
it was, so nothing moves from the escrow or the penalty of the sender to the
receiver; for an otherwise valid ticket the rejection is "Ticket is not a
winner". -/
theorem zero_winProb_always_loses (c : Crypto) (env : Env) (w : World) (t : Ticket) (rr : Nat)
    (sig : List Byte) (h0 : t.winProb = 0) :
    (∃ e, redeem c env w t rr sig = .error e) ∧
      settle w (redeem c env w t rr sig) = w ∧
      (validTicket c env w t rr sig = true →
        redeem c env w t rr sig = .error "Ticket is not a winner") := by
  have herr : ∃ e, redeem c env w t rr sig = .error e := by
    cases hr : redeem c env w t rr sig with
    | error e => exact ⟨e, rfl⟩
    | ok w1 =>
      have hwin := ((requireValid_eq_ok_iff c env w.storage t _ rr sig).mp
        (redeem_ok_pay hr).2.1).2.2.2.2.2.2
      omega
  refine ⟨herr, ?_, ?_⟩
  · obtain ⟨e, he⟩ := herr
    rw [he]
    rfl
  · intro hv
    rw [redeem_of_validTicket hv, if_neg (by omega)]

/-- Witness of C6: a valid, funded ticket with `winProb = 0` is rejected as
not a winner. -/
theorem zero_winProb_always_loses_witness :
    redeem toyCrypto toyEnv (toyWorld 11 5 10) (toyTicket 0 0) 3 (toySig 11) =
      .error "Ticket is not a winner" :=
  (zero_winProb_always_loses toyCrypto toyEnv (toyWorld 11 5 10) (toyTicket 0 0) 3 (toySig 11)
    rfl).2.2 (by decide)

/-- Counterexample to C7 as stated: a ticket with `expirationBlock = 0` is
redeemed at block 5 although 0 is lower than 5, and a ticket with a null
sender that expired at block 4 is rejected at block 5 with "Ticket sender is
null". -/
theorem zero_expirationBlock_never_expires :
    (toyTicket 100 0).expirationBlock < toyEnv.blockNumber ∧
      (∃ w1, redeem toyCrypto toyEnv (toyWorld 11 5 10) (toyTicket 100 0) 3 (toySig 11) =
        .ok w1) ∧
      ({ toyTicket 100 4 with sender := 0 } : Ticket).expirationBlock < toyEnv.blockNumber ∧
      redeem toyCrypto toyEnv (toyWorld 11 5 10) { toyTicket 100 4 with sender := 0 } 3
        (toySig 11) = .error "Ticket sender is null" := by
  refine ⟨by decide, ⟨paidWorld toyEnv (toyWorld 11 5 10) (toyTicket 100 0)
    (getTicketHash toyCrypto (toyTicket 100 0)), ?_⟩, by decide, ?_⟩
  · rw [redeem_of_validTicket (by decide)]
    rw [if_pos (by decide)]
    exact (pay_eq_ok_iff _ _ _ _ _).mpr ⟨by decide, by decide, rfl⟩
  · unfold redeem requireValidWinningTicket
    rw [if_neg (by decide)]
    dsimp only
    rw [if_pos (by decide)]

/-- C7 (amended): a ticket with non-null sender and receiver whose
`expirationBlock` is not 0 and is lower than the current block height is
rejected with "Ticket has expired", whatever the ledger, the randomness and
the signature: the expiry check comes before the replay, commitment, signature
and win checks.  An `expirationBlock` of 0 means that the ticket never
expires. -/
theorem expired_ticket_is_rejected (c : Crypto) (env : Env) (w : World) (t : Ticket) (rr : Nat)
    (sig : List Byte) (ha : abiValid t = true) (hs : t.sender ≠ 0) (hr : t.receiver ≠ 0)
    (h0 : t.expirationBlock ≠ 0) (hlt : t.expirationBlock < env.blockNumber) :
    redeem c env w t rr sig = .error "Ticket has expired" ∧
      settle w (redeem c env w t rr sig) = w := by
  have he : ¬ (t.expirationBlock = 0 ∨ env.blockNumber ≤ t.expirationBlock) := by omega
  have hred : redeem c env w t rr sig = .error "Ticket has expired" := by
    unfold redeem requireValidWinningTicket
    simp [ha, hs, hr, he]
  exact ⟨hred, settle_of_error ⟨_, hred⟩⟩

/-- Witness of C7: a ticket that expired at block 4 is rejected at block 5,
here with a revealed value and a signature that are both wrong. -/
theorem expired_ticket_is_rejected_witness :
    redeem toyCrypto toyEnv (toyWorld 11 5 10) (toyTicket 100 4) 0 [] =
      .error "Ticket has expired" :=
  (expired_ticket_is_rejected toyCrypto toyEnv (toyWorld 11 5 10) (toyTicket 100 4) 0 []
    (by decide) (by decide) (by decide) (by decide) (by decide)).1

/-- Counterexample to C8 as stated: a ticket of sender 11 that expired at block
4 is redeemed at block 5 with a signature of account 12.  The recovered
account differs from the sender, and the rejection is "Ticket has expired",
which is not an invalid-signature error: the checks on the sender, the
receiver, the expiry, the replay and the commitment come before the signature
is looked at. -/
theorem wrong_signature_on_expired_ticket_reports_expired :
    recover toyCrypto (getTicketHash toyCrypto (toyTicket 100 4)) (toySig 12) = .ok 12 ∧
      (toyTicket 100 4).sender = 11 ∧
      redeem toyCrypto toyEnv (toyWorld 11 5 10) (toyTicket 100 4) 3 (toySig 12) =
        .error "Ticket has expired" ∧
      "Ticket has expired" ∉ signatureErrors := by
  refine ⟨?_, rfl, ?_, by decide⟩
  · unfold recover
    rw [if_neg (by decide), if_neg (by decide), if_neg (by decide)]
    dsimp only
    rw [if_neg (by decide)]
    rfl
  · unfold redeem requireValidWinningTicket
    rw [if_neg (by decide)]
    rw [if_neg (by decide), if_neg (by decide), if_pos (by decide)]

/-- C8 (amended): `redeem` succeeds only if the signature is well formed (65
bytes, `s` in the lower half, `v` 27 or 28) and the account recovered from it
over `getTicketHash(ticket)`, the hash of the packed ticket, is
`ticket.sender`.  When it is not, `redeem` is rejected and the ledger is left
as it was; the rejection is one of the invalid-signature errors for every
ticket that passes the checks made before the signature check (decodable,
non-null sender and receiver, not expired, not yet redeemed, matching
commitment), and the error of one of these earlier checks, which is no
invalid-signature error, otherwise. -/
theorem redeem_requires_signature_of_sender (c : Crypto) (env : Env) (w : World) (t : Ticket)
    (rr : Nat) (sig : List Byte) :
    (∀ w1, redeem c env w t rr sig = .ok w1 →
        recover c (getTicketHash c t) sig = .ok t.sender ∧
          sig.length = 65 ∧ sigS sig ≤ maxS ∧
          (normV (sigV sig) = 27 ∨ normV (sigV sig) = 28) ∧
          c.ecrecover (c.keccak256 (encodeTicket t) % 2 ^ 256) (normV (sigV sig)) (sigR sig)
            (sigS sig) % 2 ^ 160 = t.sender) ∧
      (recover c (getTicketHash c t) sig ≠ .ok t.sender →
        (∃ e, redeem c env w t rr sig = .error e) ∧
          settle w (redeem c env w t rr sig) = w ∧
          (passesCommitment c env w t rr = true →
            ∃ e, e ∈ signatureErrors ∧ redeem c env w t rr sig = .error e) ∧
          (passesCommitment c env w t rr = false →
            ∃ e, e ∈ ["", "Ticket sender is null", "Ticket receiver is null",
                "Ticket has expired", "Ticket already redeemed",
                "Hash of receiverRand doesn't match receiverRandHash"] ∧
              e ∉ signatureErrors ∧ redeem c env w t rr sig = .error e)) := by
  have hok : ∀ w1, redeem c env w t rr sig = .ok w1 →
      recover c (getTicketHash c t) sig = .ok t.sender := by
    intro w1 hr
    exact ((requireValid_eq_ok_iff c env w.storage t _ rr sig).mp
      (redeem_ok_pay hr).2.1).2.2.2.2.2.1
  refine ⟨fun w1 hr => ?_, ?_⟩
  · have hrec := hok w1 hr
    obtain ⟨h1, h2, h3, h4, _⟩ := recover_ok_imp hrec
    exact ⟨hrec, h1, h2, h3, h4⟩
  intro hne
  have herr : ∃ e, redeem c env w t rr sig = .error e := by
    cases hr : redeem c env w t rr sig with
    | error e => exact ⟨e, rfl⟩
    | ok w1 => exact absurd (hok w1 hr) hne
  refine ⟨herr, settle_of_error herr, ?_, ?_⟩
  · intro hp
    have ha := abiValid_of_passesCommitment hp
    have hreq := requireValid_of_passesCommitment sig hp
    unfold redeem
    rw [if_neg (by simp [ha]), hreq]
    cases hrec : recover c (getTicketHash c t) sig with
    | error e => exact ⟨e, recover_error_mem c _ sig e hrec, rfl⟩
    | ok signer =>
      have hsig : signer ≠ t.sender := by
        intro heq
        rw [hrec, heq] at hne
        exact hne rfl
      refine ⟨"Ticket doesn't have a valid signature", by simp [signatureErrors], ?_⟩
      simp [hsig]
  · intro hp
    unfold redeem requireValidWinningTicket
    by_cases ha : abiValid t = true
    swap
    · exact ⟨"", by decide, by decide, by simp [ha]⟩
    by_cases hs : t.sender = 0
    · exact ⟨"Ticket sender is null", by decide, by decide, by simp [ha, hs]⟩
    by_cases hr : t.receiver = 0
    · exact ⟨"Ticket receiver is null", by decide, by decide, by simp [ha, hs, hr]⟩
    by_cases he : t.expirationBlock = 0 ∨ env.blockNumber ≤ t.expirationBlock
    swap
    · exact ⟨"Ticket has expired", by decide, by decide, by simp [ha, hs, hr, he]⟩
    by_cases hu : w.storage.usedTickets (getTicketHash c t) = true
    · exact ⟨"Ticket already redeemed", by decide, by decide, by simp [ha, hs, hr, he, hu]⟩
    by_cases hc : randHash c rr = t.receiverRandHash
    · exfalso
      have hex := (expired_eq_false_iff t env.blockNumber).mpr he
      simp [passesCommitment, ha, hs, hr, hex, hu, hc] at hp
    · exact ⟨"Hash of receiverRand doesn't match receiverRandHash", by decide, by decide,
        by simp [ha, hs, hr, he, hu, hc]⟩

/-- Witness of C8: a ticket of sender 11 with a signature of account 12 is
rejected as not validly signed. -/
theorem redeem_requires_signature_of_sender_witness :
    ∃ e, e ∈ signatureErrors ∧
      redeem toyCrypto toyEnv (toyWorld 11 5 10) (toyTicket 100 0) 3 (toySig 12) = .error e :=
  ((redeem_requires_signature_of_sender toyCrypto toyEnv (toyWorld 11 5 10) (toyTicket 100 0) 3
    (toySig 12)).2
      (fun h => absurd ((validSignature_eq_true_iff toyCrypto (toyTicket 100 0) (toySig 12)).mpr h)
        (by decide))).2.2.1 (by decide)

/-- Counterexample to C9 as stated: `redeem` takes a ticket, one revealed value
and a signature, and the ticket carries one commitment, `receiverRandHash`.
A redemption goes through while a sender value 1 does not hash to a sender
commitment 0: nothing of the sender is checked.  And a mismatch of the
receiver value on a ticket that expired is reported as "Ticket has expired". -/
theorem redeem_checks_no_sender_commitment :
    randHash toyCrypto 1 ≠ 0 ∧
      (∃ w1, redeem toyCrypto toyEnv (toyWorld 11 5 10) (toyTicket 100 0) 3 (toySig 11) =
        .ok w1) ∧
      randHash toyCrypto 3 ≠ ({ toyTicket 100 4 with receiverRandHash := 33 } : Ticket).receiverRandHash ∧
      redeem toyCrypto toyEnv (toyWorld 11 5 10) { toyTicket 100 4 with receiverRandHash := 33 } 3
        (toySig 11) = .error "Ticket has expired" := by
  refine ⟨by decide, ⟨paidWorld toyEnv (toyWorld 11 5 10) (toyTicket 100 0)
    (getTicketHash toyCrypto (toyTicket 100 0)), ?_⟩, by decide, ?_⟩
  · rw [redeem_of_validTicket (by decide)]
    rw [if_pos (by decide)]
    exact (pay_eq_ok_iff _ _ _ _ _).mpr ⟨by decide, by decide, rfl⟩
  · unfold redeem requireValidWinningTicket
    rw [if_neg (by decide)]
    dsimp only
    rw [if_neg (by decide), if_neg (by decide), if_pos (by decide)]

/-- C9 (amended): `redeem` checks one commitment, that of the receiver.  When
the hash of the revealed `receiverRand` differs from `receiverRandHash`,
`redeem` is rejected and the ledger is left as it was; for a ticket that
passes the checks before it (non-null sender and receiver, not expired, not
yet redeemed) the rejection is "Hash of receiverRand doesn't match
receiverRandHash", whatever the signature. -/
theorem receiver_commitment_mismatch_is_rejected (c : Crypto) (env : Env) (w : World)
    (t : Ticket) (rr : Nat) (sig : List Byte) (hne : randHash c rr ≠ t.receiverRandHash) :
    (∃ e, redeem c env w t rr sig = .error e) ∧
      settle w (redeem c env w t rr sig) = w ∧
      (abiValid t = true → t.sender ≠ 0 → t.receiver ≠ 0 →
        expired t env.blockNumber = false →
        w.storage.usedTickets (getTicketHash c t) = false →
        redeem c env w t rr sig =
          .error "Hash of receiverRand doesn't match receiverRandHash") := by
  have herr : ∃ e, redeem c env w t rr sig = .error e := by
    cases hr : redeem c env w t rr sig with
    | error e => exact ⟨e, rfl⟩
    | ok w1 =>
      exact absurd ((requireValid_eq_ok_iff c env w.storage t _ rr sig).mp
        (redeem_ok_pay hr).2.1).2.2.2.2.1 hne
  refine ⟨herr, settle_of_error herr, ?_⟩
  intro ha hs hr he hu
  have he2 := (expired_eq_false_iff t env.blockNumber).mp he
  unfold redeem requireValidWinningTicket
  simp [ha, hs, hr, he2, hu, hne]

/-- Witness of C9: a revealed value that hashes to 32 against a commitment of
33. -/
theorem receiver_commitment_mismatch_is_rejected_witness :
    redeem toyCrypto toyEnv (toyWorld 11 5 10) { toyTicket 100 0 with receiverRandHash := 33 } 3
        (toySig 11) =
      .error "Hash of receiverRand doesn't match receiverRandHash" :=
  (receiver_commitment_mismatch_is_rejected toyCrypto toyEnv (toyWorld 11 5 10)
    { toyTicket 100 0 with receiverRandHash := 33 } 3 (toySig 11) (by decide)).2.2
    (by decide) (by decide) (by decide) (by decide) (by decide)

/-- Counterexample to C10 as stated: a winning ticket of face value 8 is
redeemed against an escrow of 3, the rest coming out of the penalty of 20. -/
theorem redeem_succeeds_with_faceValue_above_escrow :
    ((toyWorld 11 3 20).storage.deposits 11).escrow < (toyTicket 100 0).faceValue ∧
      ∃ w1, redeem toyCrypto toyEnv (toyWorld 11 3 20) (toyTicket 100 0) 3 (toySig 11) =
          .ok w1 ∧
        (w1.storage.deposits 11).escrow = 0 ∧ (w1.storage.deposits 11).penalty = 15 ∧
        w1.balanceOf 22 = 8 := by
  refine ⟨by decide, paidWorld toyEnv (toyWorld 11 3 20) (toyTicket 100 0)
    (getTicketHash toyCrypto (toyTicket 100 0)), ?_, by decide, by decide, by decide⟩
  rw [redeem_of_validTicket (by decide)]
  rw [if_pos (by decide)]
  exact (pay_eq_ok_iff _ _ _ _ _).mpr ⟨by decide, by decide, rfl⟩

/-- C10 (amended): the funds that back a ticket are the escrow and the penalty
of the sender together.  When `faceValue` exceeds escrow plus penalty,
`redeem` is rejected and the ledger is left as it was, so no redemption ever
succeeds with `faceValue` above escrow plus penalty; for a valid winning
ticket the rejection is "Sender doesn't have enough funds to pay". -/
theorem redeem_requires_escrow_plus_penalty (c : Crypto) (env : Env) (w : World) (t : Ticket)
    (rr : Nat) (sig : List Byte)
    (hfv : (w.storage.deposits t.sender).escrow + (w.storage.deposits t.sender).penalty <
      t.faceValue) :
    (∃ e, redeem c env w t rr sig = .error e) ∧
      settle w (redeem c env w t rr sig) = w ∧
      (validTicket c env w t rr sig = true → outcome c sig rr < t.winProb →
        redeem c env w t rr sig = .error "Sender doesn't have enough funds to pay") := by
  have hle : ((w.storage.deposits t.sender).escrow + (w.storage.deposits t.sender).penalty)
      % 2 ^ 256 ≤ (w.storage.deposits t.sender).escrow + (w.storage.deposits t.sender).penalty :=
    Nat.mod_le _ _
  have hlow : ((w.storage.deposits t.sender).escrow + (w.storage.deposits t.sender).penalty)
      % 2 ^ 256 < t.faceValue := by omega
  have herr : ∃ e, redeem c env w t rr sig = .error e := by
    cases hr : redeem c env w t rr sig with
    | error e => exact ⟨e, rfl⟩
    | ok w1 =>
      exact absurd hlow ((pay_eq_ok_iff env w t _ w1).mp (redeem_ok_pay hr).2.2).1
  refine ⟨herr, settle_of_error herr, ?_⟩
  intro hv hwin
  rw [redeem_of_validTicket hv, if_pos hwin]
  unfold pay
  dsimp only
  rw [if_pos hlow]

/-- Witness of C10: a winning ticket of face value 8 against an escrow of 3
and a penalty of 4. -/
theorem redeem_requires_escrow_plus_penalty_witness :
    redeem toyCrypto toyEnv (toyWorld 11 3 4) (toyTicket 100 0) 3 (toySig 11) =
      .error "Sender doesn't have enough funds to pay" :=
  (redeem_requires_escrow_plus_penalty toyCrypto toyEnv (toyWorld 11 3 4) (toyTicket 100 0) 3
    (toySig 11) (by decide)).2.2 (by decide) (by decide)

/-- C11: `getTicketHash` is the hash of the packed encoding of the seven
fields in the order sender, receiver, faceValue, winProb, expirationBlock,
receiverRandHash, senderNonce, and of nothing else; on well-typed tickets the
encoding is injective, so two tickets that differ in a field have different
encodings, and their hashes are equal only if the hash function collides on
these two encodings. -/
theorem encodeTicket_injective (c : Crypto) (t1 t2 : Ticket) (h1 : wellTyped t1 = true)
    (h2 : wellTyped t2 = true) :
    getTicketHash c t1 =
        c.keccak256 (toBytesBE 20 t1.sender ++ toBytesBE 20 t1.receiver ++
          toBytesBE 32 t1.faceValue ++ toBytesBE 32 t1.winProb ++
          toBytesBE 32 t1.expirationBlock ++ toBytesBE 32 t1.receiverRandHash ++
          toBytesBE 4 t1.senderNonce) % 2 ^ 256 ∧
      (encodeTicket t1 = encodeTicket t2 ↔ t1 = t2) ∧
      (t1 ≠ t2 → encodeTicket t1 ≠ encodeTicket t2) ∧
      (t1 ≠ t2 → getTicketHash c t1 = getTicketHash c t2 →
        encodeTicket t1 ≠ encodeTicket t2 ∧
          c.keccak256 (encodeTicket t1) % 2 ^ 256 = c.keccak256 (encodeTicket t2) % 2 ^ 256) := by
  have hinj : encodeTicket t1 = encodeTicket t2 → t1 = t2 := encodeTicket_eq_imp t1 t2 h1 h2
  refine ⟨rfl, ⟨hinj, fun h => by rw [h]⟩, fun hne h => hne (hinj h), ?_⟩
  intro hne hh
  exact ⟨fun h => hne (hinj h), hh⟩

/-- Witness of C11: two tickets that differ in `expirationBlock` only. -/
theorem encodeTicket_injective_witness :
    encodeTicket (toyTicket 100 0) ≠ encodeTicket (toyTicket 100 1) :=
  (encodeTicket_injective toyCrypto (toyTicket 100 0) (toyTicket 100 1) (by decide)
    (by decide)).2.2.1 (by decide)

/-- C12: for an account that has requested an unlock, `withdraw` at a block
height up to `unlockAt` is rejected with "Unlock period not complete" and the
ledger is left as it was, so escrow, penalty and `unlockAt` are unchanged; the
same holds for `withdrawTo`. -/
theorem withdraw_before_unlockAt_is_rejected (env : Env) (w : World)
    (h0 : (w.storage.deposits env.caller).unlockAt ≠ 0)
    (hb : env.blockNumber ≤ (w.storage.deposits env.caller).unlockAt) :
    withdraw env w = .error "Unlock period not complete" ∧
      settle w (withdraw env w) = w ∧
      deposits (settle w (withdraw env w)) env.caller = deposits w env.caller ∧
      (∀ account, account < 2 ^ 160 →
        withdrawTo env w account = .error "Unlock period not complete") := by
  have hw : withdraw env w = .error "Unlock period not complete" :=
    withdrawBody_not_complete env w env.caller h0 hb
  refine ⟨hw, ?_, ?_, ?_⟩
  · rw [hw]
    rfl
  · rw [hw]
    rfl
  · intro account ha
    unfold withdrawTo
    rw [if_neg (by rw [decide_eq_true ha]; decide)]
    exact withdrawBody_not_complete env w account h0 hb

/-- Witness of C12: an unlock that matures at block 15, a withdrawal at block 5. -/
theorem withdraw_before_unlockAt_is_rejected_witness :
    withdraw toyEnv (toyDepositWorld ⟨5, 2, 15⟩ 10) = .error "Unlock period not complete" :=
  (withdraw_before_unlockAt_is_rejected toyEnv (toyDepositWorld ⟨5, 2, 15⟩ 10) (by decide)
    (by decide)).1

/-- C13, the code at the failing input: at block 5 account 7 deposits an
escrow of `2 ^ 255`, account 8 deposits a penalty of `2 ^ 255` for account 7,
and account 7 unlocks (`unlockAt = 15`).  At block 16 the unlock period is
complete and `withdraw` succeeds and clears the record, but the amount it
transfers is the unchecked sum `penalty + escrow`, which wraps to 0: account 7
receives nothing and the `2 ^ 256` tokens stay with the contract, where the
claim has escrow plus penalty transferred. -/
theorem withdraw_wraps_escrow_plus_penalty :
    ∃ w1 w2 w3 w4,
      depositEscrow toyEnv toyFundedWorld (2 ^ 255) = .ok w1 ∧
      depositPenaltyFor { toyEnv with caller := 8 } w1 (2 ^ 255) 7 = .ok w2 ∧
      unlockDeposits toyEnv w2 = .ok (w3, 15) ∧
      deposits w3 7 = { escrow := 2 ^ 255, penalty := 2 ^ 255, unlockAt := 15 } ∧
      withdraw { toyEnv with blockNumber := 16 } w3 = .ok w4 ∧
      deposits w4 7 = { escrow := 0, penalty := 0, unlockAt := 0 } ∧
      w4.balanceOf 7 = 0 ∧
      w4.balanceOf 1000 = 2 ^ 256 ∧
      w3.balanceOf 7 + ((deposits w3 7).escrow + (deposits w3 7).penalty) = 2 ^ 256 := by
  refine ⟨_, _, _, _, rfl, rfl, rfl, ?_, rfl, ?_, ?_, ?_, ?_⟩ <;> decide

/-- Counterexample to C14 as stated: at block 5 a withdrawal of a deposit with
`unlockAt = 5` is rejected. -/
theorem withdraw_at_unlockAt_is_rejected :
    ((toyDepositWorld ⟨5, 2, 5⟩ 10).storage.deposits toyEnv.caller).unlockAt ≤
        toyEnv.blockNumber ∧
      withdraw toyEnv (toyDepositWorld ⟨5, 2, 5⟩ 10) = .error "Unlock period not complete" :=
  ⟨by decide, withdrawBody_not_complete toyEnv _ _ (by decide) (by decide)⟩

/-- C14 (amended): an account that requested an unlock can withdraw at every
block height above its `unlockAt`, and at no other: with the deposited tokens
held by the contract, `withdraw` succeeds exactly when the block height is
greater than `unlockAt`; at a height equal to `unlockAt` it is rejected with
"Unlock period not complete". -/
theorem withdraw_succeeds_iff_past_unlockAt (env : Env) (w : World)
    (h0 : (w.storage.deposits env.caller).unlockAt ≠ 0)
    (hb : ((w.storage.deposits env.caller).penalty + (w.storage.deposits env.caller).escrow)
      % 2 ^ 256 ≤ w.balanceOf env.contract) :
    ((∃ w1, withdraw env w = .ok w1) ↔
        (w.storage.deposits env.caller).unlockAt < env.blockNumber) ∧
      (env.blockNumber = (w.storage.deposits env.caller).unlockAt →
        withdraw env w = .error "Unlock period not complete") := by
  constructor
  · constructor
    · rintro ⟨w1, hw⟩
      exact (withdrawBody_ok_imp hw).2.1
    · intro hlt
      obtain ⟨w1, hw, _⟩ := withdrawBody_complete env w env.caller h0 hlt hb
      exact ⟨w1, hw⟩
  · intro heq
    exact withdrawBody_not_complete env w env.caller h0 (by omega)

/-- Witness of C14: with `unlockAt = 4` a withdrawal at block 5 goes through. -/
theorem withdraw_succeeds_iff_past_unlockAt_witness :
    ∃ w1, withdraw toyEnv (toyDepositWorld ⟨5, 2, 4⟩ 10) = .ok w1 :=
  (withdraw_succeeds_iff_past_unlockAt toyEnv (toyDepositWorld ⟨5, 2, 4⟩ 10) (by decide)
    (by decide)).1.mpr (by decide)

/-- C15, the code at the failing input: the owner sets `unlockDuration` to
`2 ^ 256 - 1`; at block 5 the locked account 7, which holds an escrow of 5,
calls `unlockDeposits`.  The unchecked addition wraps: the call returns 4 and
stores `unlockAt = 4`, which is below the block height, while the block height
plus `unlockDuration` is `2 ^ 256 + 4`. -/
theorem unlockDeposits_wraps_unlockAt :
    ∃ w0, setUnlockDuration { toyEnv with caller := 1 } (toyDepositWorld ⟨5, 0, 0⟩ 10)
        (2 ^ 256 - 1) = .ok w0 ∧
      toyEnv.blockNumber + w0.storage.unlockDuration = 2 ^ 256 + 4 ∧
      ∃ w1, unlockDeposits toyEnv w0 = .ok (w1, 4) ∧
        deposits w1 7 = { escrow := 5, penalty := 0, unlockAt := 4 } := by
  refine ⟨_, rfl, by decide, ?_⟩
  obtain ⟨w1, h1, h2, _⟩ := unlockDeposits_of_locked toyEnv
    { toyDepositWorld ⟨5, 0, 0⟩ 10 with
      storage := { (toyDepositWorld ⟨5, 0, 0⟩ 10).storage with unlockDuration := 2 ^ 256 - 1 } }
    (by decide) (by decide)
  exact ⟨w1, h1, h2⟩

/-- Counterexample to C16 as stated: on an account without deposit
`unlockDeposits` is rejected with "Nothing to withdraw". -/
theorem unlockDeposits_of_empty_reports_nothing_to_withdraw :
    deposits (toyDepositWorld ⟨0, 0, 0⟩ 10) toyEnv.caller =
        { escrow := 0, penalty := 0, unlockAt := 0 } ∧
      unlockDeposits toyEnv (toyDepositWorld ⟨0, 0, 0⟩ 10) = .error "Nothing to withdraw" ∧
      unlockDeposits toyEnv (toyDepositWorld ⟨0, 0, 0⟩ 10) ≠ .error "no amount to unlock" := by
  have h := unlockDeposits_of_empty toyEnv (toyDepositWorld ⟨0, 0, 0⟩ 10) (by decide) (by decide)
  refine ⟨by decide, h, ?_⟩
  rw [h]
  intro hne
  injection hne with hne
  exact absurd hne (by decide)

/-- C16 (amended): `unlockDeposits` on an account whose escrow and penalty are
both zero is rejected with "Nothing to withdraw", and the ledger, with the
deposit record of the account, is left as it was. -/
theorem unlockDeposits_without_deposit_is_rejected (env : Env) (w : World)
    (he : (w.storage.deposits env.caller).escrow = 0)
    (hp : (w.storage.deposits env.caller).penalty = 0) :
    unlockDeposits env w = .error "Nothing to withdraw" ∧
      settle w ((unlockDeposits env w).map Prod.fst) = w ∧
      deposits (settle w ((unlockDeposits env w).map Prod.fst)) env.caller =
        deposits w env.caller := by
  have h := unlockDeposits_of_empty env w he hp
  refine ⟨h, ?_, ?_⟩
  · rw [h]
    rfl
  · rw [h]
    rfl

/-- Witness of C16: the account of the counterexample. -/
theorem unlockDeposits_without_deposit_is_rejected_witness :
    unlockDeposits toyEnv (toyDepositWorld ⟨0, 0, 0⟩ 10) = .error "Nothing to withdraw" :=
  (unlockDeposits_without_deposit_is_rejected toyEnv (toyDepositWorld ⟨0, 0, 0⟩ 10) (by decide)
    (by decide)).1

/-- Counterexample to C17 as stated: a deposit for an account that is unlocking
(`unlockAt = 15` at block 5) and one for an account that can withdraw
(`unlockAt = 3` at block 5) are both rejected. -/
theorem deposit_for_unlocking_account_is_rejected :
    depositEscrow toyEnv (toyDepositWorld ⟨5, 2, 15⟩ 10) 1 =
        .error "Cannot deposit while unlocking" ∧
      depositPenalty toyEnv (toyDepositWorld ⟨5, 2, 3⟩ 10) 1 =
        .error "Cannot deposit while unlocking" :=
  ⟨depositEscrowBody_unlocking toyEnv _ 1 _ (by decide),
    depositPenaltyBody_unlocking toyEnv _ 1 _ (by decide)⟩

/-- C17 (amended): an account returns to Locked (`unlockAt = 0`) when it
withdraws and when it calls `lockDeposits`, not when it is deposited to: a
`depositEscrow`, `depositEscrowFor`, `depositPenalty` or `depositPenaltyFor`
for an account whose `unlockAt` is set is rejected with "Cannot deposit while
unlocking" and leaves the ledger as it was; a deposit succeeds only for a
locked account, which it leaves locked. -/
theorem deposit_requires_locked_account (env : Env) (w : World) (amount account : Nat)
    (ha : account < 2 ^ 160) (hu : (w.storage.deposits account).unlockAt ≠ 0) :
    depositEscrowFor env w amount account = .error "Cannot deposit while unlocking" ∧
      depositPenaltyFor env w amount account = .error "Cannot deposit while unlocking" ∧
      settle w (depositEscrowFor env w amount account) = w ∧
      settle w (depositPenaltyFor env w amount account) = w ∧
      (account = env.caller →
        depositEscrow env w amount = .error "Cannot deposit while unlocking" ∧
          depositPenalty env w amount = .error "Cannot deposit while unlocking") ∧
      (∀ env1 w0 w1 amount1, depositEscrowFor env1 w0 amount1 account = .ok w1 →
        (w0.storage.deposits account).unlockAt = 0 ∧
          (w1.storage.deposits account).unlockAt = 0) ∧
      (∀ env1 w0 w1 amount1, depositPenaltyFor env1 w0 amount1 account = .ok w1 →
        (w0.storage.deposits account).unlockAt = 0 ∧
          (w1.storage.deposits account).unlockAt = 0) ∧
      (∀ w1, withdraw { env with caller := account } w = .ok w1 →
        (w1.storage.deposits account).unlockAt = 0) ∧
      (∀ w1, lockDeposits { env with caller := account } w = .ok w1 →
        (w1.storage.deposits account).unlockAt = 0) := by
  have hdec : ¬ (decide (account < 2 ^ 160) = false) := by
    rw [decide_eq_true ha]
    decide
  have h1 : depositEscrowFor env w amount account = .error "Cannot deposit while unlocking" := by
    unfold depositEscrowFor
    rw [if_neg hdec]
    exact depositEscrowBody_unlocking env w amount account hu
  have h2 : depositPenaltyFor env w amount account =
      .error "Cannot deposit while unlocking" := by
    unfold depositPenaltyFor
    rw [if_neg hdec]
    exact depositPenaltyBody_unlocking env w amount account hu
  refine ⟨h1, h2, ?_, ?_, ?_, ?_, ?_, ?_, ?_⟩
  · rw [h1]
    rfl
  · rw [h2]
    rfl
  · intro hc
    subst hc
    exact ⟨depositEscrowBody_unlocking env w amount _ hu,
      depositPenaltyBody_unlocking env w amount _ hu⟩
  · intro env1 w0 w1 amount1 h
    unfold depositEscrowFor at h
    rw [if_neg hdec] at h
    exact depositEscrowBody_ok_imp h
  · intro env1 w0 w1 amount1 h
    unfold depositPenaltyFor at h
    rw [if_neg hdec] at h
    exact depositPenaltyBody_ok_imp h
  · intro w1 h
    have h3 := (withdrawBody_ok_imp h).2.2
    simp only at h3
    rw [h3]
  · intro w1 h
    unfold lockDeposits at h
    dsimp only at h
    split_ifs at h
    cases h
    simp [update]

/-- Witness of C17: a deposit for account 7 while its unlock is running. -/
theorem deposit_requires_locked_account_witness :
    depositEscrowFor toyEnv (toyDepositWorld ⟨5, 2, 15⟩ 10) 1 7 =
      .error "Cannot deposit while unlocking" :=
  (deposit_requires_locked_account toyEnv (toyDepositWorld ⟨5, 2, 15⟩ 10) 1 7 (by decide)
    (by decide)).1

/-- Counterexample to C18 as stated: with an unlocking amount of 5, which is at
least 0, `cancelUnlocking(0, stakee)` is rejected. -/
theorem cancelUnlocking_of_zero_is_rejected :
    0 ≤ (unlockings (toyStakingWorld 3 ⟨5, 15⟩) (getKey toyCrypto toyEnv.caller 9)).amount ∧
      cancelUnlocking toyCrypto toyEnv (toyStakingWorld 3 ⟨5, 15⟩) 0 9 =
        .error "Cannot stake nothing" :=
  ⟨by decide, rfl⟩

/-- C18 (amended): for a staker and a non-null stakee with an unlocking amount
of at least `a`, and `a` greater than 0, `cancelUnlocking(a, stakee)` succeeds
at every block height, before and after the unlock period has ended (the stake
sums staying within 256 bits): the unlocking amount falls by exactly `a`, the
stake of the staker on the stakee rises by exactly `a`, so that stake plus
unlocking is unchanged, and no token balance changes.  An amount of 0 is
rejected with "Cannot stake nothing". -/
theorem cancelUnlocking_moves_unlocking_back_to_stake (c : Crypto) (env : Env)
    (w : StakingWorld) (a stakee : Nat) (hs : stakee < 2 ^ 160) (hs0 : stakee ≠ 0)
    (ha : 0 < a) (hle : a ≤ (unlockings w (getKey c env.caller stakee)).amount)
    (ho1 : (stakes w (getKey c env.caller stakee)).amount + a < 2 ^ 256)
    (ho2 : w.storage.totalStakes stakee + a < 2 ^ 256)
    (ho3 : w.storage.totalStake + a < 2 ^ 256) (b : Nat) :
    ∃ w1, cancelUnlocking c { env with blockNumber := b } w a stakee = .ok w1 ∧
      (unlockings w1 (getKey c env.caller stakee)).amount + a =
        (unlockings w (getKey c env.caller stakee)).amount ∧
      (stakes w1 (getKey c env.caller stakee)).amount =
        (stakes w (getKey c env.caller stakee)).amount + a ∧
      (stakes w1 (getKey c env.caller stakee)).amount +
          (unlockings w1 (getKey c env.caller stakee)).amount =
        (stakes w (getKey c env.caller stakee)).amount +
          (unlockings w (getKey c env.caller stakee)).amount ∧
      w1.balanceOf = w.balanceOf := by
  obtain ⟨w1, h1, h2, h3, h4⟩ :=
    cancelUnlocking_ok c { env with blockNumber := b } w a stakee hs hs0 ha hle ho1 ho2 ho3
  refine ⟨w1, h1, h2, h3, ?_, h4⟩
  simp only [stakes, unlockings] at h2 h3 ⊢
  omega

/-- Witness of C18: 2 of an unlocking of 5 that matured at block 3 are staked
again at block 5, on top of a stake of 3. -/
theorem cancelUnlocking_moves_unlocking_back_to_stake_witness :
    ∃ w1, cancelUnlocking toyCrypto toyEnv (toyStakingWorld 3 ⟨5, 3⟩) 2 9 = .ok w1 ∧
      (unlockings w1 40).amount + 2 = 5 ∧ (stakes w1 40).amount = 3 + 2 := by
  obtain ⟨w1, h1, h2, h3, _⟩ := cancelUnlocking_moves_unlocking_back_to_stake toyCrypto toyEnv
    (toyStakingWorld 3 ⟨5, 3⟩) 2 9 (by decide) (by decide) (by decide) (by decide) (by decide)
    (by decide) (by decide) 5
  exact ⟨w1, h1, h2, h3⟩

/-- C19: `withdrawStake` at a block height up to the `unlockAt` of the
unlocking of the staker is rejected with "Stake not yet unlocked", and the
ledger is left as it was: the stake record, the unlocking record and all
token balances are unchanged. -/
theorem withdrawStake_before_unlockAt_is_rejected (c : Crypto) (env : Env) (w : StakingWorld)
    (stakee : Nat) (hs : stakee < 2 ^ 160)
    (hb : env.blockNumber ≤ (unlockings w (getKey c env.caller stakee)).unlockAt) :
    withdrawStake c env w stakee = .error "Stake not yet unlocked" ∧
      settleStaking w (withdrawStake c env w stakee) = w ∧
      stakes (settleStaking w (withdrawStake c env w stakee)) (getKey c env.caller stakee) =
        stakes w (getKey c env.caller stakee) ∧
      unlockings (settleStaking w (withdrawStake c env w stakee))
          (getKey c env.caller stakee) =
        unlockings w (getKey c env.caller stakee) ∧
      (settleStaking w (withdrawStake c env w stakee)).balanceOf = w.balanceOf := by
  have h := withdrawStake_not_yet c env w stakee hs hb
  rw [h]
  exact ⟨rfl, rfl, rfl, rfl, rfl⟩

/-- Witness of C19: an unlocking of 5 that matures at block 15, a withdrawal at
block 5. -/
theorem withdrawStake_before_unlockAt_is_rejected_witness :
    withdrawStake toyCrypto toyEnv (toyStakingWorld 3 ⟨5, 15⟩) 9 =
      .error "Stake not yet unlocked" :=
  (withdrawStake_before_unlockAt_is_rejected toyCrypto toyEnv (toyStakingWorld 3 ⟨5, 15⟩) 9
    (by decide) (by decide)).1

/-- Counterexample to C20 as stated: after the withdrawal of an unlocking of 5
that matured at block 3, a second withdrawal is rejected with "No amount to
withdraw". -/
theorem second_withdrawStake_reports_no_amount_to_withdraw :
    ∃ w1, withdrawStake toyCrypto toyEnv (toyStakingWorld 3 ⟨5, 3⟩) 9 = .ok w1 ∧
      withdrawStake toyCrypto toyEnv w1 9 = .error "No amount to withdraw" ∧
      withdrawStake toyCrypto toyEnv w1 9 ≠ .error "No amount to unlock" := by
  refine ⟨_, rfl, rfl, ?_⟩
  intro h
  have h2 : withdrawStake toyCrypto toyEnv
      (settleStaking (toyStakingWorld 3 ⟨5, 3⟩)
        (withdrawStake toyCrypto toyEnv (toyStakingWorld 3 ⟨5, 3⟩) 9)) 9 =
      .error "No amount to withdraw" := rfl
  have h3 : (Except.error "No amount to withdraw" : Except String StakingWorld) =
      .error "No amount to unlock" := h2.symm.trans h
  injection h3 with h3
  exact absurd h3 (by decide)

/-- C20 (amended): after the unlock period has ended (block height above
`unlockAt`), `withdrawStake` of a non-empty unlocking succeeds in a ledger
where the contract holds the unlocked tokens: it transfers exactly the
unlocked amount to the staker and leaves the unlocking record with amount 0
and `unlockAt` 0; a second withdrawal after it is rejected with "No amount to
withdraw". -/
theorem withdrawStake_after_unlockAt_pays_out_once (c : Crypto) (env : Env) (w : StakingWorld)
    (stakee : Nat) (hs : stakee < 2 ^ 160)
    (hlt : (unlockings w (getKey c env.caller stakee)).unlockAt < env.blockNumber)
    (hn : (unlockings w (getKey c env.caller stakee)).amount ≠ 0)
    (hb : (unlockings w (getKey c env.caller stakee)).amount ≤ w.balanceOf env.contract) :
    ∃ w1, withdrawStake c env w stakee = .ok w1 ∧
      unlockings w1 (getKey c env.caller stakee) = { amount := 0, unlockAt := 0 } ∧
      w1.balanceOf env.caller =
        (if env.caller = env.contract then w.balanceOf env.caller
          else w.balanceOf env.caller + (unlockings w (getKey c env.caller stakee)).amount) ∧
      (∀ env2 : Env, env2.caller = env.caller → env.blockNumber ≤ env2.blockNumber →
        withdrawStake c env2 w1 stakee = .error "No amount to withdraw") := by
  obtain ⟨w1, h1, h2, _, h4⟩ := withdrawStake_ok c env w stakee hs hlt hn hb
  refine ⟨w1, h1, h2, h4, ?_⟩
  intro env2 hc hbn
  apply withdrawStake_empty c env2 w1 stakee hs
  · rw [hc, h2]
    show 0 < env2.blockNumber
    simp only [unlockings] at hlt
    omega
  · rw [hc, h2]

/-- Witness of C20: an unlocking of 5 that matured at block 3, withdrawn at
block 5. -/
theorem withdrawStake_after_unlockAt_pays_out_once_witness :
    ∃ w1, withdrawStake toyCrypto toyEnv (toyStakingWorld 3 ⟨5, 3⟩) 9 = .ok w1 ∧
      unlockings w1 40 = { amount := 0, unlockAt := 0 } ∧ w1.balanceOf 7 = 5 := by
  obtain ⟨w1, h1, h2, h3, _⟩ := withdrawStake_after_unlockAt_pays_out_once toyCrypto toyEnv
    (toyStakingWorld 3 ⟨5, 3⟩) 9 (by decide) (by decide) (by decide) (by decide)
  exact ⟨w1, h1, h2, h3⟩

/-- C21, counterexample: the binding hands three values to `redeem`, not four.
On a backend that builds the transaction from what it is given, redeeming a
ticket with the revealed value 1 gives a transaction whose arguments are the
ticket, the value 1 and the signature: no sender random is among them. -/
theorem redeem_binding_passes_three_values :
    (SyloTicketingTransactor.Redeem { contract := toyTicketing } toyTransactOpts
        (toyTicket 5 0) (some 1) (toySig 11)).1.map (fun tx => (tx.method, tx.params)) =
      some ("redeem",
        [Val.ticket (toyTicket 5 0), Val.bigInt (some 1), Val.bytes (toySig 11)]) ∧
    (SyloTicketingTransactor.Redeem { contract := toyTicketing } toyTransactOpts
        (toyTicket 5 0) (some 1) (toySig 11)).1.map (fun tx => tx.params.length) = some 3 ∧
    (SyloTicketingTransactor.Redeem { contract := toyTicketing } toyTransactOpts
        (toyTicket 5 0) (some 1) (toySig 11)).1.map (fun tx => tx.params.length) ≠ some 4 := by
  refine ⟨rfl, rfl, ?_⟩
  intro h
  have h3 : (SyloTicketingTransactor.Redeem { contract := toyTicketing } toyTransactOpts
      (toyTicket 5 0) (some 1) (toySig 11)).1.map (fun tx => tx.params.length) = some 3 := rfl
  rw [h3] at h
  exact absurd h (by decide)

/-- C21 (amended): submitting a redemption passes exactly three values to the
ledger's `redeem` method, in this order: the ticket, the receiver's revealed
random value and the signature.  The transactor hands the three to `Transact`
under the method name "redeem", and both sessions hand the same three on with
their own transaction options. -/
theorem redeem_binding_passes_ticket_receiverRand_and_signature (b : SyloTicketing)
    (callOpts : CallOpts) (opts : TransactOpts) (ticket : Ticket) (receiverRand : BigInt)
    (sig : List Byte) :
    SyloTicketingTransactor.Redeem b.SyloTicketingTransactor opts ticket receiverRand sig =
        b.SyloTicketingTransactor.contract.Transact opts "redeem"
          [Val.ticket ticket, Val.bigInt receiverRand, Val.bytes sig] ∧
      SyloTicketingSession.Redeem { Contract := b, CallOpts := callOpts, TransactOpts := opts }
          ticket receiverRand sig =
        b.SyloTicketingTransactor.contract.Transact opts "redeem"
          [Val.ticket ticket, Val.bigInt receiverRand, Val.bytes sig] ∧
      SyloTicketingTransactorSession.Redeem
          { Contract := b.SyloTicketingTransactor, TransactOpts := opts }
          ticket receiverRand sig =
        b.SyloTicketingTransactor.contract.Transact opts "redeem"
          [Val.ticket ticket, Val.bigInt receiverRand, Val.bytes sig] ∧
      [Val.ticket ticket, Val.bigInt receiverRand, Val.bytes sig].length = 3 := by
  refine ⟨?_, ?_, ?_, rfl⟩
  · unfold SyloTicketingTransactor.Redeem
    rfl
  · unfold SyloTicketingSession.Redeem SyloTicketingTransactor.Redeem
    rfl
  · unfold SyloTicketingTransactorSession.Redeem SyloTicketingTransactor.Redeem
    rfl

/-- C22: for every value `r` with `0 ≤ r < 2 ^ 256`, the commitment a client
computes (`receiverRandHash` in client_test.go, `createRandomNumber` in
payments_test.go) is, byte for byte, the digest `redeem` computes from the
revealed `r`.  So for a ticket that carries this commitment and passes the
checks before it, `redeem` does not reject a revealed value for its hash
exactly when the digest of that value is the digest of `r`: revealing `r`
passes, and any other 256-bit value that passes is a collision of the hash
with `r`. -/
theorem client_commitment_is_the_digest_redeem_computes (c : Crypto) (r : Int)
    (h0 : 0 ≤ r) (h1 : r < 2 ^ 256) :
    receiverRandHash c r = .ok (toBytesBE 32 (randHash c r.toNat)) ∧
      (∀ b : List Byte, b.length = 32 → (fromBytesBE b : Int) = r →
        createRandomNumber c b = .ok (r, toBytesBE 32 (randHash c r.toNat))) ∧
      ∀ (env : Env) (w : World) (t : Ticket) (revealed : Nat) (sig : List Byte),
        t.receiverRandHash = fromBytesBE (toBytesBE 32 (randHash c r.toNat)) →
        abiValid t = true → t.sender ≠ 0 → t.receiver ≠ 0 →
        expired t env.blockNumber = false →
        w.storage.usedTickets (getTicketHash c t) = false →
        (redeem c env w t revealed sig ≠
            .error "Hash of receiverRand doesn't match receiverRandHash" ↔
          randHash c revealed = randHash c r.toNat) ∧
        (revealed = r.toNat →
          redeem c env w t revealed sig ≠
            .error "Hash of receiverRand doesn't match receiverRandHash") ∧
        (revealed < 2 ^ 256 → revealed ≠ r.toNat →
          redeem c env w t revealed sig ≠
            .error "Hash of receiverRand doesn't match receiverRandHash" →
          toBytesBE 32 revealed ≠ toBytesBE 32 r.toNat ∧
            c.keccak256 (toBytesBE 32 revealed) % 2 ^ 256 =
              c.keccak256 (toBytesBE 32 r.toNat) % 2 ^ 256) := by
  have hn : r.toNat < 256 ^ 32 := by
    have h256 : (256 : Nat) ^ 32 = 2 ^ 256 := by norm_num
    rw [h256]
    omega
  have hcommit := receiverRandHash_eq c r h0 hn
  refine ⟨hcommit, ?_, ?_⟩
  · intro b hlen hb
    rw [createRandomNumber_eq c b hlen, hb]
    have hnat : fromBytesBE b = r.toNat := by omega
    rw [hnat]
  · intro env w t revealed sig ht ha hs hrc he hu
    have hlt : randHash c r.toNat < 256 ^ 32 := by
      have h256 : (256 : Nat) ^ 32 = 2 ^ 256 := by norm_num
      rw [h256]
      exact Nat.mod_lt _ (by positivity)
    rw [fromBytesBE_toBytesBE, Nat.mod_eq_of_lt hlt] at ht
    have hiff : redeem c env w t revealed sig ≠
          .error "Hash of receiverRand doesn't match receiverRandHash" ↔
        randHash c revealed = randHash c r.toNat := by
      constructor
      · intro hne
        by_contra hd
        have hd2 : randHash c revealed ≠ t.receiverRandHash := by rw [ht]; exact hd
        have he2 := (expired_eq_false_iff t env.blockNumber).mp he
        apply hne
        unfold redeem requireValidWinningTicket
        simp [ha, hs, hrc, he2, hu, hd2]
      · intro heq
        apply redeem_ne_mismatch_of_passesCommitment sig
        simp [passesCommitment, ha, hs, hrc, he, hu, heq, ht]
    refine ⟨hiff, ?_, ?_⟩
    · intro hr
      exact hiff.mpr (by rw [hr])
    · intro hrev hne hpass
      refine ⟨?_, hiff.mp hpass⟩
      intro hb
      exact hne (toBytesBE_injective 32 _ _ (by
        have h256 : (256 : Nat) ^ 32 = 2 ^ 256 := by norm_num
        rw [h256]
        exact hrev) hn hb)

/-- Witness of C22: the value 1 of the test "can redeem ticket". -/
theorem client_commitment_is_the_digest_redeem_computes_witness :
    (0 : Int) ≤ 1 ∧ (1 : Int) < 2 ^ 256 ∧
      receiverRandHash toyCrypto 1 = .ok (toBytesBE 32 (randHash toyCrypto 1)) :=
  ⟨by decide, by norm_num,
    (client_commitment_is_the_digest_redeem_computes toyCrypto 1 (by decide) (by norm_num)).1⟩

/-- C23: for an iterator that has not failed, a call of `Next` that meets a
retrieval error (the `select` takes the error `e` of the subscription) or a
parsing error (`UnpackLog` of the log it receives returns `e`) returns false,
and `Error()` called afterwards returns exactly `e`.  The log is received when
the iterator is completed, or the `select` picks the log channel, or the
subscription has no error to give. -/
theorem Next_error_is_what_Error_returns {R : Type} (it : OwnershipTransferredIterator R)
    (pickSub : Bool) (fuel : Nat) (e : GoError) (hfail : it.fail = none) :
    ((it.done = false ∧ it.sub = .failed e ∧ (it.logs = [] ∨ pickSub = true)) →
        ∃ it1, it.Next pickSub (fuel + 2) = .returned false it1 ∧ it1.Error = some e) ∧
      (∀ log rest ev, it.logs = log :: rest →
        it.contract.UnpackLog OwnershipTransferred.zero it.event log = (ev, some e) →
        (it.done = true ∨ pickSub = false ∨ ∀ e1, it.sub ≠ .failed e1) →
        ∃ it1, it.Next pickSub (fuel + 2) = .returned false it1 ∧ it1.Error = some e) := by
  constructor
  · rintro ⟨hdone, hsub, hpick⟩
    have hs : it.sub.Err = some (some e, .closed) := by rw [hsub]; rfl
    rw [Next_progress_sub it pickSub (fuel + 1) (some e) .closed hfail hdone hs hpick,
      Next_of_fail _ pickSub fuel e rfl]
    exact ⟨_, rfl, rfl⟩
  · intro log rest ev hlogs hunpack hrecv
    by_cases hdone : it.done = true
    · rw [Next_done_cons it pickSub (fuel + 1) log rest hfail hdone hlogs,
        receive_error it log rest ev e hunpack]
      exact ⟨_, rfl, rfl⟩
    · have hd : it.done = false := by simpa using hdone
      by_cases hp : pickSub = false
      · rw [Next_progress_log it pickSub (fuel + 1) log rest hfail hd hlogs (.inr hp),
          receive_error it log rest ev e hunpack]
        exact ⟨_, rfl, rfl⟩
      · have hp1 : pickSub = true := by simpa using hp
        cases hsub : it.sub with
        | running =>
          rw [Next_progress_log it pickSub (fuel + 1) log rest hfail hd hlogs (.inl hsub),
            receive_error it log rest ev e hunpack]
          exact ⟨_, rfl, rfl⟩
        | failed e1 =>
          rcases hrecv with h | h | h
          · exact absurd h hdone
          · exact absurd h hp
          · exact absurd hsub (h e1)
        | closed =>
          have hs : it.sub.Err = some (none, .closed) := by rw [hsub]; rfl
          rw [Next_progress_sub it pickSub (fuel + 1) none .closed hfail hd hs (.inr hp1),
            Next_done_cons { it with sub := .closed, done := true, fail := none } pickSub fuel
              log rest rfl rfl hlogs,
            receive_error { it with sub := .closed, done := true, fail := none } log rest ev e
              hunpack]
          exact ⟨_, rfl, rfl⟩

/-- Witness of C23: an iterator in progress whose channel holds a log with the
event topic only. -/
theorem Next_error_is_what_Error_returns_witness :
    (toyIterator [badLog] .running false).fail = none ∧
      ∃ it1, (toyIterator [badLog] .running false).Next false 2 = .returned false it1 ∧
        it1.Error = some "abi: wrong number of topics" :=
  ⟨rfl, (Next_error_is_what_Error_returns (toyIterator [badLog] .running false) false 0
    "abi: wrong number of topics" rfl).2 badLog [] OwnershipTransferred.zero rfl rfl
    (.inr (.inl rfl))⟩

/-- C25: a failed iterator returns false from `Next` as it is: no log is taken
from the channel and `Event`, `done` and `fail` are what they were, whatever
the channels hold.  So every later call returns false as well and `Error()`
keeps returning the same error. -/
theorem failed_iterator_stays_failed {R : Type} (it : OwnershipTransferredIterator R)
    (e : GoError) (hfail : it.fail = some e) :
    (∀ pickSub fuel, it.Next pickSub (fuel + 1) = .returned false it) ∧
      it.Error = some e ∧
      (∀ logs sub pickSub fuel,
        OwnershipTransferredIterator.Next pickSub (fuel + 1) { it with logs := logs, sub := sub } =
          .returned false { it with logs := logs, sub := sub }) ∧
      (∀ picks, it.NextAll picks = (picks.map (fun _ => (false, it.Event)), it)) ∧
      (∀ picks, (it.NextAll picks).2.Error = some e) := by
  have hall : ∀ picks, it.NextAll picks = (picks.map (fun _ => (false, it.Event)), it) := by
    intro picks
    induction picks with
    | nil => rfl
    | cons p ps ih =>
      unfold OwnershipTransferredIterator.NextAll
      rw [Next_of_fail it p 1 e hfail]
      dsimp only
      rw [ih]
      rfl
  refine ⟨fun pickSub fuel => Next_of_fail it pickSub fuel e hfail, hfail,
    fun logs sub pickSub fuel => Next_of_fail _ pickSub fuel e hfail, hall, ?_⟩
  intro picks
  rw [hall]
  exact hfail

/-- Witness of C25: the iterator a log with the event topic only has failed,
called three more times with a fresh log in the channel. -/
theorem failed_iterator_stays_failed_witness :
    ({ toyIterator [toyLog] .running false with fail := some "abi: wrong number of topics" } :
        OwnershipTransferredIterator (List Val)).fail = some "abi: wrong number of topics" ∧
      (({ toyIterator [toyLog] .running false with fail := some "abi: wrong number of topics" } :
        OwnershipTransferredIterator (List Val)).NextAll [true, false, true]).1 =
        [(false, none), (false, none), (false, none)] :=
  ⟨rfl, congrArg Prod.fst ((failed_iterator_stays_failed
    { toyIterator [toyLog] .running false with fail := some "abi: wrong number of topics" }
    "abi: wrong number of topics" rfl).2.2.2.1 [true, false, true])⟩

/-- C26: once the subscription has completed without error (`done` is true and
`fail` is nil), `Next` delivers what the channel holds.  With no log buffered
it returns false as it is, without waiting.  Otherwise it takes the first log:
when the log unpacks it returns true with `Event` the unpacked struct and
`Event.Raw` the log, and when it does not it returns false with the error in
`fail`; so it returns true exactly when a log is buffered and the first one
unpacks.  The other logs stay in the channel: when all of them unpack,
successive calls deliver every one in the order of arrival and the call after
the last returns false, and a log that was buffered when the iterator took
the completion of the subscription is delivered as well. -/
theorem completed_iterator_delivers_buffered_logs {R : Type}
    (it : OwnershipTransferredIterator R) (pickSub : Bool) (fuel : Nat)
    (hdone : it.done = true) (hfail : it.fail = none) :
    (it.logs = [] → it.Next pickSub (fuel + 1) = .returned false it) ∧
      (∀ log rest, it.logs = log :: rest →
        (it.contract.UnpackLog OwnershipTransferred.zero it.event log).2 = none →
        it.Next pickSub (fuel + 1) =
            .returned true { it with logs := rest, Event := some (it.delivered log) } ∧
          (it.delivered log).Raw = log ∧
          (it.delivered log).PreviousOwner =
            (it.contract.UnpackLog OwnershipTransferred.zero it.event log).1.PreviousOwner ∧
          (it.delivered log).NewOwner =
            (it.contract.UnpackLog OwnershipTransferred.zero it.event log).1.NewOwner) ∧
      (∀ log rest e, it.logs = log :: rest →
        (it.contract.UnpackLog OwnershipTransferred.zero it.event log).2 = some e →
        it.Next pickSub (fuel + 1) =
          .returned false { it with
            logs := rest
            Event := some (it.contract.UnpackLog OwnershipTransferred.zero it.event log).1
            fail := some e }) ∧
      ((∃ it1, it.Next pickSub (fuel + 1) = .returned true it1) ↔
        ∃ log rest, it.logs = log :: rest ∧
          (it.contract.UnpackLog OwnershipTransferred.zero it.event log).2 = none) ∧
      (∃ more it1, it.Next pickSub (fuel + 1) = .returned more it1) ∧
      ((∀ log ∈ it.logs,
          (it.contract.UnpackLog OwnershipTransferred.zero it.event log).2 = none) →
        (it.NextAll (List.replicate it.logs.length pickSub)).1 =
            it.logs.map (fun log => (true, some (it.delivered log))) ∧
          (it.NextAll (List.replicate it.logs.length pickSub)).2.Next pickSub (fuel + 1) =
            .returned false (it.NextAll (List.replicate it.logs.length pickSub)).2) ∧
      (∀ log rest, it.logs = log :: rest →
        (it.contract.UnpackLog OwnershipTransferred.zero it.event log).2 = none →
        ∃ it1,
          OwnershipTransferredIterator.Next pickSub (fuel + 2)
              { it with done := false, sub := .closed } = .returned true it1 ∧
            it1.Event = some (it.delivered log) ∧ it1.logs = rest) := by
  have hok : ∀ log rest, it.logs = log :: rest →
      (it.contract.UnpackLog OwnershipTransferred.zero it.event log).2 = none →
      it.Next pickSub (fuel + 1) =
        .returned true { it with logs := rest, Event := some (it.delivered log) } := by
    intro log rest hl hu
    rw [Next_done_cons it pickSub fuel log rest hfail hdone hl,
      receive_ok it log rest (it.contract.UnpackLog OwnershipTransferred.zero it.event log).1
        (by rw [← hu])]
    rfl
  have herr : ∀ log rest e, it.logs = log :: rest →
      (it.contract.UnpackLog OwnershipTransferred.zero it.event log).2 = some e →
      it.Next pickSub (fuel + 1) =
        .returned false { it with
          logs := rest
          Event := some (it.contract.UnpackLog OwnershipTransferred.zero it.event log).1
          fail := some e } := by
    intro log rest e hl hu
    rw [Next_done_cons it pickSub fuel log rest hfail hdone hl,
      receive_error it log rest (it.contract.UnpackLog OwnershipTransferred.zero it.event log).1
        e (by rw [← hu])]
  refine ⟨fun hl => Next_done_nil it pickSub fuel hfail hdone hl,
    fun log rest hl hu => ⟨hok log rest hl hu, rfl, rfl, rfl⟩, herr, ?_, ?_, ?_, ?_⟩
  · constructor
    · rintro ⟨it1, h1⟩
      cases hl : it.logs with
      | nil =>
        rw [Next_done_nil it pickSub fuel hfail hdone hl] at h1
        cases h1
      | cons log rest =>
        refine ⟨log, rest, rfl, ?_⟩
        cases hu : (it.contract.UnpackLog OwnershipTransferred.zero it.event log).2 with
        | none => rfl
        | some e =>
          rw [herr log rest e hl hu] at h1
          cases h1
    · rintro ⟨log, rest, hl, hu⟩
      exact ⟨_, hok log rest hl hu⟩
  · exact Next_one_returns it pickSub (.inr hdone) |>.imp fun more h =>
      h.imp fun it1 h1 => by rw [Next_done_fuel it pickSub fuel (.inr hdone)]; exact h1
  · intro hall
    obtain ⟨h1, h2, h3, h4⟩ := NextAll_done pickSub it.logs it hdone hfail rfl hall
    exact ⟨h1, Next_done_nil _ pickSub fuel h4 h3 h2⟩
  · intro log rest hl hu
    by_cases hp : pickSub = true
    · rw [Next_progress_sub { it with done := false, sub := .closed } pickSub (fuel + 1) none
          .closed hfail rfl rfl (.inr hp),
        Next_done_cons { it with done := true, sub := .closed, fail := none } pickSub fuel log
          rest rfl rfl hl,
        receive_ok { it with done := true, sub := .closed, fail := none } log rest
          (it.contract.UnpackLog OwnershipTransferred.zero it.event log).1 (by rw [← hu])]
      exact ⟨_, rfl, rfl, rfl⟩
    · rw [Next_progress_log { it with done := false, sub := .closed } pickSub (fuel + 1) log
          rest hfail rfl hl (.inr (by simpa using hp)),
        receive_ok { it with done := false, sub := .closed } log rest
          (it.contract.UnpackLog OwnershipTransferred.zero it.event log).1 (by rw [← hu])]
      exact ⟨_, rfl, rfl, rfl⟩

/-- Witness of C26: a completed iterator with two logs buffered delivers the
first, with the owners 1 and 2 and the log as `Raw`. -/
theorem completed_iterator_delivers_buffered_logs_witness :
    (toyIterator [toyLog, badLog] .closed true).done = true ∧
      (toyIterator [toyLog, badLog] .closed true).fail = none ∧
      (toyIterator [toyLog, badLog] .closed true).Next false 1 =
        .returned true { toyIterator [toyLog, badLog] .closed true with
          logs := [badLog]
          Event := some { PreviousOwner := 1, NewOwner := 2, Raw := toyLog } } :=
  ⟨rfl, rfl, ((completed_iterator_delivers_buffered_logs
    (toyIterator [toyLog, badLog] .closed true) false 0 rfl rfl).2.1 toyLog [badLog] rfl rfl).1⟩

/-- C27: a call of `Next` calls `Next` at most once.  Fuel for two calls is
never used up, and more fuel changes nothing.  The inner call is made when
the iterator is in progress and the `select` takes the result of the
subscription, and only then; it runs on the iterator with `done` set, so it
returns through the failed or the completed branch with no further call.
Hence `Next` returns whenever a log or a result of the subscription is
there to take. -/
theorem Next_calls_itself_at_most_once {R : Type} (it : OwnershipTransferredIterator R)
    (pickSub : Bool) :
    it.Next pickSub 2 ≠ .outOfFuel ∧
      (∀ fuel, it.Next pickSub (fuel + 2) = it.Next pickSub 2) ∧
      (it.Next pickSub 1 = .outOfFuel ↔
        it.fail = none ∧ it.done = false ∧ it.sub ≠ .running ∧
          (it.logs = [] ∨ pickSub = true)) ∧
      (∀ err sub, it.fail = none → it.done = false → it.sub.Err = some (err, sub) →
        (it.logs = [] ∨ pickSub = true) →
        it.Next pickSub 2 =
            OwnershipTransferredIterator.Next pickSub 1
              { it with sub := sub, done := true, fail := err } ∧
          ∃ more it1,
            OwnershipTransferredIterator.Next pickSub 1
              { it with sub := sub, done := true, fail := err } = .returned more it1) ∧
      ((it.logs ≠ [] ∨ it.sub ≠ .running) →
        ∃ more it1, it.Next pickSub 2 = .returned more it1) := by
  have hinner : ∀ err sub, it.fail = none → it.done = false →
      it.sub.Err = some (err, sub) → (it.logs = [] ∨ pickSub = true) →
      it.Next pickSub 2 =
          OwnershipTransferredIterator.Next pickSub 1
            { it with sub := sub, done := true, fail := err } ∧
        ∃ more it1,
          OwnershipTransferredIterator.Next pickSub 1
            { it with sub := sub, done := true, fail := err } = .returned more it1 :=
    fun err sub hf hd hs hp =>
      ⟨Next_progress_sub it pickSub 1 err sub hf hd hs hp,
        Next_one_returns { it with sub := sub, done := true, fail := err } pickSub (.inr rfl)⟩
  rcases Next_cases it pickSub with ⟨more, it1, h⟩ | ⟨⟨hl, hrun⟩, h⟩ | ⟨err, sub, hf, hd, hs, hp, h⟩
  · refine ⟨?_, ?_, ?_, hinner, ?_⟩
    · rw [h 1]
      intro hx
      cases hx
    · intro fuel
      rw [h (fuel + 1), h 1]
    · constructor
      · intro hx
        rw [h 0] at hx
        cases hx
      · rintro ⟨hf, hd, hs, hp⟩
        have hex : ∃ err sub, it.sub.Err = some (err, sub) := by
          cases hsub : it.sub with
          | running => exact absurd hsub hs
          | failed e => exact ⟨_, _, rfl⟩
          | closed => exact ⟨_, _, rfl⟩
        obtain ⟨err, sub, hsub⟩ := hex
        have h0 := Next_progress_sub it pickSub 0 err sub hf hd hsub hp
        rw [h 0] at h0
        cases h0
    · intro _
      exact ⟨more, it1, h 1⟩
  · refine ⟨?_, ?_, ?_, hinner, ?_⟩
    · rw [h 1]
      intro hx
      cases hx
    · intro fuel
      rw [h (fuel + 1), h 1]
    · constructor
      · intro hx
        rw [h 0] at hx
        cases hx
      · rintro ⟨_, _, hs, _⟩
        exact absurd hrun hs
    · rintro (hne | hne)
      · exact absurd hl hne
      · exact absurd hrun hne
  · obtain ⟨h2, more, it1, hret⟩ := hinner err sub hf hd hs hp
    refine ⟨?_, ?_, ?_, hinner, ?_⟩
    · rw [h2, hret]
      intro hx
      cases hx
    · intro fuel
      rw [h (fuel + 1), h 1,
        Next_done_fuel { it with sub := sub, done := true, fail := err } pickSub fuel (.inr rfl)]
    · constructor
      · intro _
        refine ⟨hf, hd, ?_, hp⟩
        intro hsub
        rw [hsub] at hs
        cases hs
      · intro _
        rw [h 0]
        rfl
    · intro _
      exact ⟨more, it1, by rw [h2, hret]⟩

/-- Witness of C27: an iterator in progress whose subscription has ended and
whose channel holds one log, when the `select` takes the subscription: the
inner call delivers the log. -/
theorem Next_calls_itself_at_most_once_witness :
    ((toyIterator [toyLog] .closed false).logs ≠ [] ∨
        (toyIterator [toyLog] .closed false).sub ≠ .running) ∧
      ∃ more it1, (toyIterator [toyLog] .closed false).Next true 2 = .returned more it1 :=
  ⟨.inl (by intro h; cases h),
    (Next_calls_itself_at_most_once (toyIterator [toyLog] .closed false) true).2.2.2.2
      (.inl (by intro h; cases h))⟩

/-- C28 (the code at the failing input): `ParseOwnershipTransferred` of the
`SyloTicketing` binding returns the event of a log with an empty `Raw`, where
the iterator of the same binding delivers the log as `Raw`, as do the parsers
of the two other bindings.  For every backend and log, the parsers of
`PriceManager` and `StakingManager` return the event `Next` delivers when the
log unpacks, all three return no event and the error of `UnpackLog` when it
does not, and the parser of `SyloTicketing` returns the struct `UnpackLog`
filled, with the `Raw` that `UnpackLog` left in it. -/
theorem SyloTicketing_ParseOwnershipTransferred_leaves_Raw_unset :
    (SyloTicketingFilterer.ParseOwnershipTransferred { contract := toyTicketing } toyLog =
        (some { PreviousOwner := 1, NewOwner := 2, Raw := Log.zero }, none) ∧
      Log.zero ≠ toyLog ∧
      (toyTicketingIterator [toyLog]).Next false 1 =
        .returned true { toyTicketingIterator [] with
          Event := some { PreviousOwner := 1, NewOwner := 2, Raw := toyLog } } ∧
      PriceManagerFilterer.ParseOwnershipTransferred { contract := toyContract } toyLog =
        (some { PreviousOwner := 1, NewOwner := 2, Raw := toyLog }, none) ∧
      StakingManagerFilterer.ParseOwnershipTransferred { contract := toyContract } toyLog =
        (some { PreviousOwner := 1, NewOwner := 2, Raw := toyLog }, none)) ∧
      (∀ (f : PriceManagerFilterer) (it : OwnershipTransferredIterator (List Val)) (log : Log),
        it.contract = f.contract → it.event = "OwnershipTransferred" →
        ((it.contract.UnpackLog OwnershipTransferred.zero it.event log).2 = none →
          PriceManagerFilterer.ParseOwnershipTransferred f log =
            (some (it.delivered log), none)) ∧
        ∀ e, (it.contract.UnpackLog OwnershipTransferred.zero it.event log).2 = some e →
          PriceManagerFilterer.ParseOwnershipTransferred f log = (none, some e)) ∧
      (∀ (f : StakingManagerFilterer) (it : OwnershipTransferredIterator (List Val)) (log : Log),
        it.contract = f.contract → it.event = "OwnershipTransferred" →
        ((it.contract.UnpackLog OwnershipTransferred.zero it.event log).2 = none →
          StakingManagerFilterer.ParseOwnershipTransferred f log =
            (some (it.delivered log), none)) ∧
        ∀ e, (it.contract.UnpackLog OwnershipTransferred.zero it.event log).2 = some e →
          StakingManagerFilterer.ParseOwnershipTransferred f log = (none, some e)) ∧
      (∀ (f : SyloTicketingFilterer) (it : OwnershipTransferredIterator Val) (log : Log),
        it.contract = f.contract → it.event = "OwnershipTransferred" →
        ((it.contract.UnpackLog OwnershipTransferred.zero it.event log).2 = none →
          SyloTicketingFilterer.ParseOwnershipTransferred f log =
            (some { it.delivered log with
              Raw := (it.contract.UnpackLog OwnershipTransferred.zero it.event log).1.Raw },
              none)) ∧
        ∀ e, (it.contract.UnpackLog OwnershipTransferred.zero it.event log).2 = some e →
          SyloTicketingFilterer.ParseOwnershipTransferred f log = (none, some e)) := by
  refine ⟨⟨rfl, by decide, rfl, rfl, rfl⟩, ?_, ?_, ?_⟩
  · intro f it log hc he
    unfold PriceManagerFilterer.ParseOwnershipTransferred
      OwnershipTransferredIterator.delivered
    rw [← hc, ← he]
    rcases it.contract.UnpackLog OwnershipTransferred.zero it.event log with ⟨ev, _ | e1⟩
    · exact ⟨fun _ => rfl, fun e h => (by cases h)⟩
    · refine ⟨fun h => (by cases h), fun e h => ?_⟩
      cases h
      rfl
  · intro f it log hc he
    unfold StakingManagerFilterer.ParseOwnershipTransferred
      OwnershipTransferredIterator.delivered
    rw [← hc, ← he]
    rcases it.contract.UnpackLog OwnershipTransferred.zero it.event log with ⟨ev, _ | e1⟩
    · exact ⟨fun _ => rfl, fun e h => (by cases h)⟩
    · refine ⟨fun h => (by cases h), fun e h => ?_⟩
      cases h
      rfl
  · intro f it log hc he
    unfold SyloTicketingFilterer.ParseOwnershipTransferred
      OwnershipTransferredIterator.delivered
    rw [← hc, ← he]
    rcases it.contract.UnpackLog OwnershipTransferred.zero it.event log with ⟨ev, _ | e1⟩
    · exact ⟨fun _ => rfl, fun e h => (by cases h)⟩
    · refine ⟨fun h => (by cases h), fun e h => ?_⟩
      cases h
      rfl

/-- C29: `FilterOwnershipTransferred` and `WatchOwnershipTransferred` hand the
same two topic rules to `FilterLogs` and `WatchLogs`: the rule of
`previousOwner` first and the rule of `newOwner` second, each the addresses of
its list in their order (so of the same length, and empty for an empty list).
When `FilterLogs` or `WatchLogs` returns an error, the operation returns no
iterator or subscription together with that error; otherwise the iterator or
subscription is built on the channel and subscription it returned. -/
theorem Filter_and_Watch_pass_the_same_topic_rules {R : Type} (contract : BoundContract R)
    (fopts : FilterOpts) (wopts : WatchOpts) (sink : List OwnershipTransferred)
    (previousOwner newOwner : List Nat) :
    FilterOwnershipTransferred contract fopts previousOwner newOwner =
        (match contract.FilterLogs fopts "OwnershipTransferred"
            [previousOwner.map Val.address, newOwner.map Val.address] with
          | (_, _, some err) => (none, some err)
          | (logs, sub, none) =>
            (some { Event := none, contract := contract, event := "OwnershipTransferred",
                    logs := logs, sub := sub, done := false, fail := none }, none)) ∧
      WatchOwnershipTransferred contract wopts sink previousOwner newOwner =
        (match contract.WatchLogs wopts "OwnershipTransferred"
            [previousOwner.map Val.address, newOwner.map Val.address] with
          | (_, _, some err) => (none, some err)
          | (logs, sub, none) =>
            (some { contract := contract, logs := logs, sub := sub, sink := sink }, none)) ∧
      (previousOwner.map Val.address).length = previousOwner.length ∧
      (newOwner.map Val.address).length = newOwner.length ∧
      (∀ i : Nat, (previousOwner.map Val.address)[i]? = previousOwner[i]?.map Val.address) ∧
      (∀ i : Nat, (newOwner.map Val.address)[i]? = newOwner[i]?.map Val.address) ∧
      (∀ err,
        (contract.FilterLogs fopts "OwnershipTransferred"
            [previousOwner.map Val.address, newOwner.map Val.address]).2.2 = some err →
        FilterOwnershipTransferred contract fopts previousOwner newOwner = (none, some err)) ∧
      (∀ err,
        (contract.WatchLogs wopts "OwnershipTransferred"
            [previousOwner.map Val.address, newOwner.map Val.address]).2.2 = some err →
        WatchOwnershipTransferred contract wopts sink previousOwner newOwner =
          (none, some err)) := by
  have hf : FilterOwnershipTransferred contract fopts previousOwner newOwner =
      (match contract.FilterLogs fopts "OwnershipTransferred"
          [previousOwner.map Val.address, newOwner.map Val.address] with
        | (_, _, some err) => (none, some err)
        | (logs, sub, none) =>
          (some { Event := none, contract := contract, event := "OwnershipTransferred",
                  logs := logs, sub := sub, done := false, fail := none }, none)) := by
    unfold FilterOwnershipTransferred
    dsimp only
    rw [rule_foldl_eq_map, rule_foldl_eq_map, List.nil_append, List.nil_append]
  have hw : WatchOwnershipTransferred contract wopts sink previousOwner newOwner =
      (match contract.WatchLogs wopts "OwnershipTransferred"
          [previousOwner.map Val.address, newOwner.map Val.address] with
        | (_, _, some err) => (none, some err)
        | (logs, sub, none) =>
          (some { contract := contract, logs := logs, sub := sub, sink := sink }, none)) := by
    unfold WatchOwnershipTransferred
    dsimp only
    rw [rule_foldl_eq_map, rule_foldl_eq_map, List.nil_append, List.nil_append]
  refine ⟨hf, hw, List.length_map _ _, List.length_map _ _, fun i => List.getElem?_map _ _ _,
    fun i => List.getElem?_map _ _ _, ?_, ?_⟩
  · intro err herr
    rw [hf]
    generalize contract.FilterLogs fopts "OwnershipTransferred"
      [previousOwner.map Val.address, newOwner.map Val.address] = r at herr ⊢
    obtain ⟨logs, sub, e⟩ := r
    cases herr
    rfl
  · intro err herr
    rw [hw]
    generalize contract.WatchLogs wopts "OwnershipTransferred"
      [previousOwner.map Val.address, newOwner.map Val.address] = r at herr ⊢
    obtain ⟨logs, sub, e⟩ := r
    cases herr
    rfl

/-- Witness of C29: on a backend that finds nothing for one previous owner and
fails otherwise, the filter for the previous owner 3 gives an iterator and the
filter for no previous owner gives the error of the backend. -/
theorem Filter_and_Watch_pass_the_same_topic_rules_witness :
    (toyContract.FilterLogs { Start := 0, End := none } "OwnershipTransferred"
        [([] : List Nat).map Val.address, [4].map Val.address]).2.2 = some "filter failed" ∧
      FilterOwnershipTransferred toyContract { Start := 0, End := none } [] [4] =
        (none, some "filter failed") :=
  ⟨rfl, (Filter_and_Watch_pass_the_same_topic_rules toyContract { Start := 0, End := none }
    { Start := none } [] [] [4]).2.2.2.2.2.2.1 "filter failed" rfl⟩

/-- C30: in the `PriceManager` and `StakingManager` bindings every caller
method, when the underlying `Call` returns an error, returns the zero value of
its result type together with that error, whatever the output slice holds: the
slice is read after a successful `Call` only (`out[0]`, and `out[1]` in
`Stakes` and `Unlockings`).  When a successful `Call` yields as many outputs
as the ABI declares for the method (two for `stakes` and `unlockings`, one for
every other), no method panics on an index out of range. -/
theorem callers_return_zero_on_error_and_index_in_range :
    (∀ (b : StakingManagerCaller) (opts : CallOpts) (out : List Val) (e : GoError),
        b.contract.Call opts [] "getCountOfStakees" [] = (out, some e) →
        StakingManagerCaller.GetCountOfStakees b opts = .ok (none, some e)) ∧
      (∀ (b : StakingManagerCaller) (opts : CallOpts) (out : List Val),
        b.contract.Call opts [] "getCountOfStakees" [] = (out, none) →
        out.length = 1 →
        ∀ i len, StakingManagerCaller.GetCountOfStakees b opts ≠ .error (.indexOutOfRange i len)) ∧
      (∀ (b : StakingManagerCaller) (opts : CallOpts) (staker : Nat) (stakee : Nat)
          (out : List Val) (e : GoError),
        b.contract.Call opts [] "getKey" [Val.address staker, Val.address stakee] = (out, some e) →
        StakingManagerCaller.GetKey b opts staker stakee = .ok (List.replicate 32 0, some e)) ∧
      (∀ (b : StakingManagerCaller) (opts : CallOpts) (staker : Nat) (stakee : Nat)
          (out : List Val),
        b.contract.Call opts [] "getKey" [Val.address staker, Val.address stakee] = (out, none) →
        out.length = 1 →
        ∀ i len, StakingManagerCaller.GetKey b opts staker stakee ≠
          .error (.indexOutOfRange i len)) ∧
      (∀ (b : StakingManagerCaller) (opts : CallOpts) (staker : Nat) (stakee : Nat)
          (out : List Val) (e : GoError),
        b.contract.Call opts [] "getStake" [Val.address staker, Val.address stakee] =
          (out, some e) →
        StakingManagerCaller.GetStake b opts staker stakee =
          .ok (StakingManagerStake.zero, some e)) ∧
      (∀ (b : StakingManagerCaller) (opts : CallOpts) (staker : Nat) (stakee : Nat)
          (out : List Val),
        b.contract.Call opts [] "getStake" [Val.address staker, Val.address stakee] = (out, none) →
        out.length = 1 →
        ∀ i len, StakingManagerCaller.GetStake b opts staker stakee ≠
          .error (.indexOutOfRange i len)) ∧
      (∀ (b : StakingManagerCaller) (opts : CallOpts) (stakee : Nat) (out : List Val) (e : GoError),
        b.contract.Call opts [] "getStakers" [Val.address stakee] = (out, some e) →
        StakingManagerCaller.GetStakers b opts stakee = .ok ([], some e)) ∧
      (∀ (b : StakingManagerCaller) (opts : CallOpts) (stakee : Nat) (out : List Val),
        b.contract.Call opts [] "getStakers" [Val.address stakee] = (out, none) →
        out.length = 1 →
        ∀ i len, StakingManagerCaller.GetStakers b opts stakee ≠ .error (.indexOutOfRange i len)) ∧
      (∀ (b : StakingManagerCaller) (opts : CallOpts) (out : List Val) (e : GoError),
        b.contract.Call opts [] "getTotalStake" [] = (out, some e) →
        StakingManagerCaller.GetTotalStake b opts = .ok (none, some e)) ∧
      (∀ (b : StakingManagerCaller) (opts : CallOpts) (out : List Val),
        b.contract.Call opts [] "getTotalStake" [] = (out, none) →
        out.length = 1 →
        ∀ i len, StakingManagerCaller.GetTotalStake b opts ≠ .error (.indexOutOfRange i len)) ∧
      (∀ (b : StakingManagerCaller) (opts : CallOpts) (out : List Val) (e : GoError),
        b.contract.Call opts [] "owner" [] = (out, some e) →
        StakingManagerCaller.Owner b opts = .ok (0, some e)) ∧
      (∀ (b : StakingManagerCaller) (opts : CallOpts) (out : List Val),
        b.contract.Call opts [] "owner" [] = (out, none) →
        out.length = 1 →
        ∀ i len, StakingManagerCaller.Owner b opts ≠ .error (.indexOutOfRange i len)) ∧
      (∀ (b : StakingManagerCaller) (opts : CallOpts) (arg0 : BigInt)
          (out : List Val) (e : GoError),
        b.contract.Call opts [] "stakees" [Val.bigInt arg0] = (out, some e) →
        StakingManagerCaller.Stakees b opts arg0 = .ok (0, some e)) ∧
      (∀ (b : StakingManagerCaller) (opts : CallOpts) (arg0 : BigInt) (out : List Val),
        b.contract.Call opts [] "stakees" [Val.bigInt arg0] = (out, none) →
        out.length = 1 →
        ∀ i len, StakingManagerCaller.Stakees b opts arg0 ≠ .error (.indexOutOfRange i len)) ∧
      (∀ (b : StakingManagerCaller) (opts : CallOpts) (arg0 : Nat) (arg1 : BigInt)
          (out : List Val) (e : GoError),
        b.contract.Call opts [] "stakers" [Val.address arg0, Val.bigInt arg1] = (out, some e) →
        StakingManagerCaller.Stakers b opts arg0 arg1 = .ok (0, some e)) ∧
      (∀ (b : StakingManagerCaller) (opts : CallOpts) (arg0 : Nat) (arg1 : BigInt) (out : List Val),
        b.contract.Call opts [] "stakers" [Val.address arg0, Val.bigInt arg1] = (out, none) →
        out.length = 1 →
        ∀ i len, StakingManagerCaller.Stakers b opts arg0 arg1 ≠ .error (.indexOutOfRange i len)) ∧
      (∀ (b : StakingManagerCaller) (opts : CallOpts) (arg0 : List Byte)
          (out : List Val) (e : GoError),
        b.contract.Call opts [] "stakes" [Val.bytes32 arg0] = (out, some e) →
        StakingManagerCaller.Stakes b opts arg0 =
          .ok (({ Amount := none, Stakee := 0 } : StakesOutput), some e)) ∧
      (∀ (b : StakingManagerCaller) (opts : CallOpts) (arg0 : List Byte) (out : List Val),
        b.contract.Call opts [] "stakes" [Val.bytes32 arg0] = (out, none) →
        out.length = 2 →
        ∀ i len, StakingManagerCaller.Stakes b opts arg0 ≠ .error (.indexOutOfRange i len)) ∧
      (∀ (b : StakingManagerCaller) (opts : CallOpts) (out : List Val) (e : GoError),
        b.contract.Call opts [] "totalStake" [] = (out, some e) →
        StakingManagerCaller.TotalStake b opts = .ok (none, some e)) ∧
      (∀ (b : StakingManagerCaller) (opts : CallOpts) (out : List Val),
        b.contract.Call opts [] "totalStake" [] = (out, none) →
        out.length = 1 →
        ∀ i len, StakingManagerCaller.TotalStake b opts ≠ .error (.indexOutOfRange i len)) ∧
      (∀ (b : StakingManagerCaller) (opts : CallOpts) (arg0 : Nat) (out : List Val) (e : GoError),
        b.contract.Call opts [] "totalStakes" [Val.address arg0] = (out, some e) →
        StakingManagerCaller.TotalStakes b opts arg0 = .ok (none, some e)) ∧
      (∀ (b : StakingManagerCaller) (opts : CallOpts) (arg0 : Nat) (out : List Val),
        b.contract.Call opts [] "totalStakes" [Val.address arg0] = (out, none) →
        out.length = 1 →
        ∀ i len, StakingManagerCaller.TotalStakes b opts arg0 ≠ .error (.indexOutOfRange i len)) ∧
      (∀ (b : StakingManagerCaller) (opts : CallOpts) (out : List Val) (e : GoError),
        b.contract.Call opts [] "unlockDuration" [] = (out, some e) →
        StakingManagerCaller.UnlockDuration b opts = .ok (none, some e)) ∧
      (∀ (b : StakingManagerCaller) (opts : CallOpts) (out : List Val),
        b.contract.Call opts [] "unlockDuration" [] = (out, none) →
        out.length = 1 →
        ∀ i len, StakingManagerCaller.UnlockDuration b opts ≠ .error (.indexOutOfRange i len)) ∧
      (∀ (b : StakingManagerCaller) (opts : CallOpts) (arg0 : List Byte)
          (out : List Val) (e : GoError),
        b.contract.Call opts [] "unlockings" [Val.bytes32 arg0] = (out, some e) →
        StakingManagerCaller.Unlockings b opts arg0 =
          .ok (({ Amount := none, UnlockAt := none } : UnlockingsOutput), some e)) ∧
      (∀ (b : StakingManagerCaller) (opts : CallOpts) (arg0 : List Byte) (out : List Val),
        b.contract.Call opts [] "unlockings" [Val.bytes32 arg0] = (out, none) →
        out.length = 2 →
        ∀ i len, StakingManagerCaller.Unlockings b opts arg0 ≠ .error (.indexOutOfRange i len)) ∧
      (∀ (b : PriceManagerCaller) (opts : CallOpts) (out : List Val) (e : GoError),
        b.contract.Call opts [] "currentServicePrice" [] = (out, some e) →
        PriceManagerCaller.CurrentServicePrice b opts = .ok (none, some e)) ∧
      (∀ (b : PriceManagerCaller) (opts : CallOpts) (out : List Val),
        b.contract.Call opts [] "currentServicePrice" [] = (out, none) →
        out.length = 1 →
        ∀ i len, PriceManagerCaller.CurrentServicePrice b opts ≠ .error (.indexOutOfRange i len)) ∧
      (∀ (b : PriceManagerCaller) (opts : CallOpts) (out : List Val) (e : GoError),
        b.contract.Call opts [] "currentUpperPrice" [] = (out, some e) →
        PriceManagerCaller.CurrentUpperPrice b opts = .ok (none, some e)) ∧
      (∀ (b : PriceManagerCaller) (opts : CallOpts) (out : List Val),
        b.contract.Call opts [] "currentUpperPrice" [] = (out, none) →
        out.length = 1 →
        ∀ i len, PriceManagerCaller.CurrentUpperPrice b opts ≠ .error (.indexOutOfRange i len)) ∧
      (∀ (b : PriceManagerCaller) (opts : CallOpts) (out : List Val) (e : GoError),
        b.contract.Call opts [] "owner" [] = (out, some e) →
        PriceManagerCaller.Owner b opts = .ok (0, some e)) ∧
      (∀ (b : PriceManagerCaller) (opts : CallOpts) (out : List Val),
        b.contract.Call opts [] "owner" [] = (out, none) →
        out.length = 1 →
        ∀ i len, PriceManagerCaller.Owner b opts ≠ .error (.indexOutOfRange i len)) := by
  refine ⟨?_, ?_, ?_, ?_, ?_, ?_, ?_, ?_, ?_, ?_, ?_, ?_, ?_, ?_, ?_, ?_, ?_, ?_, ?_, ?_, ?_,
    ?_, ?_, ?_, ?_, ?_, ?_, ?_, ?_, ?_, ?_, ?_⟩
  · intro b opts out e h
    unfold StakingManagerCaller.GetCountOfStakees
    rw [h]
  · intro b opts out h hlen i len
    unfold StakingManagerCaller.GetCountOfStakees
    rw [h]
    exact outAs_bind_ne_indexOutOfRange _ out 0 (by omega) _
      (fun _ => pure_ne_indexOutOfRange _) i len
  · intro b opts staker stakee out e h
    unfold StakingManagerCaller.GetKey
    rw [h]
  · intro b opts staker stakee out h hlen i len
    unfold StakingManagerCaller.GetKey
    rw [h]
    exact outAs_bind_ne_indexOutOfRange _ out 0 (by omega) _
      (fun _ => pure_ne_indexOutOfRange _) i len
  · intro b opts staker stakee out e h
    unfold StakingManagerCaller.GetStake
    rw [h]
  · intro b opts staker stakee out h hlen i len
    unfold StakingManagerCaller.GetStake
    rw [h]
    exact outAs_bind_ne_indexOutOfRange _ out 0 (by omega) _
      (fun _ => pure_ne_indexOutOfRange _) i len
  · intro b opts stakee out e h
    unfold StakingManagerCaller.GetStakers
    rw [h]
  · intro b opts stakee out h hlen i len
    unfold StakingManagerCaller.GetStakers
    rw [h]
    exact outAs_bind_ne_indexOutOfRange _ out 0 (by omega) _
      (fun _ => pure_ne_indexOutOfRange _) i len
  · intro b opts out e h
    unfold StakingManagerCaller.GetTotalStake
    rw [h]
  · intro b opts out h hlen i len
    unfold StakingManagerCaller.GetTotalStake
    rw [h]
    exact outAs_bind_ne_indexOutOfRange _ out 0 (by omega) _
      (fun _ => pure_ne_indexOutOfRange _) i len
  · intro b opts out e h
    unfold StakingManagerCaller.Owner
    rw [h]
  · intro b opts out h hlen i len
    unfold StakingManagerCaller.Owner
    rw [h]
    exact outAs_bind_ne_indexOutOfRange _ out 0 (by omega) _
      (fun _ => pure_ne_indexOutOfRange _) i len
  · intro b opts arg0 out e h
    unfold StakingManagerCaller.Stakees
    rw [h]
  · intro b opts arg0 out h hlen i len
    unfold StakingManagerCaller.Stakees
    rw [h]
    exact outAs_bind_ne_indexOutOfRange _ out 0 (by omega) _
      (fun _ => pure_ne_indexOutOfRange _) i len
  · intro b opts arg0 arg1 out e h
    unfold StakingManagerCaller.Stakers
    rw [h]
  · intro b opts arg0 arg1 out h hlen i len
    unfold StakingManagerCaller.Stakers
    rw [h]
    exact outAs_bind_ne_indexOutOfRange _ out 0 (by omega) _
      (fun _ => pure_ne_indexOutOfRange _) i len
  · intro b opts arg0 out e h
    unfold StakingManagerCaller.Stakes
    dsimp only
    rw [h]
  · intro b opts arg0 out h hlen i len
    unfold StakingManagerCaller.Stakes
    dsimp only
    rw [h]
    exact outAs_bind_ne_indexOutOfRange _ out 0 (by omega) _
      (fun _ => outAs_bind_ne_indexOutOfRange _ out 1 (by omega) _
        (fun _ => pure_ne_indexOutOfRange _)) i len
  · intro b opts out e h
    unfold StakingManagerCaller.TotalStake
    rw [h]
  · intro b opts out h hlen i len
    unfold StakingManagerCaller.TotalStake
    rw [h]
    exact outAs_bind_ne_indexOutOfRange _ out 0 (by omega) _
      (fun _ => pure_ne_indexOutOfRange _) i len
  · intro b opts arg0 out e h
    unfold StakingManagerCaller.TotalStakes
    rw [h]
  · intro b opts arg0 out h hlen i len
    unfold StakingManagerCaller.TotalStakes
    rw [h]
    exact outAs_bind_ne_indexOutOfRange _ out 0 (by omega) _
      (fun _ => pure_ne_indexOutOfRange _) i len
  · intro b opts out e h
    unfold StakingManagerCaller.UnlockDuration
    rw [h]
  · intro b opts out h hlen i len
    unfold StakingManagerCaller.UnlockDuration
    rw [h]
    exact outAs_bind_ne_indexOutOfRange _ out 0 (by omega) _
      (fun _ => pure_ne_indexOutOfRange _) i len
  · intro b opts arg0 out e h
    unfold StakingManagerCaller.Unlockings
    dsimp only
    rw [h]
  · intro b opts arg0 out h hlen i len
    unfold StakingManagerCaller.Unlockings
    dsimp only
    rw [h]
    exact outAs_bind_ne_indexOutOfRange _ out 0 (by omega) _
      (fun _ => outAs_bind_ne_indexOutOfRange _ out 1 (by omega) _
        (fun _ => pure_ne_indexOutOfRange _)) i len
  · intro b opts out e h
    unfold PriceManagerCaller.CurrentServicePrice
    rw [h]
  · intro b opts out h hlen i len
    unfold PriceManagerCaller.CurrentServicePrice
    rw [h]
    exact outAs_bind_ne_indexOutOfRange _ out 0 (by omega) _
      (fun _ => pure_ne_indexOutOfRange _) i len
  · intro b opts out e h
    unfold PriceManagerCaller.CurrentUpperPrice
    rw [h]
  · intro b opts out h hlen i len
    unfold PriceManagerCaller.CurrentUpperPrice
    rw [h]
    exact outAs_bind_ne_indexOutOfRange _ out 0 (by omega) _
      (fun _ => pure_ne_indexOutOfRange _) i len
  · intro b opts out e h
    unfold PriceManagerCaller.Owner
    rw [h]
  · intro b opts out h hlen i len
    unfold PriceManagerCaller.Owner
    rw [h]
    exact outAs_bind_ne_indexOutOfRange _ out 0 (by omega) _
      (fun _ => pure_ne_indexOutOfRange _) i len

/-- Witness of C30: `Stakes` on a backend whose call yields the two outputs
5 and 9 returns them. -/
theorem callers_return_zero_on_error_and_index_in_range_witness :
    toyContract.Call toyCallOpts [] "stakes" [Val.bytes32 []] =
        ([Val.bigInt (some 5), Val.address 9], none) ∧
      [Val.bigInt (some 5), Val.address 9].length = 2 ∧
      StakingManagerCaller.Stakes { contract := toyContract } toyCallOpts [] ≠
        .error (.indexOutOfRange 1 1) ∧
      StakingManagerCaller.Stakes { contract := toyContract } toyCallOpts [] =
        .ok ({ Amount := some 5, Stakee := 9 }, none) :=
  ⟨rfl, rfl,
    callers_return_zero_on_error_and_index_in_range.2.2.2.2.2.2.2.2.2.2.2.2.2.2.2.2.2.1
      { contract := toyContract } toyCallOpts [] _ rfl rfl 1 1, rfl⟩

/-- C24: every method of a `Session`, `CallerSession` or `TransactorSession`
of the three bindings returns what the method of the same name of its
`Contract` returns (the caller for calls, the transactor for transactions)
when called with the `CallOpts` or `TransactOpts` of the session and the same
arguments in the same order. -/
theorem sessions_forward_to_the_contract_methods :
    (∀ (s : SyloTicketingSession) (arg0 : Nat),
        SyloTicketingSession.Deposits s arg0 =
          SyloTicketingCaller.Deposits s.Contract.SyloTicketingCaller s.CallOpts arg0) ∧
      (∀ (s : SyloTicketingCallerSession) (arg0 : Nat),
        SyloTicketingCallerSession.Deposits s arg0 =
          SyloTicketingCaller.Deposits s.Contract s.CallOpts arg0) ∧
      (∀ (s : SyloTicketingSession) (ticket : Ticket),
        SyloTicketingSession.GetTicketHash s ticket =
          SyloTicketingCaller.GetTicketHash s.Contract.SyloTicketingCaller s.CallOpts ticket) ∧
      (∀ (s : SyloTicketingCallerSession) (ticket : Ticket),
        SyloTicketingCallerSession.GetTicketHash s ticket =
          SyloTicketingCaller.GetTicketHash s.Contract s.CallOpts ticket) ∧
      (∀ (s : SyloTicketingSession),
        SyloTicketingSession.Owner s =
          SyloTicketingCaller.Owner s.Contract.SyloTicketingCaller s.CallOpts) ∧
      (∀ (s : SyloTicketingCallerSession),
        SyloTicketingCallerSession.Owner s =
          SyloTicketingCaller.Owner s.Contract s.CallOpts) ∧
      (∀ (s : SyloTicketingSession),
        SyloTicketingSession.UnlockDuration s =
          SyloTicketingCaller.UnlockDuration s.Contract.SyloTicketingCaller s.CallOpts) ∧
      (∀ (s : SyloTicketingCallerSession),
        SyloTicketingCallerSession.UnlockDuration s =
          SyloTicketingCaller.UnlockDuration s.Contract s.CallOpts) ∧
      (∀ (s : SyloTicketingSession) (arg0 : List Byte),
        SyloTicketingSession.UsedTickets s arg0 =
          SyloTicketingCaller.UsedTickets s.Contract.SyloTicketingCaller s.CallOpts arg0) ∧
      (∀ (s : SyloTicketingCallerSession) (arg0 : List Byte),
        SyloTicketingCallerSession.UsedTickets s arg0 =
          SyloTicketingCaller.UsedTickets s.Contract s.CallOpts arg0) ∧
      (∀ (s : SyloTicketingSession) (amount : BigInt),
        SyloTicketingSession.DepositEscrow s amount =
          SyloTicketingTransactor.DepositEscrow s.Contract.SyloTicketingTransactor
            s.TransactOpts amount) ∧
      (∀ (s : SyloTicketingTransactorSession) (amount : BigInt),
        SyloTicketingTransactorSession.DepositEscrow s amount =
          SyloTicketingTransactor.DepositEscrow s.Contract s.TransactOpts amount) ∧
      (∀ (s : SyloTicketingSession) (amount : BigInt) (account : Nat),
        SyloTicketingSession.DepositEscrowFor s amount account =
          SyloTicketingTransactor.DepositEscrowFor s.Contract.SyloTicketingTransactor
            s.TransactOpts amount account) ∧
      (∀ (s : SyloTicketingTransactorSession) (amount : BigInt) (account : Nat),
        SyloTicketingTransactorSession.DepositEscrowFor s amount account =
          SyloTicketingTransactor.DepositEscrowFor s.Contract s.TransactOpts amount account) ∧
      (∀ (s : SyloTicketingSession) (amount : BigInt),
        SyloTicketingSession.DepositPenalty s amount =
          SyloTicketingTransactor.DepositPenalty s.Contract.SyloTicketingTransactor
            s.TransactOpts amount) ∧
      (∀ (s : SyloTicketingTransactorSession) (amount : BigInt),
        SyloTicketingTransactorSession.DepositPenalty s amount =
          SyloTicketingTransactor.DepositPenalty s.Contract s.TransactOpts amount) ∧
      (∀ (s : SyloTicketingSession) (amount : BigInt) (account : Nat),
        SyloTicketingSession.DepositPenaltyFor s amount account =
          SyloTicketingTransactor.DepositPenaltyFor s.Contract.SyloTicketingTransactor
            s.TransactOpts amount account) ∧
      (∀ (s : SyloTicketingTransactorSession) (amount : BigInt) (account : Nat),
        SyloTicketingTransactorSession.DepositPenaltyFor s amount account =
          SyloTicketingTransactor.DepositPenaltyFor s.Contract s.TransactOpts amount account) ∧
      (∀ (s : SyloTicketingSession),
        SyloTicketingSession.LockDeposits s =
          SyloTicketingTransactor.LockDeposits s.Contract.SyloTicketingTransactor s.TransactOpts) ∧
      (∀ (s : SyloTicketingTransactorSession),
        SyloTicketingTransactorSession.LockDeposits s =
          SyloTicketingTransactor.LockDeposits s.Contract s.TransactOpts) ∧
      (∀ (s : SyloTicketingSession) (ticket : Ticket) (receiverRand : BigInt) (sig : List Byte),
        SyloTicketingSession.Redeem s ticket receiverRand sig =
          SyloTicketingTransactor.Redeem s.Contract.SyloTicketingTransactor
            s.TransactOpts ticket receiverRand sig) ∧
      (∀ (s : SyloTicketingTransactorSession)
          (ticket : Ticket) (receiverRand : BigInt) (sig : List Byte),
        SyloTicketingTransactorSession.Redeem s ticket receiverRand sig =
          SyloTicketingTransactor.Redeem s.Contract s.TransactOpts ticket receiverRand sig) ∧
      (∀ (s : SyloTicketingSession),
        SyloTicketingSession.RenounceOwnership s =
          SyloTicketingTransactor.RenounceOwnership s.Contract.SyloTicketingTransactor
            s.TransactOpts) ∧
      (∀ (s : SyloTicketingTransactorSession),
        SyloTicketingTransactorSession.RenounceOwnership s =
          SyloTicketingTransactor.RenounceOwnership s.Contract s.TransactOpts) ∧
      (∀ (s : SyloTicketingSession) (newUnlockDuration : BigInt),
        SyloTicketingSession.SetUnlockDuration s newUnlockDuration =
          SyloTicketingTransactor.SetUnlockDuration s.Contract.SyloTicketingTransactor
            s.TransactOpts newUnlockDuration) ∧
      (∀ (s : SyloTicketingTransactorSession) (newUnlockDuration : BigInt),
        SyloTicketingTransactorSession.SetUnlockDuration s newUnlockDuration =
          SyloTicketingTransactor.SetUnlockDuration s.Contract s.TransactOpts newUnlockDuration) ∧
      (∀ (s : SyloTicketingSession) (newOwner : Nat),
        SyloTicketingSession.TransferOwnership s newOwner =
          SyloTicketingTransactor.TransferOwnership s.Contract.SyloTicketingTransactor
            s.TransactOpts newOwner) ∧
      (∀ (s : SyloTicketingTransactorSession) (newOwner : Nat),
        SyloTicketingTransactorSession.TransferOwnership s newOwner =
          SyloTicketingTransactor.TransferOwnership s.Contract s.TransactOpts newOwner) ∧
      (∀ (s : SyloTicketingSession),
        SyloTicketingSession.UnlockDeposits s =
          SyloTicketingTransactor.UnlockDeposits s.Contract.SyloTicketingTransactor s.TransactOpts) ∧
      (∀ (s : SyloTicketingTransactorSession),
        SyloTicketingTransactorSession.UnlockDeposits s =
          SyloTicketingTransactor.UnlockDeposits s.Contract s.TransactOpts) ∧
      (∀ (s : SyloTicketingSession),
        SyloTicketingSession.Withdraw s =
          SyloTicketingTransactor.Withdraw s.Contract.SyloTicketingTransactor s.TransactOpts) ∧
      (∀ (s : SyloTicketingTransactorSession),
        SyloTicketingTransactorSession.Withdraw s =
          SyloTicketingTransactor.Withdraw s.Contract s.TransactOpts) ∧
      (∀ (s : SyloTicketingSession) (account : Nat),
        SyloTicketingSession.WithdrawTo s account =
          SyloTicketingTransactor.WithdrawTo s.Contract.SyloTicketingTransactor
            s.TransactOpts account) ∧
      (∀ (s : SyloTicketingTransactorSession) (account : Nat),
        SyloTicketingTransactorSession.WithdrawTo s account =
          SyloTicketingTransactor.WithdrawTo s.Contract s.TransactOpts account) ∧
      (∀ (s : StakingManagerSession),
        StakingManagerSession.GetCountOfStakees s =
          StakingManagerCaller.GetCountOfStakees s.Contract.StakingManagerCaller s.CallOpts) ∧
      (∀ (s : StakingManagerCallerSession),
        StakingManagerCallerSession.GetCountOfStakees s =
          StakingManagerCaller.GetCountOfStakees s.Contract s.CallOpts) ∧
      (∀ (s : StakingManagerSession) (staker : Nat) (stakee : Nat),
        StakingManagerSession.GetKey s staker stakee =
          StakingManagerCaller.GetKey s.Contract.StakingManagerCaller s.CallOpts staker stakee) ∧
      (∀ (s : StakingManagerCallerSession) (staker : Nat) (stakee : Nat),
        StakingManagerCallerSession.GetKey s staker stakee =
          StakingManagerCaller.GetKey s.Contract s.CallOpts staker stakee) ∧
      (∀ (s : StakingManagerSession) (staker : Nat) (stakee : Nat),
        StakingManagerSession.GetStake s staker stakee =
          StakingManagerCaller.GetStake s.Contract.StakingManagerCaller s.CallOpts staker stakee) ∧
      (∀ (s : StakingManagerCallerSession) (staker : Nat) (stakee : Nat),
        StakingManagerCallerSession.GetStake s staker stakee =
          StakingManagerCaller.GetStake s.Contract s.CallOpts staker stakee) ∧
      (∀ (s : StakingManagerSession) (stakee : Nat),
        StakingManagerSession.GetStakers s stakee =
          StakingManagerCaller.GetStakers s.Contract.StakingManagerCaller s.CallOpts stakee) ∧
      (∀ (s : StakingManagerCallerSession) (stakee : Nat),
        StakingManagerCallerSession.GetStakers s stakee =
          StakingManagerCaller.GetStakers s.Contract s.CallOpts stakee) ∧
      (∀ (s : StakingManagerSession),
        StakingManagerSession.GetTotalStake s =
          StakingManagerCaller.GetTotalStake s.Contract.StakingManagerCaller s.CallOpts) ∧
      (∀ (s : StakingManagerCallerSession),
        StakingManagerCallerSession.GetTotalStake s =
          StakingManagerCaller.GetTotalStake s.Contract s.CallOpts) ∧
      (∀ (s : StakingManagerSession),
        StakingManagerSession.Owner s =
          StakingManagerCaller.Owner s.Contract.StakingManagerCaller s.CallOpts) ∧
      (∀ (s : StakingManagerCallerSession),
        StakingManagerCallerSession.Owner s =
          StakingManagerCaller.Owner s.Contract s.CallOpts) ∧
      (∀ (s : StakingManagerSession) (arg0 : BigInt),
        StakingManagerSession.Stakees s arg0 =
          StakingManagerCaller.Stakees s.Contract.StakingManagerCaller s.CallOpts arg0) ∧
      (∀ (s : StakingManagerCallerSession) (arg0 : BigInt),
        StakingManagerCallerSession.Stakees s arg0 =
          StakingManagerCaller.Stakees s.Contract s.CallOpts arg0) ∧
      (∀ (s : StakingManagerSession) (arg0 : Nat) (arg1 : BigInt),
        StakingManagerSession.Stakers s arg0 arg1 =
          StakingManagerCaller.Stakers s.Contract.StakingManagerCaller s.CallOpts arg0 arg1) ∧
      (∀ (s : StakingManagerCallerSession) (arg0 : Nat) (arg1 : BigInt),
        StakingManagerCallerSession.Stakers s arg0 arg1 =
          StakingManagerCaller.Stakers s.Contract s.CallOpts arg0 arg1) ∧
      (∀ (s : StakingManagerSession) (arg0 : List Byte),
        StakingManagerSession.Stakes s arg0 =
          StakingManagerCaller.Stakes s.Contract.StakingManagerCaller s.CallOpts arg0) ∧
      (∀ (s : StakingManagerCallerSession) (arg0 : List Byte),
        StakingManagerCallerSession.Stakes s arg0 =
          StakingManagerCaller.Stakes s.Contract s.CallOpts arg0) ∧
      (∀ (s : StakingManagerSession),
        StakingManagerSession.TotalStake s =
          StakingManagerCaller.TotalStake s.Contract.StakingManagerCaller s.CallOpts) ∧
      (∀ (s : StakingManagerCallerSession),
        StakingManagerCallerSession.TotalStake s =
          StakingManagerCaller.TotalStake s.Contract s.CallOpts) ∧
      (∀ (s : StakingManagerSession) (arg0 : Nat),
        StakingManagerSession.TotalStakes s arg0 =
          StakingManagerCaller.TotalStakes s.Contract.StakingManagerCaller s.CallOpts arg0) ∧
      (∀ (s : StakingManagerCallerSession) (arg0 : Nat),
        StakingManagerCallerSession.TotalStakes s arg0 =
          StakingManagerCaller.TotalStakes s.Contract s.CallOpts arg0) ∧
      (∀ (s : StakingManagerSession),
        StakingManagerSession.UnlockDuration s =
          StakingManagerCaller.UnlockDuration s.Contract.StakingManagerCaller s.CallOpts) ∧
      (∀ (s : StakingManagerCallerSession),
        StakingManagerCallerSession.UnlockDuration s =
          StakingManagerCaller.UnlockDuration s.Contract s.CallOpts) ∧
      (∀ (s : StakingManagerSession) (arg0 : List Byte),
        StakingManagerSession.Unlockings s arg0 =
          StakingManagerCaller.Unlockings s.Contract.StakingManagerCaller s.CallOpts arg0) ∧
      (∀ (s : StakingManagerCallerSession) (arg0 : List Byte),
        StakingManagerCallerSession.Unlockings s arg0 =
          StakingManagerCaller.Unlockings s.Contract s.CallOpts arg0) ∧
      (∀ (s : StakingManagerSession) (amount : BigInt) (stakee : Nat),
        StakingManagerSession.AddStake s amount stakee =
          StakingManagerTransactor.AddStake s.Contract.StakingManagerTransactor
            s.TransactOpts amount stakee) ∧
      (∀ (s : StakingManagerTransactorSession) (amount : BigInt) (stakee : Nat),
        StakingManagerTransactorSession.AddStake s amount stakee =
          StakingManagerTransactor.AddStake s.Contract s.TransactOpts amount stakee) ∧
      (∀ (s : StakingManagerSession) (amount : BigInt) (stakee : Nat),
        StakingManagerSession.CancelUnlocking s amount stakee =
          StakingManagerTransactor.CancelUnlocking s.Contract.StakingManagerTransactor
            s.TransactOpts amount stakee) ∧
      (∀ (s : StakingManagerTransactorSession) (amount : BigInt) (stakee : Nat),
        StakingManagerTransactorSession.CancelUnlocking s amount stakee =
          StakingManagerTransactor.CancelUnlocking s.Contract s.TransactOpts amount stakee) ∧
      (∀ (s : StakingManagerSession) (token : Nat) (_unlockDuration : BigInt),
        StakingManagerSession.Initialize s token _unlockDuration =
          StakingManagerTransactor.Initialize s.Contract.StakingManagerTransactor
            s.TransactOpts token _unlockDuration) ∧
      (∀ (s : StakingManagerTransactorSession) (token : Nat) (_unlockDuration : BigInt),
        StakingManagerTransactorSession.Initialize s token _unlockDuration =
          StakingManagerTransactor.Initialize s.Contract s.TransactOpts token _unlockDuration) ∧
      (∀ (s : StakingManagerSession),
        StakingManagerSession.RenounceOwnership s =
          StakingManagerTransactor.RenounceOwnership s.Contract.StakingManagerTransactor
            s.TransactOpts) ∧
      (∀ (s : StakingManagerTransactorSession),
        StakingManagerTransactorSession.RenounceOwnership s =
          StakingManagerTransactor.RenounceOwnership s.Contract s.TransactOpts) ∧
      (∀ (s : StakingManagerSession) (newUnlockDuration : BigInt),
        StakingManagerSession.SetUnlockDuration s newUnlockDuration =
          StakingManagerTransactor.SetUnlockDuration s.Contract.StakingManagerTransactor
            s.TransactOpts newUnlockDuration) ∧
      (∀ (s : StakingManagerTransactorSession) (newUnlockDuration : BigInt),
        StakingManagerTransactorSession.SetUnlockDuration s newUnlockDuration =
          StakingManagerTransactor.SetUnlockDuration s.Contract s.TransactOpts newUnlockDuration) ∧
      (∀ (s : StakingManagerSession) (newOwner : Nat),
        StakingManagerSession.TransferOwnership s newOwner =
          StakingManagerTransactor.TransferOwnership s.Contract.StakingManagerTransactor
            s.TransactOpts newOwner) ∧
      (∀ (s : StakingManagerTransactorSession) (newOwner : Nat),
        StakingManagerTransactorSession.TransferOwnership s newOwner =
          StakingManagerTransactor.TransferOwnership s.Contract s.TransactOpts newOwner) ∧
      (∀ (s : StakingManagerSession) (amount : BigInt) (stakee : Nat),
        StakingManagerSession.UnlockStake s amount stakee =
          StakingManagerTransactor.UnlockStake s.Contract.StakingManagerTransactor
            s.TransactOpts amount stakee) ∧
      (∀ (s : StakingManagerTransactorSession) (amount : BigInt) (stakee : Nat),
        StakingManagerTransactorSession.UnlockStake s amount stakee =
          StakingManagerTransactor.UnlockStake s.Contract s.TransactOpts amount stakee) ∧
      (∀ (s : StakingManagerSession) (stakee : Nat),
        StakingManagerSession.WithdrawStake s stakee =
          StakingManagerTransactor.WithdrawStake s.Contract.StakingManagerTransactor
            s.TransactOpts stakee) ∧
      (∀ (s : StakingManagerTransactorSession) (stakee : Nat),
        StakingManagerTransactorSession.WithdrawStake s stakee =
          StakingManagerTransactor.WithdrawStake s.Contract s.TransactOpts stakee) ∧
      (∀ (s : PriceManagerSession),
        PriceManagerSession.CurrentServicePrice s =
          PriceManagerCaller.CurrentServicePrice s.Contract.PriceManagerCaller s.CallOpts) ∧
      (∀ (s : PriceManagerCallerSession),
        PriceManagerCallerSession.CurrentServicePrice s =
          PriceManagerCaller.CurrentServicePrice s.Contract s.CallOpts) ∧
      (∀ (s : PriceManagerSession),
        PriceManagerSession.CurrentUpperPrice s =
          PriceManagerCaller.CurrentUpperPrice s.Contract.PriceManagerCaller s.CallOpts) ∧
      (∀ (s : PriceManagerCallerSession),
        PriceManagerCallerSession.CurrentUpperPrice s =
          PriceManagerCaller.CurrentUpperPrice s.Contract s.CallOpts) ∧
      (∀ (s : PriceManagerSession),
        PriceManagerSession.Owner s =
          PriceManagerCaller.Owner s.Contract.PriceManagerCaller s.CallOpts) ∧
      (∀ (s : PriceManagerCallerSession),
        PriceManagerCallerSession.Owner s =
          PriceManagerCaller.Owner s.Contract s.CallOpts) ∧
      (∀ (s : PriceManagerSession) (sortedIndexes : List BigInt),
        PriceManagerSession.CalculatePrices s sortedIndexes =
          PriceManagerTransactor.CalculatePrices s.Contract.PriceManagerTransactor
            s.TransactOpts sortedIndexes) ∧
      (∀ (s : PriceManagerTransactorSession) (sortedIndexes : List BigInt),
        PriceManagerTransactorSession.CalculatePrices s sortedIndexes =
          PriceManagerTransactor.CalculatePrices s.Contract s.TransactOpts sortedIndexes) ∧
      (∀ (s : PriceManagerSession) (stakingManager : Nat) (voting : Nat),
        PriceManagerSession.Initialize s stakingManager voting =
          PriceManagerTransactor.Initialize s.Contract.PriceManagerTransactor
            s.TransactOpts stakingManager voting) ∧
      (∀ (s : PriceManagerTransactorSession) (stakingManager : Nat) (voting : Nat),
        PriceManagerTransactorSession.Initialize s stakingManager voting =
          PriceManagerTransactor.Initialize s.Contract s.TransactOpts stakingManager voting) ∧
      (∀ (s : PriceManagerSession),
        PriceManagerSession.RenounceOwnership s =
          PriceManagerTransactor.RenounceOwnership s.Contract.PriceManagerTransactor s.TransactOpts) ∧
      (∀ (s : PriceManagerTransactorSession),
        PriceManagerTransactorSession.RenounceOwnership s =
          PriceManagerTransactor.RenounceOwnership s.Contract s.TransactOpts) ∧
      (∀ (s : PriceManagerSession) (newOwner : Nat),
        PriceManagerSession.TransferOwnership s newOwner =
          PriceManagerTransactor.TransferOwnership s.Contract.PriceManagerTransactor
            s.TransactOpts newOwner) ∧
      (∀ (s : PriceManagerTransactorSession) (newOwner : Nat),
        PriceManagerTransactorSession.TransferOwnership s newOwner =
          PriceManagerTransactor.TransferOwnership s.Contract s.TransactOpts newOwner) := by
  refine ⟨?_, ?_, ?_, ?_, ?_, ?_, ?_, ?_, ?_, ?_, ?_, ?_, ?_, ?_, ?_, ?_, ?_, ?_, ?_, ?_, ?_,
    ?_, ?_, ?_, ?_, ?_, ?_, ?_, ?_, ?_, ?_, ?_, ?_, ?_, ?_, ?_, ?_, ?_, ?_, ?_, ?_, ?_, ?_, ?_,
    ?_, ?_, ?_, ?_, ?_, ?_, ?_, ?_, ?_, ?_, ?_, ?_, ?_, ?_, ?_, ?_, ?_, ?_, ?_, ?_, ?_, ?_, ?_,
    ?_, ?_, ?_, ?_, ?_, ?_, ?_, ?_, ?_, ?_, ?_, ?_, ?_, ?_, ?_, ?_, ?_, ?_, ?_, ?_, ?_, ?_, ?_⟩
    <;> intros <;> rfl

end Sylo
